import Mathlib

/-!
Scene graph and forward renderer: a shallow embedding.

The definitions below follow `source/common/ecs/entity.cpp`,
`source/common/systems/forward-renderer.cpp`, `source/common/application.hpp` and
`source/common/input/keyboard.hpp`.

Conventions.

* Scalars (`float` in the source) are elements of a linear ordered commutative ring `K`
  (exact arithmetic: the integers, the rationals, the reals).
* `glm::mat4` is `Matrix (Fin 4) (Fin 4) K`, indexed row first: the glm
  expression `m[c][r]` (column `c`, row `r`) is `m r c` here.  The glm
  product `A * B` is the ordinary matrix product.
* A pointer that the source tests or dereferences is an `Option`; dereferencing
  a null pointer makes the enclosing operation return `none`.
* Functions of collaborators whose code is outside the files at hand
  (`Transform::toMat4`, `glm::inversesqrt`, `glm::inverse`, the camera's view
  and projection matrices, `std::sort`, the clock) are parameters, bundled in
  `Collaborators`.
-/

namespace our

/-! ## glm value types -/

/-- The glm type `vec2`. -/
structure Vec2 (K : Type) where
  x : K
  y : K
deriving DecidableEq, Repr

/-- The glm type `vec3`. -/
structure Vec3 (K : Type) where
  x : K
  y : K
  z : K
deriving DecidableEq, Repr

/-- The glm type `vec4`, as a column vector indexed by `Fin 4`. -/
abbrev Vec4 (K : Type) := Fin 4 → K

/-- The glm type `mat4`; entry `m r c` is row `r`, column `c`. -/
abbrev Mat4 (K : Type) := Matrix (Fin 4) (Fin 4) K

section glm

variable {K : Type}

/-- The glm constructor `vec4(v, w)`. -/
def vec4 (v : Vec3 K) (w : K) : Vec4 K := ![v.x, v.y, v.z, w]

/-- The glm conversion `vec3(v)` of a `vec4`: the first three coordinates. -/
def Vec3.ofVec4 (v : Vec4 K) : Vec3 K := ⟨v 0, v 1, v 2⟩

/-- Componentwise difference `a - b` of two `vec3`. -/
def Vec3.sub [Sub K] (a b : Vec3 K) : Vec3 K := ⟨a.x - b.x, a.y - b.y, a.z - b.z⟩

/-- Product `v * s` of a `vec3` with a scalar. -/
def Vec3.scale [Mul K] (v : Vec3 K) (s : K) : Vec3 K := ⟨v.x * s, v.y * s, v.z * s⟩

/-- The glm function `dot` on `vec3`. -/
def dot [Add K] [Mul K] (a b : Vec3 K) : K := a.x * b.x + a.y * b.y + a.z * b.z

/-- The glm function `normalize`, which is `v * inversesqrt(dot(v, v))`. -/
def normalize [Add K] [Mul K] (inversesqrt : K → K) (v : Vec3 K) : Vec3 K :=
  v.scale (inversesqrt (dot v v))

/-- The sixteen-argument glm constructor `mat4(x0, y0, z0, w0, x1, ...)`: the arguments
fill the matrix column by column. -/
def mat4ColumnMajor (x0 y0 z0 w0 x1 y1 z1 w1 x2 y2 z2 w2 x3 y3 z3 w3 : K) : Mat4 K :=
  Matrix.of ![![x0, x1, x2, x3], ![y0, y1, y2, y3], ![z0, z1, z2, z3], ![w0, w1, w2, w3]]

end glm

/-! ## Components and entities -/

/-- The class `Transform`: position, rotation (Euler angles) and scale. -/
structure Transform (K : Type) where
  position : Vec3 K
  rotation : Vec3 K
  scale : Vec3 K
deriving DecidableEq, Repr

/-- The enum `CameraType` of `camera.hpp`. -/
inductive CameraType where
  | ORTHOGRAPHIC
  | PERSPECTIVE
deriving DecidableEq, Repr

/-- The data members of `CameraComponent` (`camera.hpp`). -/
structure CameraComponent (K : Type) where
  cameraType : CameraType
  near : K
  far : K
  fovY : K
  orthoHeight : K
  distance : K
  height : K
  lookAtPoint : Vec3 K
  followOwner : Bool
  current_position : Vec3 K
  current_lookat : Vec3 K
  current_up : Vec3 K
deriving DecidableEq, Repr

/-- A shader program object, identified by its handle. -/
structure ShaderProgram where
  handle : Nat
deriving DecidableEq, Repr

/-- A mesh object, identified by its handle. -/
structure Mesh where
  handle : Nat
deriving DecidableEq, Repr

/-- A material object as the renderer sees it through a `Material*`: the shader pointer,
the transparency flag, the texture and sampler pointers of a textured material, the
`depthMask` toggle of its pipeline state, and the outcome of the two `dynamic_cast`
tests made by the draw loops. -/
structure Material where
  shader : Option ShaderProgram
  transparent : Bool
  isLitMaterial : Bool
  isLitTexturedMaterial : Bool
  texture : Option Nat
  sampler : Option Nat
  depthMask : Bool
deriving DecidableEq, Repr

/-- The component `MeshRendererComponent`: a mesh pointer and a material pointer. -/
structure MeshRendererComponent where
  mesh : Option Mesh
  material : Option Material
deriving DecidableEq, Repr

/-- The component `LightComponent`, with the fields that the renderer pushes as uniforms. -/
structure LightComponent (K : Type) where
  lightType : Int
  direction : Vec3 K
  color : Vec3 K
  coneAngles : Vec2 K
  attenuation : Vec3 K
  intensity : K
deriving DecidableEq, Repr

/-- The marker component `BallComponent`; it carries no data the renderer reads. -/
structure BallComponent where
  marker : Unit
deriving DecidableEq, Repr

/-- The enum `Movement_Type` of `movement.hpp`. -/
inductive Movement_Type where
  | NORMAL
  | FIXED_DIRECTION
  | FIXED_ROTATION
deriving DecidableEq, Repr

/-- The data members of `MovementComponent` (`movement.hpp`). -/
structure MovementComponent (K : Type) where
  movementType : Movement_Type
  directedMovementMode : Bool
  targetPointInWorldSpace : Vec3 K
  forward : Vec3 K
  current_velocity : K
  min_velocity : K
  max_velocity : K
  slowdownFactor : K
  constant_movement : Bool
  final_value : Vec3 K
  canRoll : Bool
  current_angle : Vec3 K
  angular_velocity : Vec3 K
  max_angular_velocity : K
  angularSlowdownFactor : K
  lastWallNormal : Vec3 K
  stopMovingOneFrame : Bool
  collidedWallNormal : Vec3 K
  ascending : Bool
  descending : Bool
  vertical_velocity : K
  boosting : Bool
deriving DecidableEq, Repr

/-- The components an entity owns, one slot per component kind: `getComponent<T>()` reads
the slot of kind `T` and is null (`none`) when the entity has no such component. -/
structure Components (K : Type) where
  camera : Option (CameraComponent K)
  meshRenderer : Option MeshRendererComponent
  light : Option (LightComponent K)
  ball : Option BallComponent
  movement : Option (MovementComponent K)

/-- The class `Entity`: a name, a local transform, the owned components and the parent
pointer (`none` for a root).  The parent is part of the value, so a parent chain is finite
and acyclic by construction. -/
inductive Entity (K : Type) where
  | mk (name : String) (localTransform : Transform K) (components : Components K)
      (parent : Option (Entity K))

namespace Entity

variable {K : Type}

/-- The member `name`. -/
def name : Entity K → String
  | mk n _ _ _ => n

/-- The member `localTransform`. -/
def localTransform : Entity K → Transform K
  | mk _ t _ _ => t

/-- The component slots of the entity. -/
def components : Entity K → Components K
  | mk _ _ c _ => c

/-- The member `parent`. -/
def parent : Entity K → Option (Entity K)
  | mk _ _ _ p => p

/-- The `while` loop of `Entity::getLocalToWorldMatrix`, entered with a non-null
`currentNode` and the matrix accumulated so far: one iteration multiplies the local matrix
of `currentNode` on the left and moves to the parent; the loop ends at a null parent. -/
def getLocalToWorldMatrix.loop [Semiring K] (toMat4 : Transform K → Mat4 K) :
    Entity K → Mat4 K → Mat4 K
  | mk _ t _ none, TransformationMatrix => toMat4 t * TransformationMatrix
  | mk _ t _ (some p), TransformationMatrix =>
      getLocalToWorldMatrix.loop toMat4 p (toMat4 t * TransformationMatrix)

/-- The method `Entity::getLocalToWorldMatrix`: the loop started at `this` with the
identity matrix. -/
def getLocalToWorldMatrix [Semiring K] (toMat4 : Transform K → Mat4 K) (e : Entity K) :
    Mat4 K :=
  getLocalToWorldMatrix.loop toMat4 e 1

/-- The method `Entity::getLocalToWorldCenter`: column 3 of the local-to-world matrix. -/
def getLocalToWorldCenter [Semiring K] (toMat4 : Transform K → Mat4 K) (e : Entity K) :
    Vec3 K :=
  ⟨getLocalToWorldMatrix toMat4 e 0 3, getLocalToWorldMatrix toMat4 e 1 3,
    getLocalToWorldMatrix toMat4 e 2 3⟩

/-- The parent chain `E0 = e, E1, ..., En` of an entity, from the entity to its root-most
ancestor. -/
def chain : Entity K → List (Entity K)
  | mk n t c none => [mk n t c none]
  | mk n t c (some p) => mk n t c (some p) :: chain p

end Entity

/-- The class `World`: `entities` lists the entities in the traversal order of
`world->getEntities()`. -/
structure World (K : Type) where
  entities : List (Entity K)

/-! ## Render commands and renderer state -/

/-- The struct `RenderCommand`. -/
structure RenderCommand (K : Type) where
  localToWorld : Mat4 K
  center : Vec3 K
  mesh : Option Mesh
  material : Option Material
deriving DecidableEq

/-- The struct `BallCommand`: a render command for the special (ball) bucket, with the
rotation angle and axis read from the parent's `MovementComponent`. -/
structure BallCommand (K : Type) where
  localToWorld : Mat4 K
  center : Vec3 K
  mesh : Option Mesh
  material : Option Material
  angle : K
  direction : Vec3 K
  filled : Bool
deriving DecidableEq

/-- An entry of `lightsSources`: a `LightComponent*` together with the entity returned by
its `getOwner()`. -/
structure LightSource (K : Type) where
  light : LightComponent K
  owner : Entity K

/-- The data members of `ForwardRenderer` that `render` reads or writes. -/
structure ForwardRenderer (K : Type) where
  windowSize : Int × Int
  skySphere : Option Mesh
  skyMaterial : Option Material
  postprocessFrameBuffer : Nat
  postProcessVertexArray : Nat
  colorTarget : Option Nat
  depthTarget : Option Nat
  postprocessMaterial : Option Material
  opaqueCommands : List (RenderCommand K)
  transparentCommands : List (RenderCommand K)
  lightsSources : List (LightSource K)

/-- A value passed to `ShaderProgram::set`. -/
inductive UniformValue (K : Type) where
  | int (v : Int)
  | float (v : K)
  | vec2 (v : Vec2 K)
  | vec3 (v : Vec3 K)
  | mat4 (v : Mat4 K)

/-- A graphics command issued by `render`, directly (`gl...`) or through a shader,
material or mesh object. -/
inductive GLCall (K : Type) where
  | glViewport (x y width height : Int)
  | glClearColor (r g b a : K)
  | glClearDepth (depth : K)
  | glColorMask (r g b a : Bool)
  | glDepthMask (flag : Bool)
  | glBindFramebuffer (framebuffer : Nat)
  | glClear
  | glBindVertexArray (array : Nat)
  | glDrawArrays (first count : Nat)
  | shaderUse (shader : ShaderProgram)
  | shaderSet (shader : ShaderProgram) (uniform : String) (value : UniformValue K)
  | materialSetup (material : Material)
  | meshDraw (mesh : Mesh)

/-- Whether a graphics command is a draw call (`Mesh::draw` or `glDrawArrays`). -/
def GLCall.isDraw {K : Type} : GLCall K → Bool
  | .meshDraw _ => true
  | .glDrawArrays _ _ => true
  | _ => false

/-- The part of the graphics state that `render` sets through its own `gl...` calls and
its draw calls.  What `Material::setup` and the shader calls install is not tracked. -/
structure GLState (K : Type) where
  drawFramebuffer : Nat
  viewport : Int × Int × Int × Int
  colorMask : Bool × Bool × Bool × Bool
  depthMask : Bool
  vertexArray : Nat
  drawCalls : Nat

/-- The effect of one graphics command on the graphics state. -/
def GLCall.apply {K : Type} (s : GLState K) : GLCall K → GLState K
  | .glViewport x y w h => { s with viewport := (x, y, w, h) }
  | .glColorMask r g b a => { s with colorMask := (r, g, b, a) }
  | .glDepthMask flag => { s with depthMask := flag }
  | .glBindFramebuffer fb => { s with drawFramebuffer := fb }
  | .glBindVertexArray a => { s with vertexArray := a }
  | .glDrawArrays _ _ => { s with drawCalls := s.drawCalls + 1 }
  | .meshDraw _ => { s with drawCalls := s.drawCalls + 1 }
  | _ => s

/-- The graphics state after a sequence of commands. -/
def GLState.run {K : Type} (s : GLState K) (calls : List (GLCall K)) : GLState K :=
  calls.foldl GLCall.apply s

/-- The functions of collaborators that `render` calls and whose code is outside the
files at hand: `Transform::toMat4`, `glm::inversesqrt`, `glm::inverse`, the two matrix
getters of `CameraComponent`, and `std::sort` (`sort comp l` is the vector `l` after
`std::sort` with comparator `comp`).  `elapsedTime` is the clock reading, in units of 25
milliseconds, pushed to the `time` uniform. -/
structure Collaborators (K : Type) where
  toMat4 : Transform K → Mat4 K
  inversesqrt : K → K
  inverse : Mat4 K → Mat4 K
  getViewMatrix : CameraComponent K → Mat4 K
  getProjectionMatrix : CameraComponent K → Int × Int → Mat4 K
  sort : (RenderCommand K → RenderCommand K → Bool) → List (RenderCommand K) →
    List (RenderCommand K)
  elapsedTime : K

/-- A comparator is a strict weak ordering, the requirement `std::sort` puts on its
comparator: irreflexive, transitive, and with a transitive incomparability relation. -/
structure StrictWeakOrdering {α : Type} (comp : α → α → Bool) : Prop where
  irrefl : ∀ a, comp a a = false
  trans : ∀ a b c, comp a b = true → comp b c = true → comp a c = true
  incomp_trans : ∀ a b c, comp a b = false → comp b a = false → comp b c = false →
    comp c b = false → comp a c = false ∧ comp c a = false

/-- The contract of `std::sort` in the C++ standard: for a strict weak ordering `comp`
the result is a rearrangement of the input in which no element is ordered before an
earlier one, that is `comp(later, earlier)` is false.  The order of equivalent elements is
left open. -/
def StdSortContract {α : Type} (sort : (α → α → Bool) → List α → List α) : Prop :=
  ∀ comp l, StrictWeakOrdering comp →
    (sort comp l).Perm l ∧ (sort comp l).Pairwise (fun a b => comp b a = false)

/-! ## `ForwardRenderer::render` -/

section Render

variable {K : Type} [LinearOrderedCommRing K]

/-- The local variables and cleared members that the entity loop of `render` fills:
the selected camera, the three command buckets and the light list. -/
structure Extraction (K : Type) where
  camera : Option (CameraComponent K)
  opaqueCommands : List (RenderCommand K)
  transparentCommands : List (RenderCommand K)
  lightsSources : List (LightSource K)
  ballModels : List (BallCommand K)

/-- The state at loop entry: `camera = nullptr`, the three member lists cleared and
`ballModels` empty. -/
def Extraction.initial : Extraction K := ⟨none, [], [], [], []⟩

/-- The `RenderCommand` built from a mesh renderer owned by `entity`. -/
def buildCommand (toMat4 : Transform K → Mat4 K) (entity : Entity K)
    (meshRenderer : MeshRendererComponent) : RenderCommand K :=
  let localToWorld := entity.getLocalToWorldMatrix toMat4
  ⟨localToWorld, Vec3.ofVec4 (localToWorld.mulVec (vec4 ⟨0, 0, 0⟩ 1)), meshRenderer.mesh,
    meshRenderer.material⟩

/-- The condition `entity->parent && entity->parent->getComponent<BallComponent>() != nullptr`. -/
def hasBallParent (entity : Entity K) : Bool :=
  match entity.parent with
  | none => false
  | some p => p.components.ball.isSome

/-- The mesh-renderer block of the loop body: build the command and push it to one
bucket.  The ball branch dereferences the parent's `MovementComponent`, the other branch
dereferences the material; a null pointer there gives `none`. -/
def extractMesh (toMat4 : Transform K → Mat4 K) (s : Extraction K) (entity : Entity K)
    (meshRenderer : MeshRendererComponent) : Option (Extraction K) :=
  let command := buildCommand toMat4 entity meshRenderer
  match entity.parent with
  | some p =>
    if p.components.ball.isSome then
      match p.components.movement with
      | none => none
      | some movement =>
        some { s with ballModels := s.ballModels ++
          [⟨command.localToWorld, command.center, command.mesh, command.material,
            movement.current_angle.x, movement.forward, true⟩] }
    else
      match command.material with
      | none => none
      | some material =>
        if material.transparent then
          some { s with transparentCommands := s.transparentCommands ++ [command] }
        else
          some { s with opaqueCommands := s.opaqueCommands ++ [command] }
  | none =>
    match command.material with
    | none => none
    | some material =>
      if material.transparent then
        some { s with transparentCommands := s.transparentCommands ++ [command] }
      else
        some { s with opaqueCommands := s.opaqueCommands ++ [command] }

/-- The camera statement of the loop body: `if (!camera) camera = getComponent<CameraComponent>()`. -/
def selectCamera (camera : Option (CameraComponent K)) (entity : Entity K) :
    Option (CameraComponent K) :=
  match camera with
  | none => entity.components.camera
  | some c => some c

/-- The light block of the loop body. -/
def collectLight (s : Extraction K) (entity : Entity K) : Extraction K :=
  match entity.components.light with
  | some lightSource => { s with lightsSources := s.lightsSources ++ [⟨lightSource, entity⟩] }
  | none => s

/-- One iteration of the entity loop of `render`. -/
def extractEntity (toMat4 : Transform K → Mat4 K) (s : Extraction K) (entity : Entity K) :
    Option (Extraction K) :=
  let s1 := { s with camera := selectCamera s.camera entity }
  match entity.components.meshRenderer with
  | some meshRenderer =>
    match extractMesh toMat4 s1 entity meshRenderer with
    | none => none
    | some s2 => some (collectLight s2 entity)
  | none => some (collectLight s1 entity)

/-- The entity loop of `render` from a given loop state. -/
def extractFrom (toMat4 : Transform K → Mat4 K) :
    Extraction K → List (Entity K) → Option (Extraction K)
  | s, [] => some s
  | s, entity :: rest =>
    match extractEntity toMat4 s entity with
    | none => none
    | some s1 => extractFrom toMat4 s1 rest

/-- The extraction phase of `render`: the entity loop over `world->getEntities()`,
started from the cleared lists. -/
def extract (toMat4 : Transform K → Mat4 K) (world : World K) : Option (Extraction K) :=
  extractFrom toMat4 Extraction.initial world.entities

/-- The camera forward vector of `render`: `u` and `v` are the camera's tracked position
and look-at point (each converted to `vec4` and back), and the result is
`normalize(v - u)`. -/
def cameraForward (inversesqrt : K → K) (camera : CameraComponent K) : Vec3 K :=
  let u := Vec3.ofVec4 (vec4 camera.current_position 1)
  let v := Vec3.ofVec4 (vec4 camera.current_lookat 1)
  normalize inversesqrt (v.sub u)

/-- The comparator lambda passed to `std::sort`: true when `first` has the strictly
greater projection onto `cameraForward`. -/
def transparentComparator (cameraForward : Vec3 K) (first second : RenderCommand K) : Bool :=
  if dot cameraForward first.center > dot cameraForward second.center then true else false

/-- The sort statement of `render`: `std::sort` on `transparentCommands` with the
comparator built from the camera forward vector. -/
def sortTransparent (env : Collaborators K) (camera : CameraComponent K)
    (transparentCommands : List (RenderCommand K)) : List (RenderCommand K) :=
  env.sort (transparentComparator (cameraForward env.inversesqrt camera)) transparentCommands

/-- The statements pushing one light, at position `index` of `lightsSources`, to `shader`. -/
def lightUniforms (toMat4 : Transform K → Mat4 K) (shader : ShaderProgram) (index : Nat)
    (it : LightSource K) : List (GLCall K) :=
  let lightPosition := Vec3.ofVec4
    ((it.owner.getLocalToWorldMatrix toMat4).mulVec (vec4 it.owner.localTransform.position 1))
  [ .shaderSet shader ("lights[" ++ toString index ++ "].lightType") (.int it.light.lightType),
    .shaderSet shader ("lights[" ++ toString index ++ "].direction") (.vec3 it.light.direction),
    .shaderSet shader ("lights[" ++ toString index ++ "].color") (.vec3 it.light.color),
    .shaderSet shader ("lights[" ++ toString index ++ "].position") (.vec3 lightPosition),
    .shaderSet shader ("lights[" ++ toString index ++ "].coneAngles") (.vec2 it.light.coneAngles),
    .shaderSet shader ("lights[" ++ toString index ++ "].attenuation")
      (.vec3 it.light.attenuation),
    .shaderSet shader ("lights[" ++ toString index ++ "].intensity") (.float it.light.intensity) ]

/-- The inner light loop of a draw, from position `index` on. -/
def lightLoop (toMat4 : Transform K → Mat4 K) (shader : ShaderProgram) :
    Nat → List (LightSource K) → List (GLCall K)
  | _, [] => []
  | index, it :: rest =>
    lightUniforms toMat4 shader index it ++ lightLoop toMat4 shader (index + 1) rest

/-- The light loop followed by the `lightCount` statement. -/
def pushLights (toMat4 : Transform K → Mat4 K) (shader : ShaderProgram)
    (lightsSources : List (LightSource K)) : List (GLCall K) :=
  lightLoop toMat4 shader 0 lightsSources ++
    [.shaderSet shader "lightCount" (.int lightsSources.length)]

/-- The body of the ball loop for one command.  It dereferences the material, its shader
and the mesh. -/
def drawBall (env : Collaborators K) (view_projection : Mat4 K)
    (lightsSources : List (LightSource K)) (ballCommand : BallCommand K) :
    Option (List (GLCall K)) :=
  match ballCommand.material with
  | none => none
  | some material =>
    match material.shader with
    | none => none
    | some shader =>
      match ballCommand.mesh with
      | none => none
      | some mesh =>
        some ([ .materialSetup material,
            .shaderSet shader "transform" (.mat4 (view_projection * ballCommand.localToWorld)),
            .shaderSet shader "axis" (.vec3 ballCommand.direction),
            .shaderSet shader "angle" (.float ballCommand.angle),
            .shaderSet shader "M" (.mat4 ballCommand.localToWorld),
            .shaderSet shader "M_IT" (.mat4 (env.inverse ballCommand.localToWorld).transpose),
            .shaderSet shader "cameraPos" (.vec3 ballCommand.center) ]
          ++ pushLights env.toMat4 shader lightsSources ++ [.meshDraw mesh])

/-- The body of the opaque loop and of the transparent loop for one command (the two
bodies are the same statements).  It dereferences the material, its shader and the mesh. -/
def drawCommand (env : Collaborators K) (view_projection : Mat4 K)
    (lightsSources : List (LightSource K)) (command : RenderCommand K) :
    Option (List (GLCall K)) :=
  match command.material with
  | none => none
  | some material =>
    match material.shader with
    | none => none
    | some shader =>
      match command.mesh with
      | none => none
      | some mesh =>
        some ([ .materialSetup material,
            .shaderSet shader "transform" (.mat4 (view_projection * command.localToWorld)) ]
          ++ (if material.isLitMaterial || material.isLitTexturedMaterial then
                [ .shaderSet shader "M" (.mat4 command.localToWorld),
                  .shaderSet shader "M_IT" (.mat4 (env.inverse command.localToWorld).transpose),
                  .shaderSet shader "cameraPos" (.vec3 command.center) ]
                ++ pushLights env.toMat4 shader lightsSources
              else [])
          ++ [.meshDraw mesh])

/-- A range-based `for` loop whose body issues graphics commands and may dereference a
null pointer: the commands of all iterations in order, or `none`. -/
def drawLoop {α : Type} (body : α → Option (List (GLCall K))) :
    List α → Option (List (GLCall K))
  | [] => some []
  | c :: rest =>
    match body c with
    | none => none
    | some calls =>
      match drawLoop body rest with
      | none => none
      | some more => some (calls ++ more)

/-- The matrix `alwaysBehindTransform` of the sky pass, written with the glm constructor
as in the source. -/
def alwaysBehindTransform : Mat4 K :=
  mat4ColumnMajor
    1 0 0 0
    0 1 0 0
    0 0 0 0
    0 0 1 1

/-- The block of `render` run when a post-process material is set, before the clear:
bind the framebuffer, use the shader, push the `time` uniform. -/
def bindPostprocess (env : Collaborators K) (self : ForwardRenderer K) :
    Option (List (GLCall K)) :=
  match self.postprocessMaterial with
  | none => some []
  | some postprocessMaterial =>
    match postprocessMaterial.shader with
    | none => none
    | some shader =>
      some [ .glBindFramebuffer self.postprocessFrameBuffer, .shaderUse shader,
        .shaderSet shader "time" (.float env.elapsedTime) ]

/-- The sky block of `render`: run when a sky material is set.  The sky transform has the
camera position `u`, the default rotation `0` and the default scale `1`. -/
def drawSky (env : Collaborators K) (self : ForwardRenderer K) (view_projection : Mat4 K)
    (camera : CameraComponent K) : Option (List (GLCall K)) :=
  match self.skyMaterial with
  | none => some []
  | some skyMaterial =>
    match skyMaterial.shader with
    | none => none
    | some shader =>
      match self.skySphere with
      | none => none
      | some skySphere =>
        let camera_position := Vec3.ofVec4 (vec4 camera.current_position 1)
        let sky_model := env.toMat4 ⟨camera_position, ⟨0, 0, 0⟩, ⟨1, 1, 1⟩⟩
        some [ .materialSetup skyMaterial,
          .shaderSet shader "transform"
            (.mat4 (alwaysBehindTransform * view_projection * sky_model)),
          .meshDraw skySphere ]

/-- The final block of `render`: run when a post-process material is set. -/
def composite (self : ForwardRenderer K) : List (GLCall K) :=
  match self.postprocessMaterial with
  | none => []
  | some postprocessMaterial =>
    [ .glBindFramebuffer 0, .materialSetup postprocessMaterial,
      .glBindVertexArray self.postProcessVertexArray, .glDrawArrays 0 3 ]

/-- What one call of `render` leaves behind: the renderer with its three member lists
rewritten, and the graphics commands issued, in order. -/
structure RenderResult (K : Type) where
  renderer : ForwardRenderer K
  calls : List (GLCall K)

/-- The part of `render` after the camera check, for a selected camera: sort the
transparent bucket, set up the frame, then the ball, opaque, sky and transparent passes
and the composite. -/
def renderWithCamera (env : Collaborators K) (self : ForwardRenderer K)
    (ex : Extraction K) (camera : CameraComponent K) : Option (RenderResult K) :=
  let sorted := sortTransparent env camera ex.transparentCommands
  let view_projection := env.getProjectionMatrix camera self.windowSize * env.getViewMatrix camera
  let frame : List (GLCall K) :=
    [ .glViewport 0 0 self.windowSize.1 self.windowSize.2, .glClearColor 0 0 0 1,
      .glClearDepth 1, .glColorMask true true true true, .glDepthMask true ]
  match bindPostprocess env self with
  | none => none
  | some bound =>
    match drawLoop (drawBall env view_projection ex.lightsSources) ex.ballModels with
    | none => none
    | some ballCalls =>
      match drawLoop (drawCommand env view_projection ex.lightsSources) ex.opaqueCommands with
      | none => none
      | some opaqueCalls =>
        match drawSky env self view_projection camera with
        | none => none
        | some skyCalls =>
          match drawLoop (drawCommand env view_projection ex.lightsSources) sorted with
          | none => none
          | some transparentCalls =>
            some ⟨{ self with opaqueCommands := ex.opaqueCommands,
                              transparentCommands := sorted,
                              lightsSources := ex.lightsSources },
              frame ++ bound ++ [.glClear] ++ ballCalls ++ opaqueCalls ++ skyCalls
                ++ transparentCalls ++ composite self⟩

/-- The method `ForwardRenderer::render`.  The result is `none` when the call
dereferences a null pointer. -/
def render (env : Collaborators K) (self : ForwardRenderer K) (world : World K) :
    Option (RenderResult K) :=
  match extract env.toMat4 world with
  | none => none
  | some ex =>
    match ex.camera with
    | none =>
      some ⟨{ self with opaqueCommands := ex.opaqueCommands,
                        transparentCommands := ex.transparentCommands,
                        lightsSources := ex.lightsSources }, []⟩
    | some camera => renderWithCamera env self ex camera

end Render

/-! ## The classification rule of the specification -/

section Classification

variable {K : Type} [LinearOrderedCommRing K]

/-- The three buckets a render command can be routed to. -/
inductive Bucket where
  | specialBucket
  | transparentBucket
  | opaqueBucket
deriving DecidableEq, Repr

/-- The classification rule as the specification words it: the special bucket if the
entity has a parent carrying a Ball marker, whatever the material; otherwise the
transparent bucket if the material's transparency flag is set; otherwise the opaque
bucket. -/
def specBucket (entity : Entity K) (meshRenderer : MeshRendererComponent) : Bucket :=
  if hasBallParent entity then .specialBucket
  else
    match meshRenderer.material with
    | some material => if material.transparent then .transparentBucket else .opaqueBucket
    | none => .opaqueBucket

/-- The command that the specification's rule puts into bucket `b` for `entity`, if any:
the command built from the entity's mesh renderer when the rule routes it to `b`. -/
def commandInBucket (toMat4 : Transform K → Mat4 K) (b : Bucket) (entity : Entity K) :
    Option (RenderCommand K) :=
  match entity.components.meshRenderer with
  | some meshRenderer =>
    if specBucket entity meshRenderer = b then some (buildCommand toMat4 entity meshRenderer)
    else none
  | none => none

/-- The `RenderCommand` part of a `BallCommand`. -/
def BallCommand.toRenderCommand (c : BallCommand K) : RenderCommand K :=
  ⟨c.localToWorld, c.center, c.mesh, c.material⟩

/-- Whether the entity carries a `MeshRendererComponent`. -/
def hasMeshRenderer (entity : Entity K) : Bool := entity.components.meshRenderer.isSome

/-- Whether the loop body dereferences only non-null pointers on `entity`: a mesh
renderer under a Ball-marked parent needs the parent's `MovementComponent`, any other mesh
renderer needs its material. -/
def extractable (entity : Entity K) : Bool :=
  match entity.components.meshRenderer with
  | none => true
  | some meshRenderer =>
    match entity.parent with
    | some p =>
      if p.components.ball.isSome then p.components.movement.isSome
      else meshRenderer.material.isSome
    | none => meshRenderer.material.isSome

/-- The light entry that `entity` adds to `lightsSources`, if it carries a light. -/
def lightOf (entity : Entity K) : Option (LightSource K) :=
  match entity.components.light with
  | some lightSource => some ⟨lightSource, entity⟩
  | none => none

end Classification

/-! ## Renderer lifecycle on a handle-tracking double -/

/-- The kinds of heap and GPU object that `ForwardRenderer::initialize` creates. -/
inductive ResourceKind where
  | mesh
  | shaderProgram
  | texture
  | sampler
  | material
  | framebuffer
  | vertexArray
deriving DecidableEq, Repr

/-- A handle of the tracking double: the kind of the object and its number. -/
structure Handle where
  kind : ResourceKind
  id : Nat
deriving DecidableEq, Repr

/-- The handle-tracking double of the heap and of the GPU object store: the next unused
number, the log of created handles and the log of released handles (a handle released
twice is logged twice). -/
structure HandleTracker where
  next : Nat
  created : List Handle
  released : List Handle
deriving DecidableEq, Repr

/-- Creation of an object (`new`, `glGen...`, a loader call): the object gets the next
unused number. -/
def HandleTracker.create (t : HandleTracker) (kind : ResourceKind) : Nat × HandleTracker :=
  (t.next, { t with next := t.next + 1, created := t.created ++ [⟨kind, t.next⟩] })

/-- Release of an object (`delete`, `glDelete...`). -/
def HandleTracker.release (t : HandleTracker) (h : Handle) : HandleTracker :=
  { t with released := t.released ++ [h] }

/-- The statement `delete p` on a pointer member: nothing happens for a null pointer. -/
def HandleTracker.delete (t : HandleTracker) (kind : ResourceKind) (p : Option Nat) :
    HandleTracker :=
  match p with
  | none => t
  | some id => t.release ⟨kind, id⟩

/-- Modelled from the spec: the declaration of the material classes is absent; the
destructor run by `delete` on a material releases the material object itself and not the
shader, texture and sampler it points to. -/
def HandleTracker.deleteMaterial (t : HandleTracker) (object : Nat) : HandleTracker :=
  t.release ⟨.material, object⟩

/-- The renderer configuration object, as far as `initialize` reads it: the value under
the key `sky` and the value under the key `postprocess`, each absent when the key is. -/
structure RendererConfig where
  sky : Option String
  postprocess : Option String
deriving DecidableEq, Repr

/-- A renderer on the tracking double: the data members, the numbers of the two material
objects that `skyMaterial` and `postprocessMaterial` point to (meaningful while the
pointer is non-null), and the tracker. -/
structure TrackedRenderer (K : Type) where
  members : ForwardRenderer K
  skyMaterialObject : Nat
  postprocessMaterialObject : Nat
  tracker : HandleTracker

/-- Modelled from the spec: the declaration of `ForwardRenderer` is absent; a freshly
constructed renderer has null pointer members and empty lists (a renderer without sky and
post-process stage), on a tracker that has created nothing. -/
def TrackedRenderer.fresh {K : Type} : TrackedRenderer K :=
  ⟨⟨(0, 0), none, none, 0, 0, none, none, none, [], [], []⟩, 0, 0, ⟨0, [], []⟩⟩

/-- The sky block of `ForwardRenderer::initialize`: create the sphere mesh, the shader,
the texture (loaded from the configured file), the sampler and the material, and store
them in the members. -/
def TrackedRenderer.initializeSky {K : Type} (self : TrackedRenderer K) :
    TrackedRenderer K :=
  let (skySphere, t1) := self.tracker.create .mesh
  let (skyShader, t2) := t1.create .shaderProgram
  let (skyTexture, t3) := t2.create .texture
  let (skySampler, t4) := t3.create .sampler
  let (skyMaterial, t5) := t4.create .material
  { self with
    members := { self.members with
      skySphere := some ⟨skySphere⟩,
      skyMaterial := some ⟨some ⟨skyShader⟩, false, false, false, some skyTexture,
        some skySampler, true⟩ },
    skyMaterialObject := skyMaterial,
    tracker := t5 }

/-- The post-process block of `ForwardRenderer::initialize`: create the framebuffer, the
color and depth targets, the vertex array, the sampler, the shader and the material; the
material's texture is the color target. -/
def TrackedRenderer.initializePostprocess {K : Type} (self : TrackedRenderer K) :
    TrackedRenderer K :=
  let (postprocessFrameBuffer, t1) := self.tracker.create .framebuffer
  let (colorTarget, t2) := t1.create .texture
  let (depthTarget, t3) := t2.create .texture
  let (postProcessVertexArray, t4) := t3.create .vertexArray
  let (postprocessSampler, t5) := t4.create .sampler
  let (postprocessShader, t6) := t5.create .shaderProgram
  let (postprocessMaterial, t7) := t6.create .material
  { self with
    members := { self.members with
      postprocessFrameBuffer := postprocessFrameBuffer,
      colorTarget := some colorTarget,
      depthTarget := some depthTarget,
      postProcessVertexArray := postProcessVertexArray,
      postprocessMaterial := some ⟨some ⟨postprocessShader⟩, false, false, false,
        some colorTarget, some postprocessSampler, false⟩ },
    postprocessMaterialObject := postprocessMaterial,
    tracker := t7 }

/-- The method `ForwardRenderer::initialize` (named `initializeRenderer` here because
`initialize` is a reserved word): store the window size, then run the sky
block if the configuration contains `sky` and the post-process block if it contains
`postprocess`.  Members of a block that is not run keep their value. -/
def TrackedRenderer.initializeRenderer {K : Type} (self : TrackedRenderer K)
    (windowSize : Int × Int) (config : RendererConfig) : TrackedRenderer K :=
  let s0 := { self with members := { self.members with windowSize := windowSize } }
  let s1 := match config.sky with
    | some _ => s0.initializeSky
    | none => s0
  match config.postprocess with
  | some _ => s1.initializePostprocess
  | none => s1

/-- The sky block of `ForwardRenderer::destroy`, run when `skyMaterial` is non-null. -/
def TrackedRenderer.destroySky {K : Type} (self : TrackedRenderer K)
    (skyMaterial : Material) : HandleTracker :=
  let t1 := self.tracker.delete .mesh (self.members.skySphere.map (fun m => m.handle))
  let t2 := t1.delete .shaderProgram (skyMaterial.shader.map (fun s => s.handle))
  let t3 := t2.delete .texture skyMaterial.texture
  let t4 := t3.delete .sampler skyMaterial.sampler
  t4.deleteMaterial self.skyMaterialObject

/-- The post-process block of `ForwardRenderer::destroy`, run when `postprocessMaterial`
is non-null, on the tracker `t` left by the sky block. -/
def TrackedRenderer.destroyPostprocess {K : Type} (self : TrackedRenderer K)
    (t : HandleTracker) (postprocessMaterial : Material) : HandleTracker :=
  let t1 := t.release ⟨.framebuffer, self.members.postprocessFrameBuffer⟩
  let t2 := t1.release ⟨.vertexArray, self.members.postProcessVertexArray⟩
  let t3 := t2.delete .texture self.members.colorTarget
  let t4 := t3.delete .texture self.members.depthTarget
  let t5 := t4.delete .sampler postprocessMaterial.sampler
  let t6 := t5.delete .shaderProgram (postprocessMaterial.shader.map (fun s => s.handle))
  t6.deleteMaterial self.postprocessMaterialObject

/-- The method `ForwardRenderer::destroy`.  It writes no member: the pointers keep their
value after the objects are released. -/
def TrackedRenderer.destroy {K : Type} (self : TrackedRenderer K) : TrackedRenderer K :=
  let t1 := match self.members.skyMaterial with
    | some skyMaterial => self.destroySky skyMaterial
    | none => self.tracker
  let t2 := match self.members.postprocessMaterial with
    | some postprocessMaterial => self.destroyPostprocess t1 postprocessMaterial
    | none => t1
  { self with tracker := t2 }

/-- The twelve handles that `initialize` creates for a configuration with `sky` and
`postprocess`, on a tracker whose next unused number is `n`, in creation order. -/
def createdHandles (n : Nat) : List Handle :=
  [⟨.mesh, n⟩, ⟨.shaderProgram, n + 1⟩, ⟨.texture, n + 2⟩, ⟨.sampler, n + 3⟩,
    ⟨.material, n + 4⟩, ⟨.framebuffer, n + 5⟩, ⟨.texture, n + 6⟩, ⟨.texture, n + 7⟩,
    ⟨.vertexArray, n + 8⟩, ⟨.sampler, n + 9⟩, ⟨.shaderProgram, n + 10⟩, ⟨.material, n + 11⟩]

/-- The handles in the log `after` that were appended since the log was `before`. -/
def logSince (before after : List Handle) : List Handle := after.drop before.length

/-! ## `Application::changeState` -/

/-- The members of `Application` that `changeState` reads or writes.  A `State*` is the
number of the state object; `states` lists the entries of the map, and `find` is the
lookup of the first entry with the given name. -/
structure Application where
  states : List (String × Nat)
  previousState : Option Nat
  currentState : Option Nat
  nextState : Option Nat
deriving DecidableEq, Repr

/-- The method `Application::changeState`. -/
def Application.changeState (app : Application) (name : String) : Application :=
  match app.states.lookup name with
  | some state => { app with previousState := app.currentState, nextState := some state }
  | none => app

/-! ## `Keyboard` -/

/-- The GLFW constant `GLFW_KEY_SPACE`. -/
def GLFW_KEY_SPACE : Nat := 32

/-- The GLFW constant `GLFW_KEY_ESCAPE`. -/
def GLFW_KEY_ESCAPE : Nat := 256

/-- The GLFW constant `GLFW_KEY_LAST`. -/
def GLFW_KEY_LAST : Nat := 348

/-- The GLFW constant `GLFW_RELEASE`. -/
def GLFW_RELEASE : Int := 0

/-- The GLFW constant `GLFW_PRESS`. -/
def GLFW_PRESS : Int := 1

/-- The class `Keyboard`: the two arrays have `GLFW_KEY_LAST + 1` entries, and a key is an
index into them. -/
structure Keyboard where
  enabled : Bool
  currentKeyStates : Fin (GLFW_KEY_LAST + 1) → Bool
  previousKeyStates : Fin (GLFW_KEY_LAST + 1) → Bool

namespace Keyboard

/-- The method `Keyboard::update`: `memcpy` of the whole current array onto the previous
one, unless the keyboard is disabled. -/
def update (kb : Keyboard) : Keyboard :=
  if !kb.enabled then kb
  else { kb with previousKeyStates := kb.currentKeyStates }

/-- The method `Keyboard::keyEvent` (the scancode and modifier arguments are unused). -/
def keyEvent (kb : Keyboard) (key : Fin (GLFW_KEY_LAST + 1)) (action : Int) : Keyboard :=
  if !kb.enabled then kb
  else if action = GLFW_PRESS then
    { kb with currentKeyStates := Function.update kb.currentKeyStates key true }
  else if action = GLFW_RELEASE then
    { kb with currentKeyStates := Function.update kb.currentKeyStates key false }
  else kb

/-- The method `Keyboard::isPressed`. -/
def isPressed (kb : Keyboard) (key : Fin (GLFW_KEY_LAST + 1)) : Bool :=
  kb.currentKeyStates key

/-- The method `Keyboard::justPressed`. -/
def justPressed (kb : Keyboard) (key : Fin (GLFW_KEY_LAST + 1)) : Bool :=
  kb.currentKeyStates key && !kb.previousKeyStates key

/-- The method `Keyboard::justReleased`. -/
def justReleased (kb : Keyboard) (key : Fin (GLFW_KEY_LAST + 1)) : Bool :=
  !kb.currentKeyStates key && kb.previousKeyStates key

/-- The `for` loop of `Keyboard::anyKeyPressed` from `key` on, with `count` iterations
left before `key` exceeds `GLFW_KEY_LAST`. -/
def anyKeyPressed.loop (kb : Keyboard) : Nat → Nat → Bool
  | 0, _ => false
  | count + 1, key =>
    if h : key < GLFW_KEY_LAST + 1 then
      if kb.currentKeyStates ⟨key, h⟩ && key != GLFW_KEY_ESCAPE then true
      else anyKeyPressed.loop kb count (key + 1)
    else false

/-- The method `Keyboard::anyKeyPressed`: the loop from `GLFW_KEY_SPACE` to
`GLFW_KEY_LAST`. -/
def anyKeyPressed (kb : Keyboard) : Bool :=
  anyKeyPressed.loop kb (GLFW_KEY_LAST + 1 - GLFW_KEY_SPACE) GLFW_KEY_SPACE

/-- The keyboard after a sequence of key events `(key, action)`. -/
def keyEvents (kb : Keyboard) (events : List (Fin (GLFW_KEY_LAST + 1) × Int)) : Keyboard :=
  events.foldl (fun k e => k.keyEvent e.1 e.2) kb

end Keyboard

/-! ## Reading the command trace -/

/-- The values that a command trace pushes to the uniform called `name`, in order. -/
def uniformValues {K : Type} (name : String) (calls : List (GLCall K)) :
    List (UniformValue K) :=
  calls.filterMap fun call =>
    match call with
    | .shaderSet _ uniform value => if uniform = name then some value else none
    | _ => none

/-- The ball command that the loop body builds for `entity`, when the entity carries a
mesh renderer and its parent carries the Ball marker and a movement component: the
command built from the mesh renderer, with the angle and axis of the parent's
`MovementComponent`. -/
def ballCommandOf {K : Type} [LinearOrderedCommRing K] (toMat4 : Transform K → Mat4 K)
    (entity : Entity K) : Option (BallCommand K) :=
  match entity.components.meshRenderer, entity.parent with
  | some meshRenderer, some p =>
    if p.components.ball.isSome then
      match p.components.movement with
      | some movement =>
        some ⟨(buildCommand toMat4 entity meshRenderer).localToWorld,
          (buildCommand toMat4 entity meshRenderer).center, meshRenderer.mesh,
          meshRenderer.material, movement.current_angle.x, movement.forward, true⟩
      | none => none
    else none
  | _, _ => none

/-- Whether the loop body dereferences a null `MovementComponent` on `entity`: the entity
carries a mesh renderer and its parent carries the Ball marker but no movement
component. -/
def missesMovement {K : Type} (entity : Entity K) : Bool :=
  match entity.components.meshRenderer, entity.parent with
  | some _, some p => p.components.ball.isSome && p.components.movement.isNone
  | _, _ => false

/-- Whether the mesh renderer of `entity`, if it has one, has a non-null material. -/
def hasMaterial {K : Type} (entity : Entity K) : Bool :=
  match entity.components.meshRenderer with
  | some meshRenderer => meshRenderer.material.isSome
  | none => true

/-! ## JSON values -/

/-- A JSON value as `nlohmann::json` holds it; numbers are scalars. -/
inductive JsonValue (K : Type) where
  | null
  | boolean (b : Bool)
  | number (x : K)
  | string (s : String)
  | array (items : List (JsonValue K))
  | object (members : List (String × JsonValue K))

namespace JsonValue

variable {K : Type}

/-- The method `is_object`. -/
def is_object : JsonValue K → Bool
  | object _ => true
  | _ => false

/-- The member stored under `key`, when the value is an object that has the key. -/
def find (data : JsonValue K) (key : String) : Option (JsonValue K) :=
  match data with
  | object members => members.lookup key
  | _ => none

/-- The method `contains`. -/
def contains (data : JsonValue K) (key : String) : Bool := (data.find key).isSome

/-- The call `data.value(key, fallback)` on an object, with `get` the conversion of a JSON
value to the requested type: the fallback when the key is absent, the converted member
otherwise; `none` stands for the exception thrown when the conversion fails. -/
def value {α : Type} (get : JsonValue K → Option α) (data : JsonValue K) (key : String)
    (fallback : α) : Option α :=
  match data.find key with
  | none => some fallback
  | some member => get member

/-- Conversion to `std::string`. -/
def getString : JsonValue K → Option String
  | string s => some s
  | _ => none

/-- Conversion to `bool`. -/
def getBool : JsonValue K → Option Bool
  | boolean b => some b
  | _ => none

/-- Conversion to `float`: a number, or a boolean read as 0 or 1. -/
def getFloat [Zero K] [One K] : JsonValue K → Option K
  | number x => some x
  | boolean b => some (if b then 1 else 0)
  | _ => none

end JsonValue

/-- A sequence of statements run on a state, each of which may throw (`none`): the state
when the sequence ends or when a statement throws, and whether one threw.  A statement
that throws leaves the state as it was before it. -/
def runStatements {σ : Type} : List (σ → Option σ) → σ → σ × Bool
  | [], s => (s, false)
  | statement :: rest, s =>
    match statement s with
    | none => (s, true)
    | some s1 => runStatements rest s1

/-! ## `MovementComponent` -/

/-- A `MovementComponent` object: the members listed in `MovementComponent`, and the member
`initialTransformation`. -/
structure MovementObject (K : Type) where
  members : MovementComponent K
  initialTransformation : Mat4 K

section Movement

variable {K : Type} [LinearOrderedField K]

/-- The three `if` statements of `MovementComponent::deserialize` on `movementTypeStr`. -/
def movementTypeOfString (movementTypeStr : String) (current : Movement_Type) :
    Movement_Type :=
  let t1 := if movementTypeStr = "normal" then Movement_Type.NORMAL else current
  let t2 := if movementTypeStr = "fixed_direction" then Movement_Type.FIXED_DIRECTION else t1
  if movementTypeStr = "fixed_rotation" then Movement_Type.FIXED_ROTATION else t2

/-- The statements of `MovementComponent::deserialize` after the `is_object` test, in
source order.  `inverse` is `glm::inverse`, `ownerLocalToWorld` the matrix returned by
`getOwner()->getLocalToWorldMatrix()`, and `getVec3` the conversion of a JSON value to
`glm::vec3`. -/
def MovementObject.deserializeStatements (inverse : Mat4 K → Mat4 K)
    (getVec3 : JsonValue K → Option (Vec3 K)) (ownerLocalToWorld : Mat4 K)
    (data : JsonValue K) : List (MovementObject K → Option (MovementObject K)) :=
  [ fun o => some { o with initialTransformation := inverse ownerLocalToWorld },
    fun o => (data.value JsonValue.getString "movementType" "normal").map fun movementTypeStr =>
      { o with members := { o.members with
          movementType := movementTypeOfString movementTypeStr o.members.movementType } },
    fun o => (data.value JsonValue.getBool "directedMovementMode" false).map fun v =>
      { o with members := { o.members with directedMovementMode := v } },
    fun o => (data.value getVec3 "target_point" o.members.targetPointInWorldSpace).map fun v =>
      { o with members := { o.members with targetPointInWorldSpace := v } },
    fun o => (data.value JsonValue.getFloat "slow_down_Factor" 8).map fun v =>
      { o with members := { o.members with slowdownFactor := v } },
    fun o => (data.value getVec3 "forward" o.members.forward).map fun v =>
      { o with members := { o.members with
          forward := Vec3.ofVec4 (o.initialTransformation.mulVec (vec4 v 0)) } },
    fun o => (data.value JsonValue.getFloat "initial_speed" 0).map fun v =>
      { o with members := { o.members with current_velocity := v } },
    fun o => (data.value JsonValue.getFloat "max_positive_speed" 16).map fun v =>
      { o with members := { o.members with max_velocity := v } },
    fun o => (data.value JsonValue.getFloat "max_negative_speed" o.members.max_velocity).map
      fun v => { o with members := { o.members with min_velocity := -1 * v } },
    fun o => (data.value JsonValue.getFloat "linear_slowdown_factor" 4).map fun v =>
      { o with members := { o.members with slowdownFactor := v } },
    fun o => (data.value JsonValue.getBool "canRoll" false).map fun v =>
      { o with members := { o.members with canRoll := v } },
    fun o => (data.value getVec3 "initial_angular_velocity" ⟨0, 0, 0⟩).map fun v =>
      { o with members := { o.members with angular_velocity := v } },
    fun o => (data.value JsonValue.getFloat "max_angular_velocity" 6).map fun v =>
      { o with members := { o.members with max_angular_velocity := v } },
    fun o => (data.value JsonValue.getFloat "angular_slowdown_factor" 8).map fun v =>
      { o with members := { o.members with angularSlowdownFactor := v } },
    fun o => (data.value JsonValue.getBool "constant_movement" false).map fun v =>
      { o with members := { o.members with constant_movement := v } },
    fun o => (data.value getVec3 "final_value" ⟨0, 0, 0⟩).map fun v =>
      { o with members := { o.members with final_value := v } },
    fun o => some { o with members := { o.members with stopMovingOneFrame := false } },
    fun o => some { o with members := { o.members with collidedWallNormal := ⟨0, 0, 0⟩ } } ]

/-- The method `MovementComponent::deserialize`: nothing for a value that is not an
object, the statements in order otherwise.  The result is the object when the call
returns or throws, and whether it threw. -/
def MovementObject.deserialize (inverse : Mat4 K → Mat4 K)
    (getVec3 : JsonValue K → Option (Vec3 K)) (ownerLocalToWorld : Mat4 K)
    (data : JsonValue K) (self : MovementObject K) : MovementObject K × Bool :=
  if !data.is_object then (self, false)
  else runStatements
    (MovementObject.deserializeStatements inverse getVec3 ownerLocalToWorld data) self

/-- The macro `JUMPING_FORCE`, 2.4. -/
def JUMPING_FORCE : K := 24 / 10

/-- The macro `GRAVITY`, 2.0. -/
def GRAVITY : K := 2

/-- The macro `GROUND_LEVEL`, 1.0. -/
def GROUND_LEVEL : K := 1

/-- The method `MovementComponent::jump`. -/
def MovementComponent.jump (c : MovementComponent K) : MovementComponent K :=
  if c.ascending || c.descending then c
  else { c with vertical_velocity := JUMPING_FORCE, ascending := true }

/-- The method `MovementComponent::updateJumpState`; `y` is the owner's
`localTransform.position.y`, which the method reads and writes through a reference.  The
result is the component and `y` after the call. -/
def MovementComponent.updateJumpState (c : MovementComponent K) (y : K) (deltaTime : K) :
    MovementComponent K × K :=
  let moved : MovementComponent K × K :=
    if c.ascending || c.descending then
      ({ c with vertical_velocity := c.vertical_velocity - GRAVITY * deltaTime },
        y + c.vertical_velocity * deltaTime)
    else (c, y)
  let risen : MovementComponent K :=
    if moved.1.ascending then
      let capped : MovementComponent K :=
        { moved.1 with vertical_velocity := max moved.1.vertical_velocity 0 }
      if capped.vertical_velocity = 0 ∧ capped.descending = false then
        { capped with descending := true, ascending := false }
      else capped
    else moved.1
  if risen.descending then
    let floored := max moved.2 GROUND_LEVEL
    if floored = GROUND_LEVEL then
      ({ risen with vertical_velocity := 0, descending := false }, floored)
    else (risen, floored)
  else (risen, moved.2)

/-- A call made on a movement component by the game loop: `jump()` or
`updateJumpState(deltaTime)`. -/
inductive JumpCall (K : Type) where
  | jump
  | updateJumpState (deltaTime : K)

/-- The component and the owner's `y` after one call. -/
def JumpCall.run (call : JumpCall K) (state : MovementComponent K × K) :
    MovementComponent K × K :=
  match call with
  | .jump => (state.1.jump, state.2)
  | .updateJumpState deltaTime => state.1.updateJumpState state.2 deltaTime

/-- The component and the owner's `y` after a sequence of calls. -/
def runJumpCalls (calls : List (JumpCall K)) (state : MovementComponent K × K) :
    MovementComponent K × K :=
  calls.foldl (fun s call => call.run s) state

end Movement

/-! ## `Entity::deserialize` -/

/-- What a call of `Entity::deserialize` leaves: the entity, the component descriptors
handed to `deserializeComponent`, in order, and whether the call threw. -/
structure EntityDeserialized (K : Type) where
  entity : Entity K
  components : List (JsonValue K)
  threw : Bool

/-- The loop of `Entity::deserialize` over the component descriptors: each is handed to
`deserializeComponent` together with the entity. -/
def Entity.deserializeComponents {K : Type}
    (deserializeComponent : JsonValue K → Entity K → Entity K) :
    List (JsonValue K) → Entity K → Entity K
  | [], e => e
  | component :: rest, e =>
    Entity.deserializeComponents deserializeComponent rest (deserializeComponent component e)

/-- The method `Entity::deserialize`.  `transformDeserialize` is `Transform::deserialize`
and `deserializeComponent` the function of that name; their code is outside the files at
hand. -/
def Entity.deserialize {K : Type} (transformDeserialize : JsonValue K → Transform K → Transform K)
    (deserializeComponent : JsonValue K → Entity K → Entity K) (data : JsonValue K)
    (self : Entity K) : EntityDeserialized K :=
  if !data.is_object then ⟨self, [], false⟩
  else
    match data.value JsonValue.getString "name" self.name with
    | none => ⟨self, [], true⟩
    | some name =>
      let e1 := Entity.mk name (transformDeserialize data self.localTransform)
        self.components self.parent
      match data.find "components" with
      | some (.array components) =>
        ⟨Entity.deserializeComponents deserializeComponent components e1, components, false⟩
      | _ => ⟨e1, [], false⟩

/-! ## `Level3state::decreaseTime` -/

/-- The least value of an `int` (32 bits). -/
def INT_MIN : Int := -2147483648

/-- The greatest value of an `int` (32 bits). -/
def INT_MAX : Int := 2147483647

/-- The result of an `int` operation whose exact value is `x`: `x` when an `int` can hold
it, undefined (`none`) on overflow. -/
def intResult (x : Int) : Option Int :=
  if INT_MIN ≤ x ∧ x ≤ INT_MAX then some x else none

/-- The members of `Level3state` that `decreaseTime` reads or writes. -/
structure Level3state where
  minutes : Int
  seconds : Int
  timeUp : Bool
deriving DecidableEq, Repr

/-- The method `Level3state::decreaseTime`.  The operators `/` and `%` of C++ truncate
towards zero. -/
def Level3state.decreaseTime (s : Level3state) : Option Level3state :=
  match intResult (s.minutes * 60) with
  | none => none
  | some product =>
    match intResult (s.seconds + product) with
    | none => none
    | some totalTime =>
      match intResult (totalTime - 1) with
      | none => none
      | some decreased =>
        some { timeUp := if decreased = 0 then true else s.timeUp,
               seconds := decreased.tmod 60,
               minutes := decreased.tdiv 60 }

/-! ## Light position -/

/-- The matrix of the translation by `p`. -/
def translationMatrix {K : Type} [Zero K] [One K] (p : Vec3 K) : Mat4 K :=
  Matrix.of ![![1, 0, 0, p.x], ![0, 1, 0, p.y], ![0, 0, 1, p.z], ![0, 0, 0, 1]]

/-! ## `std::sort` of GNU libstdc++

The program calls `std::sort`; its text is not part of the repository.  The definitions of
this section follow the implementation in GNU libstdc++ (`bits/stl_algo.h` and
`bits/stl_heap.h`): an introspective sort that leaves ranges of at most 16 elements to a
final insertion sort.  The sorted range is a list, an iterator is a position in it.  A read
outside the list, undefined in C++, makes a comparison false. -/

namespace libstdcxx

variable {α : Type}

/-- The comparison `comp(*a, *b)` of two iterators. -/
def compIter (comp : α → α → Bool) (v : List α) (a b : Nat) : Bool :=
  match v[a]?, v[b]? with
  | some x, some y => comp x y
  | _, _ => false

/-- The comparison `comp(value, *it)` of a value and an iterator. -/
def compValIter (comp : α → α → Bool) (value : α) (v : List α) (it : Nat) : Bool :=
  match v[it]? with
  | some y => comp value y
  | none => false

/-- The comparison `comp(*it, value)` of an iterator and a value. -/
def compIterVal (comp : α → α → Bool) (v : List α) (it : Nat) (value : α) : Bool :=
  match v[it]? with
  | some x => comp x value
  | none => false

/-- The assignment `*a = std::move(*b)`. -/
def moveIter (v : List α) (a b : Nat) : List α :=
  match v[b]? with
  | some y => v.set a y
  | none => v

/-- The function `std::iter_swap`. -/
def iter_swap (v : List α) (a b : Nat) : List α :=
  match v[a]?, v[b]? with
  | some x, some y => (v.set a y).set b x
  | _, _ => v

/-- The function `std::__lg`: the floor of the binary logarithm. -/
def lg.loop : Nat → Nat → Nat
  | 0, _ => 0
  | fuel + 1, n => if 2 ≤ n then lg.loop fuel (n / 2) + 1 else 0

/-- The function `std::__lg` on a positive number. -/
def lg (n : Nat) : Nat := lg.loop n n

/-- The function `std::__move_median_to_first`. -/
def move_median_to_first (comp : α → α → Bool) (v : List α) (result a b c : Nat) : List α :=
  if compIter comp v a b then
    if compIter comp v b c then iter_swap v result b
    else if compIter comp v a c then iter_swap v result c
    else iter_swap v result a
  else if compIter comp v a c then iter_swap v result a
  else if compIter comp v b c then iter_swap v result c
  else iter_swap v result b

/-- The loop `while (comp(first, pivot)) ++first` of `std::__unguarded_partition`; it ends
at the end of the list at the latest. -/
def unguarded_partition.up (comp : α → α → Bool) (v : List α) (pivot : Nat) :
    Nat → Nat → Nat
  | 0, first => first
  | fuel + 1, first =>
    if compIter comp v first pivot then unguarded_partition.up comp v pivot fuel (first + 1)
    else first

/-- The loop `while (comp(pivot, last)) --last` of `std::__unguarded_partition`; it ends
at the start of the list at the latest. -/
def unguarded_partition.down (comp : α → α → Bool) (v : List α) (pivot : Nat) : Nat → Nat
  | 0 => 0
  | last + 1 =>
    if compIter comp v pivot (last + 1) then unguarded_partition.down comp v pivot last
    else last + 1

/-- The loop `while (true)` of `std::__unguarded_partition`; every round moves `first`
forward, so as many rounds as the list has elements are enough. -/
def unguarded_partition.loop (comp : α → α → Bool) (pivot : Nat) :
    Nat → List α → Nat → Nat → List α × Nat
  | 0, v, first, _ => (v, first)
  | fuel + 1, v, first, last =>
    let first1 := unguarded_partition.up comp v pivot v.length first
    let last1 := unguarded_partition.down comp v pivot (last - 1)
    if !(first1 < last1) then (v, first1)
    else unguarded_partition.loop comp pivot fuel (iter_swap v first1 last1) (first1 + 1) last1

/-- The function `std::__unguarded_partition`: the list and the returned iterator. -/
def unguarded_partition (comp : α → α → Bool) (v : List α) (first last pivot : Nat) :
    List α × Nat :=
  unguarded_partition.loop comp pivot v.length v first last

/-- The function `std::__unguarded_partition_pivot`. -/
def unguarded_partition_pivot (comp : α → α → Bool) (v : List α) (first last : Nat) :
    List α × Nat :=
  let mid := first + (last - first) / 2
  unguarded_partition comp (move_median_to_first comp v first (first + 1) mid (last - 1))
    (first + 1) last first

/-- The loop of `std::__unguarded_linear_insert` for the value `val` taken from `last`. -/
def unguarded_linear_insert.loop (comp : α → α → Bool) (val : α) : List α → Nat → List α
  | v, 0 => v.set 0 val
  | v, next + 1 =>
    if compValIter comp val v next then
      unguarded_linear_insert.loop comp val (moveIter v (next + 1) next) next
    else v.set (next + 1) val

/-- The function `std::__unguarded_linear_insert`. -/
def unguarded_linear_insert (comp : α → α → Bool) (v : List α) (last : Nat) : List α :=
  match v[last]? with
  | some val => unguarded_linear_insert.loop comp val v last
  | none => v

/-- The body of the loop of `std::__insertion_sort` for the iterator `i`: an element
ordered before the first one is moved to the front, the elements of `[first, i)` moving one
place up; any other element is inserted by `std::__unguarded_linear_insert`. -/
def insertion_sort.step (comp : α → α → Bool) (first : Nat) (v : List α) (i : Nat) : List α :=
  if compIter comp v i first then
    match v[i]? with
    | some val => v.take first ++ val :: (v.drop first).take (i - first) ++ v.drop (i + 1)
    | none => v
  else unguarded_linear_insert comp v i

/-- The function `std::__insertion_sort`. -/
def insertion_sort (comp : α → α → Bool) (v : List α) (first last : Nat) : List α :=
  (List.range' (first + 1) (last - first - 1)).foldl (insertion_sort.step comp first) v

/-- The function `std::__unguarded_insertion_sort`. -/
def unguarded_insertion_sort (comp : α → α → Bool) (v : List α) (first last : Nat) : List α :=
  (List.range' first (last - first)).foldl (unguarded_linear_insert comp) v

/-- The constant `_S_threshold`. -/
def S_threshold : Nat := 16

/-- The function `std::__final_insertion_sort`. -/
def final_insertion_sort (comp : α → α → Bool) (v : List α) (first last : Nat) : List α :=
  if last - first > S_threshold then
    unguarded_insertion_sort comp (insertion_sort comp v first (first + S_threshold))
      (first + S_threshold) last
  else insertion_sort comp v first last

/-- The loop of `std::__push_heap`; the hole moves to its parent in every round. -/
def push_heap.loop (comp : α → α → Bool) (first topIndex : Nat) (value : α) :
    Nat → List α → Nat → List α
  | 0, v, holeIndex => v.set (first + holeIndex) value
  | fuel + 1, v, holeIndex =>
    let parent := (holeIndex - 1) / 2
    if holeIndex > topIndex ∧ compIterVal comp v (first + parent) value then
      push_heap.loop comp first topIndex value fuel
        (moveIter v (first + holeIndex) (first + parent)) parent
    else v.set (first + holeIndex) value

/-- The function `std::__push_heap`. -/
def push_heap (comp : α → α → Bool) (v : List α) (first holeIndex topIndex : Nat)
    (value : α) : List α :=
  push_heap.loop comp first topIndex value (holeIndex + 1) v holeIndex

/-- The loop of `std::__adjust_heap`: the list and the hole after it.  After a round the
hole is at `secondChild`. -/
def adjust_heap.loop (comp : α → α → Bool) (first len : Nat) :
    Nat → List α → Nat → List α × Nat
  | 0, v, holeIndex => (v, holeIndex)
  | fuel + 1, v, holeIndex =>
    if holeIndex < (len - 1) / 2 then
      let secondChild := 2 * (holeIndex + 1)
      let secondChild1 :=
        if compIter comp v (first + secondChild) (first + (secondChild - 1)) then
          secondChild - 1
        else secondChild
      adjust_heap.loop comp first len fuel
        (moveIter v (first + holeIndex) (first + secondChild1)) secondChild1
    else (v, holeIndex)

/-- The function `std::__adjust_heap`. -/
def adjust_heap (comp : α → α → Bool) (v : List α) (first holeIndex len : Nat) (value : α) :
    List α :=
  let sifted := adjust_heap.loop comp first len len v holeIndex
  let lone : List α × Nat :=
    if len % 2 = 0 ∧ 2 ≤ len ∧ sifted.2 = (len - 2) / 2 then
      (moveIter sifted.1 (first + sifted.2) (first + (2 * (sifted.2 + 1) - 1)),
        2 * (sifted.2 + 1) - 1)
    else sifted
  push_heap comp lone.1 first lone.2 holeIndex value

/-- The function `std::__pop_heap`. -/
def pop_heap (comp : α → α → Bool) (v : List α) (first last result : Nat) : List α :=
  match v[result]? with
  | some value => adjust_heap comp (moveIter v result first) first 0 (last - first) value
  | none => v

/-- The loop of `std::__make_heap`, from `parent` down to 0. -/
def make_heap.loop (comp : α → α → Bool) (first len : Nat) : Nat → List α → List α
  | 0, v =>
    match v[first]? with
    | some value => adjust_heap comp v first 0 len value
    | none => v
  | parent + 1, v =>
    match v[first + (parent + 1)]? with
    | some value => make_heap.loop comp first len parent
        (adjust_heap comp v first (parent + 1) len value)
    | none => v

/-- The function `std::__make_heap`. -/
def make_heap (comp : α → α → Bool) (v : List α) (first last : Nat) : List α :=
  if last - first < 2 then v
  else make_heap.loop comp first (last - first) ((last - first - 2) / 2) v

/-- The loop of `std::__sort_heap` on a heap of `count` elements. -/
def sort_heap.loop (comp : α → α → Bool) (first : Nat) : Nat → List α → List α
  | 0, v => v
  | count + 1, v =>
    if count + 1 > 1 then
      sort_heap.loop comp first count
        (pop_heap comp v first (first + count) (first + count))
    else v

/-- The function `std::__sort_heap`. -/
def sort_heap (comp : α → α → Bool) (v : List α) (first last : Nat) : List α :=
  sort_heap.loop comp first (last - first) v

/-- The function `std::__heap_select`. -/
def heap_select (comp : α → α → Bool) (v : List α) (first middle last : Nat) : List α :=
  (List.range' middle (last - middle)).foldl
    (fun w i => if compIter comp w i first then pop_heap comp w first middle i else w)
    (make_heap comp v first middle)

/-- The function `std::__partial_sort`. -/
def partial_sort (comp : α → α → Bool) (v : List α) (first middle last : Nat) : List α :=
  sort_heap comp (heap_select comp v first middle last) first middle

/-- The function `std::__introsort_loop`; the recursion is on the depth limit, which the
loop decrements in every round. -/
def introsort_loop (comp : α → α → Bool) : Nat → List α → Nat → Nat → List α
  | 0, v, first, last =>
    if last - first > S_threshold then partial_sort comp v first last last else v
  | depth_limit + 1, v, first, last =>
    if last - first > S_threshold then
      let cut := unguarded_partition_pivot comp v first last
      introsort_loop comp depth_limit
        (introsort_loop comp depth_limit cut.1 cut.2 last) first cut.2
    else v

/-- The function `std::sort` with a comparator, on the whole list. -/
def sort (comp : α → α → Bool) (v : List α) : List α :=
  if v.length = 0 then v
  else final_insertion_sort comp (introsort_loop comp (lg v.length * 2) v 0 v.length)
    0 v.length

end libstdcxx

/-! ## Concrete data used to evaluate the definitions -/

/-- Modelled from the spec: `Transform::toMat4` (its source file is absent) is
`T(position) · R(rotation) · S(scale)`; this is its value on transforms whose rotation is
zero, where `R` is the identity: translation by `position` after scaling by `scale`. -/
def toMat4ZeroRotation {K : Type} [Zero K] [One K] (t : Transform K) : Mat4 K :=
  Matrix.of ![![t.scale.x, 0, 0, t.position.x], ![0, t.scale.y, 0, t.position.y],
    ![0, 0, t.scale.z, t.position.z], ![0, 0, 0, 1]]

/-- An entity without components. -/
def noComponents {K : Type} : Components K := ⟨none, none, none, none, none⟩

/-- A root entity scaled by 2 in every direction, at the origin. -/
def scaledRoot : Entity ℤ := .mk "root" ⟨⟨0, 0, 0⟩, ⟨0, 0, 0⟩, ⟨2, 2, 2⟩⟩ noComponents none

/-- A child of `scaledRoot` translated by `(1, 0, 0)`. -/
def shiftedChild : Entity ℤ :=
  .mk "child" ⟨⟨1, 0, 0⟩, ⟨0, 0, 0⟩, ⟨1, 1, 1⟩⟩ noComponents (some scaledRoot)

/-- Insertion sort by a comparator, keeping the input order of equivalent elements. -/
def insertionSortBy {α : Type} (comp : α → α → Bool) (l : List α) : List α :=
  List.insertionSort (fun a b => comp b a = false) l

/-- A collaborator table over the integers for evaluating the definitions.  The view and
projection matrices are the identity, `std::sort` is the insertion sort, and `inversesqrt`
is the constant 1 (over the integers the inverse square root is exact only at 1; any
positive value keeps `normalize` a positive multiple of its argument). -/
def sampleEnv : Collaborators ℤ :=
  ⟨toMat4ZeroRotation, fun _ => 1, fun m => m, fun _ => 1, fun _ _ => 1, insertionSortBy, 0⟩

/-- The collaborator table `sampleEnv` with the `std::sort` of GNU libstdc++. -/
def libstdcxxEnv : Collaborators ℤ :=
  ⟨toMat4ZeroRotation, fun _ => 1, fun m => m, fun _ => 1, fun _ _ => 1, libstdcxx.sort, 0⟩

/-- A transform at `position`, without rotation, with unit scale. -/
def transformAt {K : Type} [Zero K] [One K] (position : Vec3 K) : Transform K :=
  ⟨position, ⟨0, 0, 0⟩, ⟨1, 1, 1⟩⟩

/-- A camera at `(0, 0, 5)` looking at the origin. -/
def sampleCamera : CameraComponent ℤ :=
  ⟨.PERSPECTIVE, 1, 100, 1, 1, 0, 0, ⟨0, 0, -1⟩, false, ⟨0, 0, 5⟩, ⟨0, 0, 0⟩, ⟨0, 1, 0⟩⟩

/-- A second camera, at `(9, 9, 9)`. -/
def spareCamera : CameraComponent ℤ :=
  ⟨.ORTHOGRAPHIC, 1, 100, 1, 1, 0, 0, ⟨0, 0, -1⟩, false, ⟨9, 9, 9⟩, ⟨0, 0, 0⟩, ⟨0, 1, 0⟩⟩

/-- A transparent, unlit material. -/
def glass : Material := ⟨some ⟨7⟩, true, false, false, none, none, true⟩

/-- An opaque, lit material. -/
def stone : Material := ⟨some ⟨8⟩, false, true, false, none, none, true⟩

/-- A movement component with forward axis `(1, 0, 0)` and current angle `(30, 0, 0)`. -/
def sampleMovement : MovementComponent ℤ :=
  ⟨.NORMAL, false, ⟨0, 0, 0⟩, ⟨1, 0, 0⟩, 0, -8, 32, 8, false, ⟨0, 0, 0⟩, false, ⟨30, 0, 0⟩,
    ⟨0, 0, 0⟩, 6, 8, ⟨0, 0, 0⟩, false, ⟨0, 0, 0⟩, false, false, 0, false⟩

/-- The entity carrying `sampleCamera`. -/
def cameraEntity : Entity ℤ :=
  .mk "camera" (transformAt ⟨0, 0, 5⟩) ⟨some sampleCamera, none, none, none, none⟩ none

/-- An entity carrying `spareCamera`. -/
def spareCameraEntity : Entity ℤ :=
  .mk "spare" (transformAt ⟨9, 9, 9⟩) ⟨some spareCamera, none, none, none, none⟩ none

/-- A light at `(0, 4, 0)`. -/
def lightEntity : Entity ℤ :=
  .mk "light" (transformAt ⟨0, 4, 0⟩)
    ⟨none, none, some ⟨0, ⟨0, -1, 0⟩, ⟨1, 1, 1⟩, ⟨0, 0⟩, ⟨1, 0, 0⟩, 1⟩, none, none⟩ none

/-- A ball: an entity with the Ball marker and a movement component. -/
def ballEntity : Entity ℤ :=
  .mk "ball" (transformAt ⟨1, 0, 0⟩) ⟨none, none, none, some ⟨()⟩, some sampleMovement⟩ none

/-- The ball's skin: an opaque mesh whose parent is `ballEntity`. -/
def ballSkin : Entity ℤ :=
  .mk "skin" (transformAt ⟨0, 0, 0⟩) ⟨none, some ⟨some ⟨3⟩, some stone⟩, none, none, none⟩
    (some ballEntity)

/-- An opaque mesh without parent. -/
def crate : Entity ℤ :=
  .mk "crate" (transformAt ⟨0, 1, 0⟩) ⟨none, some ⟨some ⟨4⟩, some stone⟩, none, none, none⟩ none

/-- A transparent quad at `(0, 0, 2)`. -/
def nearQuad : Entity ℤ :=
  .mk "near" (transformAt ⟨0, 0, 2⟩) ⟨none, some ⟨some ⟨1⟩, some glass⟩, none, none, none⟩ none

/-- A transparent quad at `(0, 0, -2)`. -/
def farQuad : Entity ℤ :=
  .mk "far" (transformAt ⟨0, 0, -2⟩) ⟨none, some ⟨some ⟨2⟩, some glass⟩, none, none, none⟩ none

/-- A second transparent quad at `(0, 0, 2)`, with another mesh than `nearQuad`. -/
def nearQuadTwin : Entity ℤ :=
  .mk "twin" (transformAt ⟨0, 0, 2⟩) ⟨none, some ⟨some ⟨5⟩, some glass⟩, none, none, none⟩ none

/-- A world with a light, two cameras, a ball with its skin, a crate and two quads. -/
def sampleWorld : World ℤ :=
  ⟨[lightEntity, cameraEntity, ballEntity, ballSkin, crate, nearQuad, farQuad,
    spareCameraEntity]⟩

/-- A world with a camera, two transparent quads at the same place and, between them in
traversal order, a farther one. -/
def tieWorld : World ℤ := ⟨[cameraEntity, nearQuad, farQuad, nearQuadTwin]⟩

/-- A transparent quad at `(i, 0, 2)` with mesh `i`: for the camera at `(0, 0, 5)` looking
at the origin all these quads have the same projection onto the forward vector. -/
def tiedQuad (i : Nat) : Entity ℤ :=
  .mk "tied" (transformAt ⟨i, 0, 2⟩) ⟨none, some ⟨some ⟨i⟩, some glass⟩, none, none, none⟩ none

/-- The command extracted from `tiedQuad i`. -/
def tiedCommand (i : Nat) : RenderCommand ℤ :=
  buildCommand toMat4ZeroRotation (tiedQuad i) ⟨some ⟨i⟩, some glass⟩

/-- A world with a camera and the seventeen quads `tiedQuad 0`, ..., `tiedQuad 16`. -/
def crowdedWorld : World ℤ := ⟨cameraEntity :: (List.range 17).map tiedQuad⟩

/-- A world without camera. -/
def darkWorld : World ℤ := ⟨[lightEntity, ballEntity, ballSkin, crate, nearQuad, farQuad]⟩

/-- A renderer with neither sky nor post-processing, drawing to a window of 800 by 600. -/
def plainRenderer : ForwardRenderer ℤ :=
  ⟨(800, 600), none, none, 0, 0, none, none, none, [], [], []⟩

/-- A renderer with a sky and a post-process stage. -/
def fullRenderer : ForwardRenderer ℤ :=
  ⟨(800, 600), some ⟨90⟩, some ⟨some ⟨91⟩, false, false, false, some 92, some 93, true⟩,
    1, 1, some 94, some 95, some ⟨some ⟨96⟩, false, false, false, some 94, some 97, false⟩,
    [], [], []⟩

/-- The command extracted from `nearQuad`. -/
def nearCommand : RenderCommand ℤ :=
  buildCommand toMat4ZeroRotation nearQuad ⟨some ⟨1⟩, some glass⟩

/-- The command extracted from `farQuad`. -/
def farCommand : RenderCommand ℤ :=
  buildCommand toMat4ZeroRotation farQuad ⟨some ⟨2⟩, some glass⟩

/-- The command extracted from `crate`. -/
def crateCommand : RenderCommand ℤ :=
  buildCommand toMat4ZeroRotation crate ⟨some ⟨4⟩, some stone⟩

/-- The ball command extracted from `ballSkin`. -/
def skinCommand : BallCommand ℤ :=
  ⟨ballSkin.getLocalToWorldMatrix toMat4ZeroRotation, ⟨1, 0, 0⟩, some ⟨3⟩, some stone, 30,
    ⟨1, 0, 0⟩, true⟩

/-- The loop state that extraction reaches on `sampleWorld`. -/
def sampleExtraction : Extraction ℤ :=
  ⟨some sampleCamera, [crateCommand], [nearCommand, farCommand],
    [⟨⟨0, ⟨0, -1, 0⟩, ⟨1, 1, 1⟩, ⟨0, 0⟩, ⟨1, 0, 0⟩, 1⟩, lightEntity⟩], [skinCommand]⟩

/-- The command extracted from `nearQuadTwin`. -/
def twinCommand : RenderCommand ℤ :=
  buildCommand toMat4ZeroRotation nearQuadTwin ⟨some ⟨5⟩, some glass⟩

/-- A world whose only mesh renderer sits under the Ball-marked `ballEntity`. -/
def skinWorld : World ℤ := ⟨[ballEntity, ballSkin]⟩

/-- A world whose only mesh renderer is the parentless `crate`. -/
def crateWorld : World ℤ := ⟨[cameraEntity, crate, lightEntity]⟩

/-- The loop state that extraction reaches on `darkWorld`. -/
def darkExtraction : Extraction ℤ :=
  ⟨none, [crateCommand], [nearCommand, farCommand],
    [⟨⟨0, ⟨0, -1, 0⟩, ⟨1, 1, 1⟩, ⟨0, 0⟩, ⟨1, 0, 0⟩, 1⟩, lightEntity⟩], [skinCommand]⟩

/-! ## Concrete data for the lifecycle, keyboard and application -/

/-- A keyboard on which only the escape key is down. -/
def escapeOnly : Keyboard :=
  ⟨true, fun key => key.val == GLFW_KEY_ESCAPE, fun _ => false⟩

/-- A keyboard on which only the space key is down, and was not at the last update. -/
def spaceDown : Keyboard :=
  ⟨true, fun key => key.val == GLFW_KEY_SPACE, fun _ => false⟩

/-- An application with two registered states, running state 1. -/
def sampleApplication : Application :=
  ⟨[("menu", 1), ("play", 2)], none, some 1, none⟩

/-- A configuration with a sky texture and a post-process shader. -/
def fullConfig : RendererConfig :=
  ⟨some "assets/textures/sky.jpg", some "assets/shaders/postprocess/vignette.frag"⟩

/-- A configuration with neither sky nor post-processing. -/
def emptyConfig : RendererConfig := ⟨none, none⟩

/-- A fresh renderer initialized with `fullConfig`. -/
def initializedFull : TrackedRenderer ℤ :=
  (@TrackedRenderer.fresh ℤ).initializeRenderer (800, 600) fullConfig

/-- The renderer `initializedFull` after `destroy` and a second `initialize`, this time
with `emptyConfig`. -/
def reinitializedEmpty : TrackedRenderer ℤ :=
  initializedFull.destroy.initializeRenderer (800, 600) emptyConfig

/-- A fresh renderer initialized with `emptyConfig`. -/
def initializedEmpty : TrackedRenderer ℤ :=
  (@TrackedRenderer.fresh ℤ).initializeRenderer (800, 600) emptyConfig

/-- An entity with the Ball marker and no movement component. -/
def orphanBall : Entity ℤ :=
  .mk "orphan" (transformAt ⟨1, 0, 0⟩) ⟨none, none, none, some ⟨()⟩, none⟩ none

/-- A mesh whose parent is `orphanBall`. -/
def orphanSkin : Entity ℤ :=
  .mk "orphanSkin" (transformAt ⟨0, 0, 0⟩)
    ⟨none, some ⟨some ⟨6⟩, some stone⟩, none, none, none⟩ (some orphanBall)

/-- A world in which a mesh sits under a Ball-marked parent without movement component. -/
def brokenWorld : World ℤ := ⟨[cameraEntity, orphanBall, orphanSkin]⟩

/-! ## Concrete timers, movement components and JSON values -/

/-- A timer at 0:30, the value set by `onInitialize`. -/
def startTimer : Level3state := ⟨0, 30, false⟩

/-- A timer whose minute count is an `int` but whose total in seconds is not. -/
def hugeTimer : Level3state := ⟨35791395, 0, false⟩

/-- A movement component at rest over the rationals. -/
def restingMovement : MovementComponent ℚ :=
  ⟨.NORMAL, false, ⟨0, 0, 0⟩, ⟨0, 0, -1⟩, 0, -8, 32, 8, false, ⟨0, 0, 0⟩, false, ⟨0, 0, 0⟩,
    ⟨0, 0, 0⟩, 6, 8, ⟨0, 0, 0⟩, false, ⟨0, 0, 0⟩, false, false, 0, false⟩

/-- A movement object over the rationals whose movement type is `FIXED_ROTATION`. -/
def spinningObject : MovementObject ℚ :=
  ⟨⟨.FIXED_ROTATION, false, ⟨0, 0, 0⟩, ⟨0, 0, -1⟩, 0, -8, 32, 8, false, ⟨0, 0, 0⟩, false,
    ⟨0, 0, 0⟩, ⟨0, 0, 0⟩, 6, 8, ⟨0, 0, 0⟩, false, ⟨0, 0, 0⟩, false, false, 0, false⟩, 1⟩

/-- A movement descriptor without the key `movementType`. -/
def speedOnly : JsonValue ℚ :=
  .object [("initial_speed", .number 3), ("canRoll", .boolean true)]

/-- A JSON value that is not an object. -/
def notAnObject : JsonValue ℤ := .array [.string "Mesh Renderer"]


/-- A light at the local position `(1, 0, 0)` under `scaledRoot`, the root scaled by 2. -/
def parentedLight : Entity ℤ :=
  .mk "lamp" (transformAt ⟨1, 0, 0⟩)
    ⟨none, none, some ⟨0, ⟨0, -1, 0⟩, ⟨1, 1, 1⟩, ⟨0, 0⟩, ⟨1, 0, 0⟩, 1⟩, none, none⟩
    (some scaledRoot)

/-- A world with a camera, the light `parentedLight` and the lit `crate`. -/
def lampWorld : World ℤ := ⟨[cameraEntity, parentedLight, crate]⟩

/-- The collaborator table of `sampleEnv` over the rationals. -/
def skyEnv : Collaborators ℚ :=
  ⟨toMat4ZeroRotation, fun _ => 1, fun m => m, fun _ => 1, fun _ _ => 1, insertionSortBy, 0⟩

/-- A camera at `(0, 0, 5)` looking at the origin, over the rationals. -/
def skyCamera : CameraComponent ℚ :=
  ⟨.PERSPECTIVE, 1, 100, 1, 1, 0, 0, ⟨0, 0, -1⟩, false, ⟨0, 0, 5⟩, ⟨0, 0, 0⟩, ⟨0, 1, 0⟩⟩

/-- A world whose only entity carries `skyCamera`. -/
def skyWorld : World ℚ :=
  ⟨[.mk "camera" (transformAt ⟨0, 0, 5⟩) ⟨some skyCamera, none, none, none, none⟩ none]⟩

/-- The sky material of `skyRenderer`. -/
def skyDome : Material := ⟨some ⟨91⟩, false, false, false, some 92, some 93, true⟩

/-- A renderer over the rationals with a sky and no post-processing. -/
def skyRenderer : ForwardRenderer ℚ :=
  ⟨(800, 600), some ⟨90⟩, some skyDome, 0, 0, none, none, none, [], [], []⟩

/-! ## Scene-graph lemmas -/

section SceneGraph

variable {K : Type} [Semiring K]

theorem Entity.loop_eq_mul (toMat4 : Transform K → Mat4 K) :
    ∀ (e : Entity K) (T : Mat4 K),
      Entity.getLocalToWorldMatrix.loop toMat4 e T
        = Entity.getLocalToWorldMatrix toMat4 e * T
  | .mk _ t _ none, T => by
      simp [Entity.getLocalToWorldMatrix, Entity.getLocalToWorldMatrix.loop]
  | .mk n t c (some p), T => by
      simp only [Entity.getLocalToWorldMatrix, Entity.getLocalToWorldMatrix.loop]
      rw [Entity.loop_eq_mul toMat4 p (toMat4 t * T), Entity.loop_eq_mul toMat4 p (toMat4 t * 1)]
      simp [Entity.getLocalToWorldMatrix, mul_assoc]

theorem Entity.getLocalToWorldMatrix_root (toMat4 : Transform K → Mat4 K) (n : String)
    (t : Transform K) (c : Components K) :
    Entity.getLocalToWorldMatrix toMat4 (.mk n t c none) = toMat4 t := by
  simp [Entity.getLocalToWorldMatrix, Entity.getLocalToWorldMatrix.loop]

theorem Entity.getLocalToWorldMatrix_child (toMat4 : Transform K → Mat4 K) (n : String)
    (t : Transform K) (c : Components K) (p : Entity K) :
    Entity.getLocalToWorldMatrix toMat4 (.mk n t c (some p))
      = Entity.getLocalToWorldMatrix toMat4 p * toMat4 t := by
  have h := Entity.loop_eq_mul toMat4 p (toMat4 t * 1)
  simp only [Entity.getLocalToWorldMatrix, Entity.getLocalToWorldMatrix.loop] at h ⊢
  rw [h, mul_one]

theorem Entity.getLocalToWorldMatrix_eq_prod (toMat4 : Transform K → Mat4 K) :
    ∀ e : Entity K,
      Entity.getLocalToWorldMatrix toMat4 e
        = ((Entity.chain e).reverse.map (fun x => toMat4 x.localTransform)).prod
  | .mk n t c none => by
      rw [Entity.getLocalToWorldMatrix_root]
      simp [Entity.chain, Entity.localTransform]
  | .mk n t c (some p) => by
      rw [Entity.getLocalToWorldMatrix_child, Entity.getLocalToWorldMatrix_eq_prod toMat4 p]
      simp [Entity.chain, Entity.localTransform]

end SceneGraph

/-! ## Local-to-world matrix -/

section LocalToWorld

variable {K : Type} [Semiring K]

/-- C1: for every entity with parent chain `E0 = E, E1, ..., En`, the local-to-world
matrix is the product `En.local * ... * E1.local * E0.local` (the list of local matrices
of the reversed chain, multiplied in order), so the root-most ancestor is the leftmost
factor; for an entity without parent it is the entity's own local matrix. -/
theorem C1_localToWorld_ancestors_leftmost (toMat4 : Transform K → Mat4 K) (e : Entity K) :
    e.getLocalToWorldMatrix toMat4
        = (e.chain.reverse.map (fun x => toMat4 x.localTransform)).prod
      ∧ ∀ (n : String) (t : Transform K) (c : Components K),
          (Entity.mk n t c none).getLocalToWorldMatrix toMat4 = toMat4 t :=
  ⟨Entity.getLocalToWorldMatrix_eq_prod toMat4 e,
    fun n t c => Entity.getLocalToWorldMatrix_root toMat4 n t c⟩

/-- C2 (as stated, refuted): for the child `shiftedChild` of `scaledRoot` (a chain of
depth 1) the local-to-world matrix differs from `E0.local * E1.local`. -/
theorem C2_counterexample_depth_one :
    shiftedChild.getLocalToWorldMatrix toMat4ZeroRotation
      ≠ (shiftedChild.chain.map (fun x => toMat4ZeroRotation x.localTransform)).prod := by
  decide

/-- C2 (amended): the local-to-world matrix is obtained from the chain `E0, E1, ..., En`
by starting from the identity and multiplying each local matrix in turn on the LEFT, so
it is `En.local * ... * E1.local * E0.local`: the entity's own matrix is the rightmost
factor.  At depth 0 this is `E0.local`, at depth 1 it is `E1.local * E0.local`, and at
depth 3 it is `E3.local * E2.local * E1.local * E0.local`. -/
theorem C2_localToWorld_own_matrix_rightmost (toMat4 : Transform K → Mat4 K) :
    (∀ e : Entity K, e.getLocalToWorldMatrix toMat4
        = (e.chain.map (fun x => toMat4 x.localTransform)).foldl (fun acc m => m * acc) 1)
      ∧ (∀ (n0 : String) (t0 : Transform K) (c0 : Components K),
          (Entity.mk n0 t0 c0 none).getLocalToWorldMatrix toMat4 = toMat4 t0)
      ∧ (∀ (n0 n1 : String) (t0 t1 : Transform K) (c0 c1 : Components K),
          (Entity.mk n0 t0 c0 (some (.mk n1 t1 c1 none))).getLocalToWorldMatrix toMat4
            = toMat4 t1 * toMat4 t0)
      ∧ (∀ (n0 n1 n2 n3 : String) (t0 t1 t2 t3 : Transform K) (c0 c1 c2 c3 : Components K),
          (Entity.mk n0 t0 c0 (some (.mk n1 t1 c1 (some (.mk n2 t2 c2
              (some (.mk n3 t3 c3 none))))))).getLocalToWorldMatrix toMat4
            = toMat4 t3 * toMat4 t2 * toMat4 t1 * toMat4 t0) := by
  refine ⟨fun e => ?_, fun n0 t0 c0 => Entity.getLocalToWorldMatrix_root toMat4 n0 t0 c0, ?_, ?_⟩
  · rw [Entity.getLocalToWorldMatrix_eq_prod, List.map_reverse, List.prod_eq_foldr,
      List.foldr_reverse]
  · intros
    simp [Entity.getLocalToWorldMatrix_child, Entity.getLocalToWorldMatrix_root]
  · intros
    simp [Entity.getLocalToWorldMatrix_child, Entity.getLocalToWorldMatrix_root, mul_assoc]

end LocalToWorld

/-! ## Transparency sort -/

section Sorting

variable {K : Type} [LinearOrderedCommRing K]

theorem transparentComparator_eq (f : Vec3 K) (a b : RenderCommand K) :
    transparentComparator f a b = decide (dot f b.center < dot f a.center) := by
  unfold transparentComparator
  by_cases h : dot f b.center < dot f a.center <;> simp [GT.gt, h]

theorem transparentComparator_strictWeak (f : Vec3 K) :
    StrictWeakOrdering (transparentComparator f) := by
  constructor
  · intro a; simp [transparentComparator_eq]
  · intro a b c; simp only [transparentComparator_eq, decide_eq_true_eq]
    intro h1 h2; exact lt_trans h2 h1
  · intro a b c; simp only [transparentComparator_eq, decide_eq_false_iff_not, not_lt]
    intro h1 h2 h3 h4
    exact ⟨le_trans h1 h3, le_trans h4 h2⟩

theorem StrictWeakOrdering.asymm {α : Type} {comp : α → α → Bool} (h : StrictWeakOrdering comp)
    (a b : α) (hab : comp a b = true) : comp b a = false := by
  cases hba : comp b a
  · rfl
  · have := h.trans a b a hab hba
    rw [h.irrefl a] at this
    exact absurd this (by simp)

theorem StrictWeakOrdering.neg_trans {α : Type} {comp : α → α → Bool}
    (h : StrictWeakOrdering comp) (a b c : α) (hba : comp b a = false) (hcb : comp c b = false) :
    comp c a = false := by
  cases hca : comp c a
  · rfl
  · exfalso
    have hab : comp a b = false := by
      cases hab : comp a b
      · rfl
      · have := h.trans c a b hca hab
        rw [hcb] at this; exact absurd this (by simp)
    have hbc : comp b c = false := by
      cases hbc : comp b c
      · rfl
      · have := h.trans b c a hbc hca
        rw [hba] at this; exact absurd this (by simp)
    have := (h.incomp_trans a b c hab hba hbc hcb).2
    rw [hca] at this; exact absurd this (by simp)

theorem insertionSort_contract {α : Type} (pre : List α → List α)
    (hpre : ∀ l, (pre l).Perm l) :
    StdSortContract (fun comp l => List.insertionSort (fun a b => comp b a = false) (pre l)) := by
  intro comp l h
  refine ⟨(List.perm_insertionSort _ _).trans (hpre l), ?_⟩
  haveI : IsTotal α (fun a b => comp b a = false) :=
    ⟨fun a b => by
      cases hba : comp b a
      · exact Or.inl rfl
      · exact Or.inr (h.asymm b a hba)⟩
  haveI : IsTrans α (fun a b => comp b a = false) :=
    ⟨fun a b c hba hcb => h.neg_trans a b c hba hcb⟩
  exact List.sorted_insertionSort _ _

theorem insertionSortBy_contract {α : Type} : StdSortContract (@insertionSortBy α) :=
  insertionSort_contract id (fun l => List.Perm.refl l)

theorem sortTransparent_perm (env : Collaborators K) (hsort : StdSortContract env.sort)
    (camera : CameraComponent K) (bucket : List (RenderCommand K)) :
    (sortTransparent env camera bucket).Perm bucket :=
  (hsort _ bucket (transparentComparator_strictWeak _)).1

theorem sortTransparent_pairwise (env : Collaborators K) (hsort : StdSortContract env.sort)
    (camera : CameraComponent K) (bucket : List (RenderCommand K)) :
    (sortTransparent env camera bucket).Pairwise (fun a b =>
      dot (cameraForward env.inversesqrt camera) b.center
        ≤ dot (cameraForward env.inversesqrt camera) a.center) := by
  have h := (hsort _ bucket
    (transparentComparator_strictWeak (cameraForward env.inversesqrt camera))).2
  refine List.Pairwise.imp ?_ h
  intro a b hab
  simpa [transparentComparator_eq] using hab

theorem renderWithCamera_eq_some (env : Collaborators K) (self : ForwardRenderer K)
    (ex : Extraction K) (camera : CameraComponent K) (r : RenderResult K)
    (h : renderWithCamera env self ex camera = some r) :
    ∃ bound ballCalls opaqueCalls skyCalls transparentCalls,
      bindPostprocess env self = some bound
      ∧ drawLoop (drawBall env
          (env.getProjectionMatrix camera self.windowSize * env.getViewMatrix camera)
          ex.lightsSources) ex.ballModels = some ballCalls
      ∧ drawLoop (drawCommand env
          (env.getProjectionMatrix camera self.windowSize * env.getViewMatrix camera)
          ex.lightsSources) ex.opaqueCommands = some opaqueCalls
      ∧ drawSky env self
          (env.getProjectionMatrix camera self.windowSize * env.getViewMatrix camera) camera
          = some skyCalls
      ∧ drawLoop (drawCommand env
          (env.getProjectionMatrix camera self.windowSize * env.getViewMatrix camera)
          ex.lightsSources) (sortTransparent env camera ex.transparentCommands)
          = some transparentCalls
      ∧ r.renderer = { self with opaqueCommands := ex.opaqueCommands,
                                 transparentCommands :=
                                   sortTransparent env camera ex.transparentCommands,
                                 lightsSources := ex.lightsSources }
      ∧ r.calls = [ GLCall.glViewport 0 0 self.windowSize.1 self.windowSize.2,
            GLCall.glClearColor 0 0 0 1, GLCall.glClearDepth 1,
            GLCall.glColorMask true true true true, GLCall.glDepthMask true ]
          ++ bound ++ [GLCall.glClear] ++ ballCalls ++ opaqueCalls ++ skyCalls
          ++ transparentCalls ++ composite self := by
  unfold renderWithCamera at h
  simp only at h
  split at h
  · exact absurd h (by simp)
  rename_i bound hb
  split at h
  · exact absurd h (by simp)
  rename_i ballCalls hball
  split at h
  · exact absurd h (by simp)
  rename_i opaqueCalls hop
  split at h
  · exact absurd h (by simp)
  rename_i skyCalls hsky
  split at h
  · exact absurd h (by simp)
  rename_i tc htc
  injection h with h
  subst h
  exact ⟨bound, ballCalls, opaqueCalls, skyCalls, tc, hb, hball, hop, hsky, htc, rfl, rfl⟩

theorem render_eq_some_of_camera (env : Collaborators K) (self : ForwardRenderer K)
    (world : World K) (ex : Extraction K) (camera : CameraComponent K) (r : RenderResult K)
    (hex : extract env.toMat4 world = some ex) (hcam : ex.camera = some camera)
    (hr : render env self world = some r) :
    renderWithCamera env self ex camera = some r := by
  unfold render at hr
  rw [hex] at hr
  simp only [hcam] at hr
  exact hr

/-- C3: when `render` finds a camera and completes, the transparent bucket it leaves is
ordered back to front: at positions `i < j` the projection of the center onto the camera
forward vector at `i` is at least the one at `j`, and a command with a strictly greater
projection than another stands (and so is drawn) before it.  `std::sort` is any function
meeting the contract of the C++ standard. -/
theorem C3_transparent_back_to_front (env : Collaborators K)
    (hsort : StdSortContract env.sort) (self : ForwardRenderer K) (world : World K)
    (ex : Extraction K) (camera : CameraComponent K) (r : RenderResult K)
    (hex : extract env.toMat4 world = some ex) (hcam : ex.camera = some camera)
    (hr : render env self world = some r) :
    (∀ i j : Fin r.renderer.transparentCommands.length, i < j →
        dot (cameraForward env.inversesqrt camera) (r.renderer.transparentCommands.get i).center
          ≥ dot (cameraForward env.inversesqrt camera)
              (r.renderer.transparentCommands.get j).center)
      ∧ (∀ i j : Fin r.renderer.transparentCommands.length,
        dot (cameraForward env.inversesqrt camera) (r.renderer.transparentCommands.get i).center
          > dot (cameraForward env.inversesqrt camera)
              (r.renderer.transparentCommands.get j).center → i < j) := by
  obtain ⟨_, _, _, _, _, _, _, _, _, _, hren, _⟩ :=
    renderWithCamera_eq_some env self ex camera r
      (render_eq_some_of_camera env self world ex camera r hex hcam hr)
  have hpw := sortTransparent_pairwise env hsort camera ex.transparentCommands
  have hlist : r.renderer.transparentCommands
      = sortTransparent env camera ex.transparentCommands := by rw [hren]
  rw [← hlist] at hpw
  have hget := List.pairwise_iff_get.mp hpw
  refine ⟨fun i j hij => hget i j hij, fun i j hgt => ?_⟩
  by_contra hnot
  rcases lt_or_eq_of_le (not_lt.mp hnot) with hji | hji
  · exact absurd (hget j i hji) (not_le.mpr hgt)
  · rw [hji] at hgt
    exact lt_irrefl _ hgt

/-- C3 witness: on the sample world, rendered with the insertion sort, `render` completes
and leaves a transparent bucket ordered back to front. -/
theorem C3_transparent_back_to_front_witness :
    StdSortContract sampleEnv.sort
      ∧ extract sampleEnv.toMat4 sampleWorld = some sampleExtraction
      ∧ sampleExtraction.camera = some sampleCamera
      ∧ ∃ r, render sampleEnv fullRenderer sampleWorld = some r
        ∧ r.renderer.transparentCommands = [farCommand, nearCommand]
        ∧ (∀ i j : Fin r.renderer.transparentCommands.length, i < j →
            dot (cameraForward sampleEnv.inversesqrt sampleCamera)
                (r.renderer.transparentCommands.get i).center
              ≥ dot (cameraForward sampleEnv.inversesqrt sampleCamera)
                (r.renderer.transparentCommands.get j).center) := by
  have hsome : (render sampleEnv fullRenderer sampleWorld).isSome = true := rfl
  have hr := (Option.some_get hsome).symm
  exact ⟨insertionSortBy_contract, rfl, rfl, _, hr, rfl,
    (C3_transparent_back_to_front sampleEnv insertionSortBy_contract fullRenderer sampleWorld
      sampleExtraction sampleCamera _ rfl rfl hr).1⟩

set_option maxRecDepth 100000 in
/-- C4 (as stated, refuted): with the `std::sort` of GNU libstdc++, the seventeen quads of
`crowdedWorld` have equal projections onto the camera forward vector and enter the
transparent bucket in traversal order, `tiedCommand 0` first; `render` leaves them in the
order 8, 16, 15, ..., 9, 0, 7, 6, ..., 1, so `tiedCommand 0` precedes `tiedCommand 8`
before the sort and follows it afterwards. -/
theorem C4_counterexample_ties_reordered :
    (extract libstdcxxEnv.toMat4 crowdedWorld).map (fun ex => ex.transparentCommands)
        = some ((List.range 17).map tiedCommand)
      ∧ (∀ i ∈ List.range 17, ∀ j ∈ List.range 17,
          dot (cameraForward libstdcxxEnv.inversesqrt sampleCamera) (tiedCommand i).center
            = dot (cameraForward libstdcxxEnv.inversesqrt sampleCamera)
                (tiedCommand j).center)
      ∧ (render libstdcxxEnv plainRenderer crowdedWorld).map
          (fun r => r.renderer.transparentCommands)
        = some ([8, 16, 15, 14, 13, 12, 11, 10, 9, 0, 7, 6, 5, 4, 3, 2, 1].map tiedCommand)
      ∧ ((List.range 17).map tiedCommand).indexOf (tiedCommand 0)
          < ((List.range 17).map tiedCommand).indexOf (tiedCommand 8)
      ∧ ([8, 16, 15, 14, 13, 12, 11, 10, 9, 0, 7, 6, 5, 4, 3, 2, 1].map tiedCommand).indexOf
            (tiedCommand 8)
          < ([8, 16, 15, 14, 13, 12, 11, 10, 9, 0, 7, 6, 5, 4, 3, 2, 1].map tiedCommand).indexOf
            (tiedCommand 0) :=
  ⟨rfl, by decide, rfl, by decide, by decide⟩

/-- C4 (amended): when `render` finds a camera and completes, every command of the
transparent bucket is still in it after the sort and no other is, and the commands between
two commands of equal projection have that same projection: ties form one contiguous run,
inside which the order is the one `std::sort` happens to produce. -/
theorem C4_ties_contiguous (env : Collaborators K)
    (hsort : StdSortContract env.sort) (self : ForwardRenderer K) (world : World K)
    (ex : Extraction K) (camera : CameraComponent K) (r : RenderResult K)
    (hex : extract env.toMat4 world = some ex) (hcam : ex.camera = some camera)
    (hr : render env self world = some r) :
    (∀ c, c ∈ r.renderer.transparentCommands ↔ c ∈ ex.transparentCommands)
      ∧ (∀ i k j : Fin r.renderer.transparentCommands.length, i < k → k < j →
        dot (cameraForward env.inversesqrt camera) (r.renderer.transparentCommands.get i).center
          = dot (cameraForward env.inversesqrt camera)
              (r.renderer.transparentCommands.get j).center →
        dot (cameraForward env.inversesqrt camera) (r.renderer.transparentCommands.get k).center
          = dot (cameraForward env.inversesqrt camera)
              (r.renderer.transparentCommands.get i).center) := by
  obtain ⟨_, _, _, _, _, _, _, _, _, _, hren, _⟩ :=
    renderWithCamera_eq_some env self ex camera r
      (render_eq_some_of_camera env self world ex camera r hex hcam hr)
  have hlist : r.renderer.transparentCommands
      = sortTransparent env camera ex.transparentCommands := by rw [hren]
  have hpw := sortTransparent_pairwise env hsort camera ex.transparentCommands
  have hperm := sortTransparent_perm env hsort camera ex.transparentCommands
  rw [← hlist] at hpw hperm
  have hget := List.pairwise_iff_get.mp hpw
  refine ⟨fun c => hperm.mem_iff, fun i k j hik hkj heq => ?_⟩
  have h1 := hget i k hik
  have h2 := hget k j hkj
  rw [← heq] at h2
  exact le_antisymm h1 h2

/-- C4 witness: `tieWorld`, rendered with the insertion sort.  The bucket
`nearCommand, farCommand, twinCommand` leaves `render` as
`farCommand, nearCommand, twinCommand`: the two commands of equal projection are next to
each other. -/
theorem C4_ties_contiguous_witness :
    StdSortContract sampleEnv.sort
      ∧ dot (cameraForward sampleEnv.inversesqrt sampleCamera) nearCommand.center
          = dot (cameraForward sampleEnv.inversesqrt sampleCamera) twinCommand.center
      ∧ ∃ ex r, extract sampleEnv.toMat4 tieWorld = some ex
        ∧ ex.camera = some sampleCamera
        ∧ render sampleEnv fullRenderer tieWorld = some r
        ∧ ex.transparentCommands = [nearCommand, farCommand, twinCommand]
        ∧ r.renderer.transparentCommands = [farCommand, nearCommand, twinCommand]
        ∧ ∀ c, c ∈ r.renderer.transparentCommands ↔ c ∈ ex.transparentCommands := by
  have hexsome : (extract sampleEnv.toMat4 tieWorld).isSome = true := rfl
  have hex := (Option.some_get hexsome).symm
  have hsome : (render sampleEnv fullRenderer tieWorld).isSome = true := rfl
  have hr := (Option.some_get hsome).symm
  exact ⟨insertionSortBy_contract, by decide, _, _, hex, rfl, hr, rfl, rfl,
    (C4_ties_contiguous sampleEnv insertionSortBy_contract fullRenderer tieWorld
      _ sampleCamera _ hex rfl hr).1⟩

theorem cameraForward_scenario (inversesqrt : K → K) (camera : CameraComponent K)
    (hposition : camera.current_position = ⟨0, 0, 5⟩)
    (hlookat : camera.current_lookat = ⟨0, 0, 0⟩) :
    cameraForward inversesqrt camera = ⟨0, 0, -5 * inversesqrt 25⟩ := by
  simp only [cameraForward, normalize, Vec3.ofVec4, vec4, Vec3.sub, Vec3.scale, dot, hposition,
    hlookat]
  norm_num

/-- C5: with the camera at `(0, 0, 5)` looking at `(0, 0, 0)` and a transparent bucket of
two commands centered at `(0, 0, 2)` and `(0, 0, -2)`, in either input order, the sort
statement of `render` leaves the command at `(0, 0, -2)` first and the one at `(0, 0, 2)`
second.  `std::sort` is any function meeting the contract of the standard, and
`inversesqrt(25)` any positive number. -/
theorem C5_scenario_far_quad_first (env : Collaborators K)
    (hsort : StdSortContract env.sort) (hpos : 0 < env.inversesqrt 25)
    (camera : CameraComponent K) (near far : RenderCommand K)
    (hposition : camera.current_position = ⟨0, 0, 5⟩)
    (hlookat : camera.current_lookat = ⟨0, 0, 0⟩)
    (hnear : near.center = ⟨0, 0, 2⟩) (hfar : far.center = ⟨0, 0, -2⟩) :
    sortTransparent env camera [near, far] = [far, near]
      ∧ sortTransparent env camera [far, near] = [far, near] := by
  have hf := cameraForward_scenario env.inversesqrt camera hposition hlookat
  have hkey : dot (cameraForward env.inversesqrt camera) near.center
      < dot (cameraForward env.inversesqrt camera) far.center := by
    rw [hf, hnear, hfar]
    simp only [dot]
    nlinarith
  have hne : near ≠ far := by
    intro h
    rw [h] at hkey
    exact lt_irrefl _ hkey
  have key : ∀ l : List (RenderCommand K), l.Perm [near, far] →
      l.Pairwise (fun a b => dot (cameraForward env.inversesqrt camera) b.center
        ≤ dot (cameraForward env.inversesqrt camera) a.center) → l = [far, near] := by
    intro l hperm hpw
    have hlen : l.length = 2 := by simpa using hperm.length_eq
    match l, hlen with
    | [x, y], _ =>
      have hxy := (List.pairwise_pair.mp hpw)
      have hx : x ∈ [near, far] := hperm.subset (by simp)
      have hy : y ∈ [near, far] := hperm.subset (by simp)
      have hnd : [x, y].Nodup := hperm.nodup_iff.mpr (by simp [hne])
      have hxney : x ≠ y := by simpa using hnd
      simp only [List.mem_cons, List.mem_singleton, List.not_mem_nil, or_false] at hx hy
      rcases hx with rfl | rfl <;> rcases hy with rfl | rfl
      · exact absurd rfl hxney
      · exact absurd hxy (not_le.mpr hkey)
      · rfl
      · exact absurd rfl hxney
  refine ⟨key _ (sortTransparent_perm env hsort camera _)
      (sortTransparent_pairwise env hsort camera _), ?_⟩
  exact key _ ((sortTransparent_perm env hsort camera _).trans (List.Perm.swap near far []))
    (sortTransparent_pairwise env hsort camera _)

/-- C5 witness: the scenario with the two sample quads and the insertion sort. -/
theorem C5_scenario_far_quad_first_witness :
    StdSortContract sampleEnv.sort ∧ 0 < sampleEnv.inversesqrt 25
      ∧ sampleCamera.current_position = ⟨0, 0, 5⟩ ∧ sampleCamera.current_lookat = ⟨0, 0, 0⟩
      ∧ nearCommand.center = ⟨0, 0, 2⟩ ∧ farCommand.center = ⟨0, 0, -2⟩
      ∧ sortTransparent sampleEnv sampleCamera [nearCommand, farCommand]
          = [farCommand, nearCommand]
      ∧ sortTransparent sampleEnv sampleCamera [farCommand, nearCommand]
          = [farCommand, nearCommand] :=
  ⟨insertionSortBy_contract, by decide, rfl, rfl, by decide, by decide,
    C5_scenario_far_quad_first sampleEnv insertionSortBy_contract (by decide) sampleCamera
      nearCommand farCommand rfl rfl (by decide) (by decide)⟩

end Sorting

/-! ## Lemmas on pointers and loops -/

section Pointers

variable {K : Type}

theorem foldl_selectCamera_some (c : CameraComponent K) :
    ∀ es : List (Entity K), es.foldl selectCamera (some c) = some c
  | [] => rfl
  | e :: rest => by
    simp only [List.foldl_cons, selectCamera]
    exact foldl_selectCamera_some c rest

theorem foldl_selectCamera_none :
    ∀ es : List (Entity K),
      es.foldl selectCamera none = es.findSome? (fun e => e.components.camera)
  | [] => rfl
  | e :: rest => by
    simp only [List.foldl_cons, selectCamera, List.findSome?_cons]
    cases h : e.components.camera with
    | none => simpa using foldl_selectCamera_none rest
    | some c => simpa using foldl_selectCamera_some c rest

theorem extractable_of_no_ball_parent (e : Entity K) (mr : MeshRendererComponent)
    (material : Material) (hmr : e.components.meshRenderer = some mr)
    (hmat : mr.material = some material) (hball : hasBallParent e = false) :
    extractable e = true := by
  rcases e with ⟨n, t, c, p⟩
  unfold extractable
  rw [hmr]
  cases p with
  | none => simp [Entity.parent, hmat]
  | some p =>
    have hb : p.components.ball.isSome = false := hball
    simp [Entity.parent, hmat, hb]

theorem extractable_of_no_mesh (e : Entity K) (h : hasMeshRenderer e = false) :
    extractable e = true := by
  unfold hasMeshRenderer at h
  unfold extractable
  cases hm : e.components.meshRenderer with
  | none => rfl
  | some mr => rw [hm] at h; exact absurd h (by simp)

theorem drawLoop_filter_isDraw {α : Type} (body : α → Option (List (GLCall K)))
    (meshOf : α → Option Mesh)
    (hbody : ∀ c t, body c = some t →
      ∃ m, meshOf c = some m ∧ t.filter GLCall.isDraw = [GLCall.meshDraw m]) :
    ∀ (l : List α) (calls : List (GLCall K)), drawLoop body l = some calls →
      ∃ meshes : List Mesh, l.map meshOf = meshes.map some
        ∧ calls.filter GLCall.isDraw = meshes.map GLCall.meshDraw
  | [], calls, h => by
    simp only [drawLoop, Option.some.injEq] at h
    subst h
    exact ⟨[], rfl, rfl⟩
  | c :: rest, calls, h => by
    unfold drawLoop at h
    cases hb : body c with
    | none => simp [hb] at h
    | some t =>
      cases hrest : drawLoop body rest with
      | none => simp [hb, hrest] at h
      | some more =>
        simp only [hb, hrest, Option.some.injEq] at h
        subst h
        obtain ⟨m, hm, ht⟩ := hbody c t hb
        obtain ⟨meshes, hmeshes, hmore⟩ := drawLoop_filter_isDraw body meshOf hbody rest more hrest
        refine ⟨m :: meshes, ?_, ?_⟩
        · simp [hm, hmeshes]
        · simp [List.filter_append, ht, hmore]

theorem bindPostprocess_filter_isDraw (env : Collaborators K) (self : ForwardRenderer K)
    (t : List (GLCall K)) (h : bindPostprocess env self = some t) :
    t.filter GLCall.isDraw = [] := by
  unfold bindPostprocess at h
  cases hp : self.postprocessMaterial with
  | none =>
    simp only [hp, Option.some.injEq] at h
    subst h
    rfl
  | some material =>
    cases hsh : material.shader with
    | none => simp [hp, hsh] at h
    | some shader =>
      simp only [hp, hsh, Option.some.injEq] at h
      subst h
      simp [GLCall.isDraw]

theorem composite_filter_isDraw (self : ForwardRenderer K) :
    (self.postprocessMaterial = none
        ∧ (composite self).filter GLCall.isDraw = ([] : List (GLCall K)))
      ∨ (self.postprocessMaterial.isSome = true
        ∧ (composite self).filter GLCall.isDraw = [(GLCall.glDrawArrays 0 3 : GLCall K)]) := by
  unfold composite
  cases hp : self.postprocessMaterial with
  | none => exact Or.inl ⟨rfl, rfl⟩
  | some material => exact Or.inr ⟨rfl, by simp [GLCall.isDraw]⟩

end Pointers

/-! ## Command extraction -/

section Extraction

variable {K : Type} [LinearOrderedCommRing K]

theorem extractEntity_eq_some (toMat4 : Transform K → Mat4 K) (s s1 : Extraction K)
    (e : Entity K) (h : extractEntity toMat4 s e = some s1) :
    extractable e = true
      ∧ s1.camera = selectCamera s.camera e
      ∧ s1.lightsSources = s.lightsSources ++ (lightOf e).toList
      ∧ s1.opaqueCommands = s.opaqueCommands ++ (commandInBucket toMat4 .opaqueBucket e).toList
      ∧ s1.transparentCommands
          = s.transparentCommands ++ (commandInBucket toMat4 .transparentBucket e).toList
      ∧ s1.ballModels.map BallCommand.toRenderCommand
          = s.ballModels.map BallCommand.toRenderCommand
            ++ (commandInBucket toMat4 .specialBucket e).toList := by
  rcases e with ⟨n, t, c, p⟩
  rcases c with ⟨cam, mr, light, ball, mov⟩
  unfold extractEntity at h
  simp only [Entity.components] at h
  cases mr with
  | none =>
    simp only [Option.some.injEq] at h
    subst h
    cases light <;>
      simp [extractable, collectLight, lightOf, commandInBucket, Entity.components]
  | some mr =>
    rcases mr with ⟨mesh, material⟩
    cases p with
    | none =>
      cases material with
      | none => simp [extractMesh, Entity.parent, buildCommand] at h
      | some m =>
        cases ht : m.transparent <;>
          simp only [extractMesh, Entity.parent, buildCommand, ht] at h <;>
          simp only [Option.some.injEq, if_true, if_false, Bool.false_eq_true] at h <;>
          subst h <;> cases light <;>
          simp [extractable, collectLight, lightOf, commandInBucket, specBucket, hasBallParent,
            Entity.components, Entity.parent, ht, buildCommand, selectCamera]
    | some p =>
      rcases p with ⟨pn, pt, pc, pp⟩
      rcases pc with ⟨pcam, pmr, plight, pball, pmov⟩
      cases pball with
      | none =>
        cases material with
        | none => simp [extractMesh, Entity.parent, Entity.components, buildCommand] at h
        | some m =>
          cases ht : m.transparent <;>
            simp only [extractMesh, Entity.parent, Entity.components, buildCommand, ht] at h <;>
            simp only [Option.some.injEq, if_true, if_false, Bool.false_eq_true,
              Option.isSome_none] at h <;>
            subst h <;> cases light <;>
            simp [extractable, collectLight, lightOf, commandInBucket, specBucket,
              hasBallParent, Entity.components, Entity.parent, ht, buildCommand, selectCamera]
      | some b =>
        cases pmov with
        | none => simp [extractMesh, Entity.parent, Entity.components, buildCommand] at h
        | some mv =>
          simp only [extractMesh, Entity.parent, Entity.components, buildCommand] at h
          simp only [Option.some.injEq, if_true, Option.isSome_some] at h
          subst h
          cases light <;>
            simp [extractable, collectLight, lightOf, commandInBucket, specBucket,
              hasBallParent, Entity.components, Entity.parent, buildCommand, selectCamera,
              BallCommand.toRenderCommand]

theorem extractEntity_isSome (toMat4 : Transform K → Mat4 K) (s : Extraction K)
    (e : Entity K) : (extractEntity toMat4 s e).isSome = extractable e := by
  rcases e with ⟨n, t, c, p⟩
  rcases c with ⟨cam, mr, light, ball, mov⟩
  cases mr with
  | none => simp [extractEntity, extractable, Entity.components]
  | some mr =>
    rcases mr with ⟨mesh, material⟩
    cases p with
    | none =>
      cases material with
      | none => simp [extractEntity, extractMesh, extractable, Entity.components, Entity.parent,
          buildCommand]
      | some m =>
        cases ht : m.transparent <;>
          simp [extractEntity, extractMesh, extractable, Entity.components, Entity.parent,
            buildCommand, ht]
    | some p =>
      rcases p with ⟨pn, pt, pc, pp⟩
      rcases pc with ⟨pcam, pmr, plight, pball, pmov⟩
      cases pball with
      | none =>
        cases material with
        | none => simp [extractEntity, extractMesh, extractable, Entity.components,
            Entity.parent, buildCommand]
        | some m =>
          cases ht : m.transparent <;>
            simp [extractEntity, extractMesh, extractable, Entity.components, Entity.parent,
              buildCommand, ht]
      | some b =>
        cases pmov <;>
          simp [extractEntity, extractMesh, extractable, Entity.components, Entity.parent,
            buildCommand]

theorem extractFrom_isSome (toMat4 : Transform K → Mat4 K) :
    ∀ (es : List (Entity K)) (s : Extraction K),
      (extractFrom toMat4 s es).isSome = es.all extractable
  | [], s => by simp [extractFrom]
  | e :: rest, s => by
    have he := extractEntity_isSome toMat4 s e
    cases h : extractEntity toMat4 s e with
    | none =>
      rw [h] at he
      simp [extractFrom, h, ← he]
    | some s1 =>
      rw [h] at he
      simp [extractFrom, h, ← he, extractFrom_isSome toMat4 rest s1]

theorem extractFrom_eq_some (toMat4 : Transform K → Mat4 K) :
    ∀ (es : List (Entity K)) (s ex : Extraction K), extractFrom toMat4 s es = some ex →
      ex.camera = es.foldl selectCamera s.camera
        ∧ ex.lightsSources = s.lightsSources ++ es.filterMap lightOf
        ∧ ex.opaqueCommands = s.opaqueCommands ++ es.filterMap (commandInBucket toMat4 .opaqueBucket)
        ∧ ex.transparentCommands
            = s.transparentCommands ++ es.filterMap (commandInBucket toMat4 .transparentBucket)
        ∧ ex.ballModels.map BallCommand.toRenderCommand
            = s.ballModels.map BallCommand.toRenderCommand
              ++ es.filterMap (commandInBucket toMat4 .specialBucket)
  | [], s, ex, h => by
    simp only [extractFrom, Option.some.injEq] at h
    subst h
    simp
  | e :: rest, s, ex, h => by
    cases h1 : extractEntity toMat4 s e with
    | none => simp [extractFrom, h1] at h
    | some s1 =>
      simp only [extractFrom, h1] at h
      obtain ⟨_, hc, hl, ho, ht, hb⟩ := extractEntity_eq_some toMat4 s s1 e h1
      obtain ⟨hc2, hl2, ho2, ht2, hb2⟩ := extractFrom_eq_some toMat4 rest s1 ex h
      refine ⟨?_, ?_, ?_, ?_, ?_⟩
      · rw [hc2, hc]; rfl
      · rw [hl2, hl, List.filterMap_cons]
        cases lightOf e <;> simp
      · rw [ho2, ho, List.filterMap_cons]
        cases commandInBucket toMat4 .opaqueBucket e <;> simp
      · rw [ht2, ht, List.filterMap_cons]
        cases commandInBucket toMat4 .transparentBucket e <;> simp
      · rw [hb2, hb, List.filterMap_cons]
        cases commandInBucket toMat4 .specialBucket e <;> simp

theorem commandInBucket_count (toMat4 : Transform K → Mat4 K) :
    ∀ es : List (Entity K),
      (es.filterMap (commandInBucket toMat4 .specialBucket)).length
        + (es.filterMap (commandInBucket toMat4 .transparentBucket)).length
        + (es.filterMap (commandInBucket toMat4 .opaqueBucket)).length
        = (es.filter hasMeshRenderer).length
  | [] => rfl
  | e :: rest => by
    have ih := commandInBucket_count toMat4 rest
    rcases e with ⟨n, t, c, p⟩
    rcases c with ⟨cam, mr, light, ball, mov⟩
    cases mr with
    | none =>
      simpa [List.filterMap_cons, List.filter_cons, hasMeshRenderer, commandInBucket,
        Entity.components] using ih
    | some mr =>
      cases hb : specBucket (Entity.mk n t ⟨cam, some mr, light, ball, mov⟩ p) mr <;>
        simp [List.filterMap_cons, List.filter_cons, hasMeshRenderer, commandInBucket,
          Entity.components, hb] <;> omega

theorem filterMap_commandInBucket_filter (toMat4 : Transform K → Mat4 K) (b : Bucket) :
    ∀ es : List (Entity K),
      es.filterMap (commandInBucket toMat4 b)
        = (es.filter hasMeshRenderer).filterMap (commandInBucket toMat4 b)
  | [] => rfl
  | e :: rest => by
    have ih := filterMap_commandInBucket_filter toMat4 b rest
    cases hm : e.components.meshRenderer with
    | none =>
      have h1 : commandInBucket toMat4 b e = none := by simp [commandInBucket, hm]
      have h2 : hasMeshRenderer e = false := by simp [hasMeshRenderer, hm]
      rw [List.filterMap_cons, h1, List.filter_cons, h2]
      simpa using ih
    | some mr =>
      have h2 : hasMeshRenderer e = true := by simp [hasMeshRenderer, hm]
      rw [List.filter_cons, h2]
      simp only [if_true, List.filterMap_cons]
      rw [ih]

theorem extract_camera (toMat4 : Transform K → Mat4 K) (world : World K)
    (ex : Extraction K) (h : extract toMat4 world = some ex) :
    ex.camera = world.entities.findSome? (fun e => e.components.camera) := by
  obtain ⟨hc, _⟩ := extractFrom_eq_some toMat4 world.entities _ ex h
  rw [hc]
  exact foldl_selectCamera_none world.entities

/-- C7: when extraction completes, the three buckets are exactly what the rule of the
specification gives, in traversal order: the special bucket holds the commands of the
mesh renderers under a Ball-marked parent (whatever their material), the transparent
bucket those of the remaining ones with a transparent material, the opaque bucket the
rest; every mesh renderer is routed to the one bucket `specBucket` names, and the three
sizes add up to the number of entities carrying a mesh renderer. -/
theorem C7_one_command_one_bucket (toMat4 : Transform K → Mat4 K) (world : World K)
    (ex : Extraction K) (h : extract toMat4 world = some ex) :
    ex.ballModels.map BallCommand.toRenderCommand
        = world.entities.filterMap (commandInBucket toMat4 .specialBucket)
      ∧ ex.transparentCommands = world.entities.filterMap (commandInBucket toMat4 .transparentBucket)
      ∧ ex.opaqueCommands = world.entities.filterMap (commandInBucket toMat4 .opaqueBucket)
      ∧ (∀ (e : Entity K) (mr : MeshRendererComponent) (b : Bucket),
          e.components.meshRenderer = some mr →
          (commandInBucket toMat4 b e = some (buildCommand toMat4 e mr) ∧ b = specBucket e mr
            ∨ commandInBucket toMat4 b e = none ∧ b ≠ specBucket e mr))
      ∧ ex.ballModels.length + ex.transparentCommands.length + ex.opaqueCommands.length
          = (world.entities.filter hasMeshRenderer).length := by
  obtain ⟨_, _, ho, ht, hb⟩ := extractFrom_eq_some toMat4 world.entities _ ex h
  simp only [Extraction.initial, List.map_nil, List.nil_append] at ho ht hb
  refine ⟨hb, ht, ho, ?_, ?_⟩
  · intro e mr b hmr
    by_cases hbk : specBucket e mr = b
    · exact Or.inl ⟨by simp [commandInBucket, hmr, hbk], hbk.symm⟩
    · exact Or.inr ⟨by simp [commandInBucket, hmr, hbk], fun h => hbk h.symm⟩
  · have hlen : ex.ballModels.length
        = (world.entities.filterMap (commandInBucket toMat4 .specialBucket)).length := by
      rw [← hb, List.length_map]
    rw [hlen, ht, ho]
    exact commandInBucket_count toMat4 world.entities

/-- C7 witness: extraction on the sample world. -/
theorem C7_one_command_one_bucket_witness :
    extract toMat4ZeroRotation sampleWorld = some sampleExtraction
      ∧ sampleExtraction.ballModels.length + sampleExtraction.transparentCommands.length
          + sampleExtraction.opaqueCommands.length
        = (sampleWorld.entities.filter hasMeshRenderer).length :=
  ⟨rfl, (C7_one_command_one_bucket toMat4ZeroRotation sampleWorld sampleExtraction rfl).2.2.2.2⟩

/-- C8 (as stated, refuted): `skinWorld` has exactly one entity with a mesh renderer,
`ballSkin`, whose material `stone` is not transparent; its parent carries the Ball marker,
and extraction leaves the opaque bucket empty and the command in the special bucket. -/
theorem C8_counterexample_ball_child :
    skinWorld.entities.filter hasMeshRenderer = [ballSkin]
      ∧ ballSkin.components.meshRenderer = some ⟨some ⟨3⟩, some stone⟩
      ∧ stone.transparent = false
      ∧ extract toMat4ZeroRotation skinWorld = some ⟨none, [], [], [], [skinCommand]⟩ :=
  ⟨rfl, rfl, rfl, rfl⟩

/-- C8 (amended): for a world with exactly one entity carrying a mesh renderer, whose
material is not transparent and whose parent (if any) carries no Ball marker, extraction
completes and leaves exactly that entity's command in the opaque bucket and the
transparent and special buckets empty. -/
theorem C8_single_opaque_entity (toMat4 : Transform K → Mat4 K) (world : World K)
    (e : Entity K) (mr : MeshRendererComponent) (material : Material)
    (hone : world.entities.filter hasMeshRenderer = [e])
    (hmr : e.components.meshRenderer = some mr) (hmat : mr.material = some material)
    (htr : material.transparent = false) (hball : hasBallParent e = false) :
    ∃ ex, extract toMat4 world = some ex
      ∧ ex.opaqueCommands = [buildCommand toMat4 e mr]
      ∧ ex.transparentCommands = [] ∧ ex.ballModels = [] := by
  have hall : world.entities.all extractable = true := by
    rw [List.all_eq_true]
    intro x hx
    by_cases hm : hasMeshRenderer x = true
    · have hxe : x ∈ world.entities.filter hasMeshRenderer := List.mem_filter.mpr ⟨hx, hm⟩
      rw [hone, List.mem_singleton] at hxe
      subst hxe
      exact extractable_of_no_ball_parent x mr material hmr hmat hball
    · exact extractable_of_no_mesh x (by simpa using hm)
  have hsome : (extract toMat4 world).isSome = true := by
    unfold extract
    rw [extractFrom_isSome, hall]
  obtain ⟨ex, hex⟩ := Option.isSome_iff_exists.mp hsome
  obtain ⟨_, _, ho, ht, hb⟩ := extractFrom_eq_some toMat4 world.entities _ ex hex
  have hbucket : specBucket e mr = .opaqueBucket := by
    simp [specBucket, hball, hmat, htr]
  simp only [Extraction.initial, List.map_nil, List.nil_append] at ho ht hb
  rw [filterMap_commandInBucket_filter, hone] at ho ht hb
  refine ⟨ex, hex, ?_, ?_, ?_⟩
  · rw [ho]; simp [commandInBucket, hmr, hbucket]
  · rw [ht]; simp [commandInBucket, hmr, hbucket]
  · have : ex.ballModels.map BallCommand.toRenderCommand = [] := by
      rw [hb]; simp [commandInBucket, hmr, hbucket]
    simpa using this

/-- C8 witness: a world whose only mesh renderer is the parentless, opaque `crate`. -/
theorem C8_single_opaque_entity_witness :
    crateWorld.entities.filter hasMeshRenderer = [crate]
      ∧ crate.components.meshRenderer = some ⟨some ⟨4⟩, some stone⟩
      ∧ stone.transparent = false ∧ hasBallParent crate = false
      ∧ ∃ ex, extract toMat4ZeroRotation crateWorld = some ex
        ∧ ex.opaqueCommands = [buildCommand toMat4ZeroRotation crate ⟨some ⟨4⟩, some stone⟩]
        ∧ ex.transparentCommands = [] ∧ ex.ballModels = [] :=
  ⟨rfl, rfl, rfl, rfl,
    C8_single_opaque_entity toMat4ZeroRotation crateWorld crate ⟨some ⟨4⟩, some stone⟩ stone
      rfl rfl rfl rfl rfl⟩

/-- C9: when extraction completes, the selected camera is the Camera component of the
first entity in traversal order that carries one: entities after it do not replace it,
and the selection is null exactly when no entity carries a Camera component. -/
theorem C9_first_camera_wins (toMat4 : Transform K → Mat4 K) (world : World K)
    (ex : Extraction K) (h : extract toMat4 world = some ex) :
    ex.camera = world.entities.findSome? (fun e => e.components.camera)
      ∧ (∀ (before after : List (Entity K)) (e : Entity K) (c : CameraComponent K),
          world.entities = before ++ e :: after →
          (∀ x ∈ before, x.components.camera = none) → e.components.camera = some c →
          ex.camera = some c)
      ∧ (ex.camera = none ↔ ∀ e ∈ world.entities, e.components.camera = none) := by
  have hcam := extract_camera toMat4 world ex h
  refine ⟨hcam, ?_, ?_⟩
  · intro before after e c hsplit hbefore he
    rw [hcam, hsplit, List.findSome?_append]
    have hnone : before.findSome? (fun e => e.components.camera) = none :=
      List.findSome?_eq_none_iff.mpr hbefore
    rw [hnone]
    simp [List.findSome?_cons, he]
  · rw [hcam]
    exact List.findSome?_eq_none_iff

/-- C9 witness: the sample world has two cameras; the one met first is selected. -/
theorem C9_first_camera_wins_witness :
    extract toMat4ZeroRotation sampleWorld = some sampleExtraction
      ∧ sampleWorld.entities
          = [lightEntity] ++ cameraEntity :: [ballEntity, ballSkin, crate, nearQuad, farQuad,
              spareCameraEntity]
      ∧ spareCameraEntity.components.camera = some spareCamera
      ∧ sampleExtraction.camera = some sampleCamera :=
  ⟨rfl, rfl, rfl,
    (C9_first_camera_wins toMat4ZeroRotation sampleWorld sampleExtraction rfl).2.1
      [lightEntity] [ballEntity, ballSkin, crate, nearQuad, farQuad, spareCameraEntity]
      cameraEntity sampleCamera rfl (by
        intro x hx
        rw [List.mem_singleton] at hx
        subst hx
        rfl) rfl⟩

/-- C6: for a world in which no entity carries a Camera component and on which extraction
completes, `render` completes and issues no graphics command at all, so there is no draw
call and the graphics state (bound framebuffer, viewport, masks) is the one before the
call. -/
theorem C6_no_camera_no_commands (env : Collaborators K) (self : ForwardRenderer K)
    (world : World K) (ex : Extraction K) (hex : extract env.toMat4 world = some ex)
    (hnone : ∀ e ∈ world.entities, e.components.camera = none) :
    ∃ r, render env self world = some r ∧ r.calls = []
      ∧ r.calls.filter GLCall.isDraw = []
      ∧ ∀ s : GLState K, s.run r.calls = s
          ∧ (s.run r.calls).drawFramebuffer = s.drawFramebuffer := by
  have hcam : ex.camera = none := by
    rw [extract_camera env.toMat4 world ex hex]
    exact List.findSome?_eq_none_iff.mpr hnone
  refine ⟨⟨{ self with opaqueCommands := ex.opaqueCommands,
                       transparentCommands := ex.transparentCommands,
                       lightsSources := ex.lightsSources }, []⟩, ?_, rfl, rfl, ?_⟩
  · unfold render
    rw [hex]
    simp only [hcam]
  · intro s
    exact ⟨rfl, rfl⟩

/-- C6 witness: the sample world without its cameras. -/
theorem C6_no_camera_no_commands_witness :
    extract sampleEnv.toMat4 darkWorld = some darkExtraction
      ∧ (∀ e ∈ darkWorld.entities, e.components.camera = none)
      ∧ ∃ r, render sampleEnv fullRenderer darkWorld = some r ∧ r.calls = [] :=
  have hnone : ∀ e ∈ darkWorld.entities, e.components.camera = none := by
    intro e he
    simp only [darkWorld, List.mem_cons, List.mem_singleton, List.not_mem_nil, or_false] at he
    rcases he with rfl | rfl | rfl | rfl | rfl | rfl <;> rfl
  ⟨rfl, hnone,
    (C6_no_camera_no_commands sampleEnv fullRenderer darkWorld darkExtraction rfl hnone).imp
      fun _ h => ⟨h.1, h.2.1⟩⟩

end Extraction

/-! ## Draw passes -/

section DrawPasses

variable {K : Type} [LinearOrderedCommRing K]

theorem lightLoop_filter_isDraw (toMat4 : Transform K → Mat4 K) (shader : ShaderProgram) :
    ∀ (lights : List (LightSource K)) (index : Nat),
      (lightLoop toMat4 shader index lights).filter GLCall.isDraw = []
  | [], _ => rfl
  | it :: rest, index => by
    simp only [lightLoop, List.filter_append, lightLoop_filter_isDraw toMat4 shader rest]
    simp [lightUniforms, GLCall.isDraw]

theorem pushLights_filter_isDraw (toMat4 : Transform K → Mat4 K) (shader : ShaderProgram)
    (lights : List (LightSource K)) :
    (pushLights toMat4 shader lights).filter GLCall.isDraw = [] := by
  simp [pushLights, List.filter_append, lightLoop_filter_isDraw, GLCall.isDraw]

theorem drawBall_filter_isDraw (env : Collaborators K) (vp : Mat4 K)
    (lights : List (LightSource K)) (c : BallCommand K) (t : List (GLCall K))
    (h : drawBall env vp lights c = some t) :
    ∃ m, c.mesh = some m ∧ t.filter GLCall.isDraw = [GLCall.meshDraw m] := by
  unfold drawBall at h
  cases hmat : c.material with
  | none => simp [hmat] at h
  | some material =>
    cases hsh : material.shader with
    | none => simp [hmat, hsh] at h
    | some shader =>
      cases hmesh : c.mesh with
      | none => simp [hmat, hsh, hmesh] at h
      | some mesh =>
        simp only [hmat, hsh, hmesh, Option.some.injEq] at h
        subst h
        refine ⟨mesh, rfl, ?_⟩
        simp [List.filter_append, pushLights_filter_isDraw, GLCall.isDraw]

theorem drawCommand_filter_isDraw (env : Collaborators K) (vp : Mat4 K)
    (lights : List (LightSource K)) (c : RenderCommand K) (t : List (GLCall K))
    (h : drawCommand env vp lights c = some t) :
    ∃ m, c.mesh = some m ∧ t.filter GLCall.isDraw = [GLCall.meshDraw m] := by
  unfold drawCommand at h
  cases hmat : c.material with
  | none => simp [hmat] at h
  | some material =>
    cases hsh : material.shader with
    | none => simp [hmat, hsh] at h
    | some shader =>
      cases hmesh : c.mesh with
      | none => simp [hmat, hsh, hmesh] at h
      | some mesh =>
        simp only [hmat, hsh, hmesh, Option.some.injEq] at h
        subst h
        refine ⟨mesh, rfl, ?_⟩
        by_cases hlit : (material.isLitMaterial || material.isLitTexturedMaterial) = true
        · simp [List.filter_append, pushLights_filter_isDraw, GLCall.isDraw, hlit]
        · simp [List.filter_append, GLCall.isDraw, hlit]

theorem drawSky_filter_isDraw (env : Collaborators K) (self : ForwardRenderer K)
    (vp : Mat4 K) (camera : CameraComponent K) (t : List (GLCall K))
    (h : drawSky env self vp camera = some t) :
    (self.skyMaterial = none ∧ t.filter GLCall.isDraw = [])
      ∨ ∃ m, self.skyMaterial.isSome = true ∧ self.skySphere = some m
          ∧ t.filter GLCall.isDraw = [GLCall.meshDraw m] := by
  unfold drawSky at h
  cases hs : self.skyMaterial with
  | none =>
    simp only [hs, Option.some.injEq] at h
    subst h
    exact Or.inl ⟨rfl, rfl⟩
  | some material =>
    cases hsh : material.shader with
    | none => simp [hs, hsh] at h
    | some shader =>
      cases hsp : self.skySphere with
      | none => simp [hs, hsh, hsp] at h
      | some sphere =>
        simp only [hs, hsh, hsp, Option.some.injEq] at h
        subst h
        exact Or.inr ⟨sphere, rfl, rfl, by simp [GLCall.isDraw]⟩

/-- C10: when `render` finds a camera and completes, its draw calls are, in this order:
one `Mesh::draw` per special (ball) command in bucket order, one per opaque command in
bucket order, the sky-sphere draw (present exactly when a sky material is set), one per
transparent command in sorted order, and the composite `glDrawArrays` (present exactly when
a post-process material is set).  The draw calls of the five passes are not interleaved. -/
theorem C10_draw_pass_order (env : Collaborators K) (self : ForwardRenderer K)
    (world : World K) (ex : Extraction K) (camera : CameraComponent K) (r : RenderResult K)
    (hex : extract env.toMat4 world = some ex) (hcam : ex.camera = some camera)
    (hr : render env self world = some r) :
    ∃ (ballMeshes opaqueMeshes transparentMeshes : List Mesh)
      (skyDraw compositeDraw : List (GLCall K)),
      ex.ballModels.map (fun c => c.mesh) = ballMeshes.map some
      ∧ ex.opaqueCommands.map (fun c => c.mesh) = opaqueMeshes.map some
      ∧ r.renderer.transparentCommands = sortTransparent env camera ex.transparentCommands
      ∧ r.renderer.transparentCommands.map (fun c => c.mesh) = transparentMeshes.map some
      ∧ (self.skyMaterial = none ∧ skyDraw = []
          ∨ ∃ m, self.skyMaterial.isSome = true ∧ self.skySphere = some m
              ∧ skyDraw = [GLCall.meshDraw m])
      ∧ (self.postprocessMaterial = none ∧ compositeDraw = []
          ∨ self.postprocessMaterial.isSome = true
              ∧ compositeDraw = [GLCall.glDrawArrays 0 3])
      ∧ r.calls.filter GLCall.isDraw
          = ballMeshes.map GLCall.meshDraw ++ opaqueMeshes.map GLCall.meshDraw ++ skyDraw
              ++ transparentMeshes.map GLCall.meshDraw ++ compositeDraw := by
  obtain ⟨bound, ballCalls, opaqueCalls, skyCalls, transparentCalls, hb, hball, hop, hsky,
      htc, hren, hcalls⟩ :=
    renderWithCamera_eq_some env self ex camera r
      (render_eq_some_of_camera env self world ex camera r hex hcam hr)
  obtain ⟨ballMeshes, hbm, hbd⟩ := drawLoop_filter_isDraw _ (fun c : BallCommand K => c.mesh)
    (drawBall_filter_isDraw env _ ex.lightsSources) _ _ hball
  obtain ⟨opaqueMeshes, hom, hod⟩ := drawLoop_filter_isDraw _
    (fun c : RenderCommand K => c.mesh) (drawCommand_filter_isDraw env _ ex.lightsSources)
    _ _ hop
  obtain ⟨transparentMeshes, htm, htd⟩ := drawLoop_filter_isDraw _
    (fun c : RenderCommand K => c.mesh) (drawCommand_filter_isDraw env _ ex.lightsSources)
    _ _ htc
  have hlist : r.renderer.transparentCommands
      = sortTransparent env camera ex.transparentCommands := by rw [hren]
  refine ⟨ballMeshes, opaqueMeshes, transparentMeshes, skyCalls.filter GLCall.isDraw,
    (composite self).filter GLCall.isDraw, hbm, hom, hlist, by rw [hlist]; exact htm,
    ?_, ?_, ?_⟩
  · rcases drawSky_filter_isDraw env self _ camera skyCalls hsky with h | ⟨m, h1, h2, h3⟩
    · exact Or.inl h
    · exact Or.inr ⟨m, h1, h2, h3⟩
  · exact composite_filter_isDraw self
  · rw [hcalls]
    simp only [List.filter_append, hbd, hod, htd, bindPostprocess_filter_isDraw env self bound hb]
    simp [GLCall.isDraw]

/-- C10 witness: the sample world drawn with a sky and a post-process stage; the draws
are the ball skin, the crate, the sky sphere, the far quad, the near quad, the composite. -/
theorem C10_draw_pass_order_witness :
    extract sampleEnv.toMat4 sampleWorld = some sampleExtraction
      ∧ sampleExtraction.camera = some sampleCamera
      ∧ ∃ r, render sampleEnv fullRenderer sampleWorld = some r
        ∧ r.calls.filter GLCall.isDraw
            = [.meshDraw ⟨3⟩, .meshDraw ⟨4⟩, .meshDraw ⟨90⟩, .meshDraw ⟨2⟩, .meshDraw ⟨1⟩,
                .glDrawArrays 0 3]
        ∧ ∃ (ballMeshes opaqueMeshes transparentMeshes : List Mesh)
            (skyDraw compositeDraw : List (GLCall ℤ)),
            r.calls.filter GLCall.isDraw
              = ballMeshes.map GLCall.meshDraw ++ opaqueMeshes.map GLCall.meshDraw ++ skyDraw
                  ++ transparentMeshes.map GLCall.meshDraw ++ compositeDraw := by
  have hsome : (render sampleEnv fullRenderer sampleWorld).isSome = true := rfl
  have hr := (Option.some_get hsome).symm
  obtain ⟨b, o, t, s, c, _, _, _, _, _, _, h⟩ :=
    C10_draw_pass_order sampleEnv fullRenderer sampleWorld sampleExtraction sampleCamera _
      rfl rfl hr
  exact ⟨rfl, rfl, _, hr, rfl, b, o, t, s, c, h⟩

end DrawPasses

/-! ## Uniforms and list rebuilding -/

section FrameState

variable {K : Type} [LinearOrderedCommRing K]

/-- C11 (failing input evaluated): in the sample world the selected camera is at
`(0, 0, 5)`, and the values `render` pushes to `cameraPos` are the centers of the drawn
commands, `(1, 0, 0)` for the ball skin and `(0, 1, 0)` for the crate. -/
theorem C11_cameraPos_is_command_center :
    (extract sampleEnv.toMat4 sampleWorld).map (fun ex => ex.camera) = some (some sampleCamera)
      ∧ sampleCamera.current_position = ⟨0, 0, 5⟩
      ∧ stone.isLitMaterial = true
      ∧ skinCommand.center = ⟨1, 0, 0⟩ ∧ crateCommand.center = ⟨0, 1, 0⟩
      ∧ (render sampleEnv fullRenderer sampleWorld).map
          (fun r => uniformValues "cameraPos" r.calls)
          = some [.vec3 ⟨1, 0, 0⟩, .vec3 ⟨0, 1, 0⟩] :=
  ⟨rfl, rfl, rfl, rfl, by decide, rfl⟩

/-- C12: `render` gives the same result whatever the three lists held before the call, and
the lists it leaves are those of the extraction from the world passed in: the opaque
commands and the lights as extracted, the transparent commands as extracted and, when a
camera was found, sorted. -/
theorem C12_lists_depend_on_world_only (env : Collaborators K) (self : ForwardRenderer K)
    (world : World K) (staleOpaque staleTransparent : List (RenderCommand K))
    (staleLights : List (LightSource K)) :
    render env { self with opaqueCommands := staleOpaque,
                           transparentCommands := staleTransparent,
                           lightsSources := staleLights } world
        = render env self world
      ∧ ∀ ex r, extract env.toMat4 world = some ex → render env self world = some r →
          r.renderer.opaqueCommands = ex.opaqueCommands
            ∧ r.renderer.lightsSources = ex.lightsSources
            ∧ (ex.camera = none ∧ r.renderer.transparentCommands = ex.transparentCommands
              ∨ ∃ camera, ex.camera = some camera
                  ∧ r.renderer.transparentCommands
                      = sortTransparent env camera ex.transparentCommands) := by
  refine ⟨rfl, ?_⟩
  intro ex r hex hr
  cases hcam : ex.camera with
  | none =>
    unfold render at hr
    rw [hex] at hr
    simp only [hcam, Option.some.injEq] at hr
    subst hr
    exact ⟨rfl, rfl, Or.inl ⟨rfl, rfl⟩⟩
  | some camera =>
    obtain ⟨_, _, _, _, _, _, _, _, _, _, hren, _⟩ :=
      renderWithCamera_eq_some env self ex camera r
        (render_eq_some_of_camera env self world ex camera r hex hcam hr)
    rw [hren]
    exact ⟨rfl, rfl, Or.inr ⟨camera, rfl, rfl⟩⟩

end FrameState

/-! ## Renderer lifecycle -/

section Lifecycle

variable {K : Type}

theorem initializeRenderer_created (self : TrackedRenderer K) (windowSize : Int × Int)
    (sky postprocess : String) :
    (self.initializeRenderer windowSize ⟨some sky, some postprocess⟩).tracker.created
      = self.tracker.created ++ createdHandles self.tracker.next := by
  simp [TrackedRenderer.initializeRenderer, TrackedRenderer.initializeSky,
    TrackedRenderer.initializePostprocess, HandleTracker.create, createdHandles]

theorem destroy_initializeRenderer_released (self : TrackedRenderer K) (windowSize : Int × Int)
    (sky postprocess : String) :
    (self.initializeRenderer windowSize ⟨some sky, some postprocess⟩).destroy.tracker.released
      = self.tracker.released ++
        [⟨.mesh, self.tracker.next⟩, ⟨.shaderProgram, self.tracker.next + 1⟩,
          ⟨.texture, self.tracker.next + 2⟩, ⟨.sampler, self.tracker.next + 3⟩,
          ⟨.material, self.tracker.next + 4⟩, ⟨.framebuffer, self.tracker.next + 5⟩,
          ⟨.vertexArray, self.tracker.next + 8⟩, ⟨.texture, self.tracker.next + 6⟩,
          ⟨.texture, self.tracker.next + 7⟩, ⟨.sampler, self.tracker.next + 9⟩,
          ⟨.shaderProgram, self.tracker.next + 10⟩, ⟨.material, self.tracker.next + 11⟩] := by
  simp [TrackedRenderer.initializeRenderer, TrackedRenderer.initializeSky,
    TrackedRenderer.initializePostprocess, HandleTracker.create, TrackedRenderer.destroy,
    TrackedRenderer.destroySky, TrackedRenderer.destroyPostprocess, HandleTracker.delete,
    HandleTracker.deleteMaterial, HandleTracker.release]


/-- C13: on the handle-tracking double, `initialize` with a configuration containing
`sky` and `postprocess` creates twelve distinct handles (sky sphere, sky shader, sky
texture, sky sampler, sky material, framebuffer, color target, depth target, vertex array,
post-process sampler, post-process shader, post-process material), and the releases logged
by one `destroy` are a rearrangement of exactly these twelve, so each is released once.
The color target is also the texture of the post-process material, and it is released
once. -/
theorem C13_destroy_releases_each_handle_once (self : TrackedRenderer K)
    (windowSize : Int × Int) (sky postprocess : String) :
    logSince self.tracker.created
        (self.initializeRenderer windowSize ⟨some sky, some postprocess⟩).tracker.created
        = createdHandles self.tracker.next
      ∧ (createdHandles self.tracker.next).Nodup
      ∧ (createdHandles self.tracker.next).length = 12
      ∧ (logSince self.tracker.released
          (self.initializeRenderer windowSize ⟨some sky, some postprocess⟩).destroy.tracker.released).Perm
          (createdHandles self.tracker.next)
      ∧ (∀ h ∈ createdHandles self.tracker.next,
          (logSince self.tracker.released
            (self.initializeRenderer windowSize
              ⟨some sky, some postprocess⟩).destroy.tracker.released).count h = 1)
      ∧ (self.initializeRenderer windowSize ⟨some sky, some postprocess⟩).members.colorTarget
          = some (self.tracker.next + 6)
      ∧ ((self.initializeRenderer windowSize ⟨some sky, some postprocess⟩).members.postprocessMaterial.bind
          fun m => m.texture) = some (self.tracker.next + 6)
      ∧ (logSince self.tracker.released
          (self.initializeRenderer windowSize ⟨some sky, some postprocess⟩).destroy.tracker.released).count
          ⟨.texture, self.tracker.next + 6⟩ = 1 := by
  have hnodup : (createdHandles self.tracker.next).Nodup := by
    simp [createdHandles]
  have hperm : (logSince self.tracker.released
      (self.initializeRenderer windowSize ⟨some sky, some postprocess⟩).destroy.tracker.released).Perm
      (createdHandles self.tracker.next) := by
    rw [destroy_initializeRenderer_released, logSince, List.drop_left]
    unfold createdHandles
    refine List.Perm.cons _ (List.Perm.cons _ (List.Perm.cons _ (List.Perm.cons _
      (List.Perm.cons _ (List.Perm.cons _ ?_)))))
    exact (List.Perm.swap _ _ _).trans (List.Perm.cons _ (List.Perm.swap _ _ _))
  have hcount : ∀ h ∈ createdHandles self.tracker.next,
      (logSince self.tracker.released
        (self.initializeRenderer windowSize
          ⟨some sky, some postprocess⟩).destroy.tracker.released).count h = 1 := by
    intro h hh
    rw [hperm.count_eq]
    exact List.count_eq_one_of_mem hnodup hh
  refine ⟨?_, hnodup, rfl, hperm, hcount, ?_, ?_, ?_⟩
  · rw [initializeRenderer_created, logSince, List.drop_left]
  · simp [TrackedRenderer.initializeRenderer, TrackedRenderer.initializeSky,
      TrackedRenderer.initializePostprocess, HandleTracker.create]
  · simp [TrackedRenderer.initializeRenderer, TrackedRenderer.initializeSky,
      TrackedRenderer.initializePostprocess, HandleTracker.create]
  · exact hcount _ (by simp [createdHandles])

/-- C14 (failing input evaluated): a fresh renderer initialized with an empty
configuration has neither stage; the renderer initialized with sky and post-process,
destroyed and initialized again with the empty configuration still has both material
pointers set, to objects that `destroy` released; a further `destroy` releases the sky
material object a second time. -/
theorem C14_reinitialize_after_destroy_differs :
    initializedEmpty.members.skyMaterial = none
      ∧ initializedEmpty.members.postprocessMaterial = none
      ∧ reinitializedEmpty.members.skyMaterial.isSome = true
      ∧ reinitializedEmpty.members.postprocessMaterial.isSome = true
      ∧ (⟨.material, reinitializedEmpty.skyMaterialObject⟩ : Handle)
          ∈ reinitializedEmpty.tracker.released
      ∧ (⟨.material, reinitializedEmpty.postprocessMaterialObject⟩ : Handle)
          ∈ reinitializedEmpty.tracker.released
      ∧ reinitializedEmpty.destroy.tracker.released.count
          ⟨.material, reinitializedEmpty.skyMaterialObject⟩ = 2 := by
  decide

end Lifecycle

/-! ## Application states and keyboard -/

section KeyboardApp

/-- C15: `changeState` never writes `currentState`; for a registered name it sets
`nextState` to the state registered under the name and `previousState` to the value of
`currentState`; for a name that is not registered it changes nothing. -/
theorem C15_changeState (app : Application) (name : String) :
    (app.changeState name).currentState = app.currentState
      ∧ (app.changeState name).states = app.states
      ∧ (∀ state, app.states.lookup name = some state →
          (app.changeState name).nextState = some state
            ∧ (app.changeState name).previousState = app.currentState)
      ∧ (app.states.lookup name = none → app.changeState name = app) := by
  unfold Application.changeState
  cases h : app.states.lookup name with
  | none => simp
  | some s => simp

theorem Keyboard.keyEvent_previous (kb : Keyboard) (key : Fin (GLFW_KEY_LAST + 1))
    (action : Int) :
    (kb.keyEvent key action).previousKeyStates = kb.previousKeyStates := by
  unfold Keyboard.keyEvent
  split
  · rfl
  · split
    · rfl
    · split <;> rfl

theorem Keyboard.keyEvents_previous (events : List (Fin (GLFW_KEY_LAST + 1) × Int)) :
    ∀ kb : Keyboard, (kb.keyEvents events).previousKeyStates = kb.previousKeyStates := by
  induction events with
  | nil => intro kb; rfl
  | cons e rest ih =>
    intro kb
    simp only [Keyboard.keyEvents, List.foldl_cons] at ih ⊢
    rw [ih, Keyboard.keyEvent_previous]

/-- C16: after `update` on an enabled keyboard the previous state of every key equals its
current state, so `justPressed` and `justReleased` are false and `isPressed` is unchanged;
and after any key events that follow the update, `justPressed(key)` holds exactly when the
key is down now and was up at the update. -/
theorem C16_update (kb : Keyboard) (henabled : kb.enabled = true)
    (key : Fin (GLFW_KEY_LAST + 1)) :
    kb.update.previousKeyStates key = kb.update.currentKeyStates key
      ∧ kb.update.justPressed key = false
      ∧ kb.update.justReleased key = false
      ∧ kb.update.isPressed key = kb.isPressed key
      ∧ ∀ events : List (Fin (GLFW_KEY_LAST + 1) × Int),
          (kb.update.keyEvents events).justPressed key
            = ((kb.update.keyEvents events).isPressed key && !kb.isPressed key) := by
  have hup : kb.update = { kb with previousKeyStates := kb.currentKeyStates } := by
    simp [Keyboard.update, henabled]
  refine ⟨by rw [hup], by simp [hup, Keyboard.justPressed], by simp [hup, Keyboard.justReleased],
    by rw [hup]; rfl, fun events => ?_⟩
  simp only [Keyboard.justPressed, Keyboard.isPressed, Keyboard.keyEvents_previous]
  rw [hup]

/-- C16 witness: the space key pressed on an enabled keyboard. -/
theorem C16_update_witness :
    spaceDown.enabled = true
      ∧ spaceDown.update.justPressed ⟨32, by decide⟩ = false
      ∧ (spaceDown.update.keyEvents [(⟨65, by decide⟩, GLFW_PRESS)]).justPressed
          ⟨65, by decide⟩ = true :=
  ⟨rfl, (C16_update spaceDown rfl ⟨32, by decide⟩).2.1, by decide⟩

theorem Keyboard.anyKeyPressed_loop_iff (kb : Keyboard) :
    ∀ (count key : Nat), Keyboard.anyKeyPressed.loop kb count key = true ↔
      ∃ k : Fin (GLFW_KEY_LAST + 1), key ≤ k.val ∧ k.val < key + count
        ∧ kb.currentKeyStates k = true ∧ k.val ≠ GLFW_KEY_ESCAPE
  | 0, key => by
    simp only [Keyboard.anyKeyPressed.loop, Bool.false_eq_true, false_iff]
    rintro ⟨k, h1, h2, _⟩
    omega
  | count + 1, key => by
    unfold Keyboard.anyKeyPressed.loop
    by_cases h : key < GLFW_KEY_LAST + 1
    · simp only [h, dite_true]
      by_cases hk : (kb.currentKeyStates ⟨key, h⟩ && key != GLFW_KEY_ESCAPE) = true
      · simp only [hk, if_true, true_iff]
        simp only [Bool.and_eq_true, bne_iff_ne, ne_eq] at hk
        exact ⟨⟨key, h⟩, le_refl _, by simp, hk.1, hk.2⟩
      · simp only [hk, if_false, Bool.false_eq_true]
        rw [Keyboard.anyKeyPressed_loop_iff kb count (key + 1)]
        constructor
        · rintro ⟨k, h1, h2, h3, h4⟩
          exact ⟨k, by omega, by omega, h3, h4⟩
        · rintro ⟨k, h1, h2, h3, h4⟩
          refine ⟨k, ?_, by omega, h3, h4⟩
          by_contra hlt
          have hkey : k = ⟨key, h⟩ := Fin.ext (by simp only; omega)
          subst hkey
          apply hk
          simp [h3, h4]
    · simp only [h, dite_false, Bool.false_eq_true, false_iff]
      rintro ⟨k, h1, _⟩
      have := k.isLt
      omega

/-- C17 (as stated, refuted): on `escapeOnly` the escape key, which lies between
`GLFW_KEY_SPACE` and `GLFW_KEY_LAST`, is pressed, and `anyKeyPressed` returns false. -/
theorem C17_counterexample_escape :
    GLFW_KEY_SPACE ≤ GLFW_KEY_ESCAPE ∧ GLFW_KEY_ESCAPE ≤ GLFW_KEY_LAST
      ∧ escapeOnly.isPressed ⟨GLFW_KEY_ESCAPE, by decide⟩ = true
      ∧ escapeOnly.anyKeyPressed = false := by
  refine ⟨by decide, by decide, by decide, ?_⟩
  cases h : escapeOnly.anyKeyPressed with
  | false => rfl
  | true =>
    unfold Keyboard.anyKeyPressed at h
    obtain ⟨k, _, _, hdown, hne⟩ := (Keyboard.anyKeyPressed_loop_iff escapeOnly _ _).mp h
    simp only [escapeOnly, beq_iff_eq] at hdown
    exact absurd hdown hne

/-- C17 (amended): `anyKeyPressed` returns true if and only if some key from
`GLFW_KEY_SPACE` to `GLFW_KEY_LAST` other than `GLFW_KEY_ESCAPE` is currently pressed. -/
theorem C17_anyKeyPressed_except_escape (kb : Keyboard) :
    kb.anyKeyPressed = true ↔
      ∃ k : Fin (GLFW_KEY_LAST + 1), GLFW_KEY_SPACE ≤ k.val ∧ k.val ≤ GLFW_KEY_LAST
        ∧ k.val ≠ GLFW_KEY_ESCAPE ∧ kb.isPressed k = true := by
  unfold Keyboard.anyKeyPressed
  rw [Keyboard.anyKeyPressed_loop_iff]
  constructor
  · rintro ⟨k, h1, h2, h3, h4⟩
    exact ⟨k, h1, by have := k.isLt; omega, h4, h3⟩
  · rintro ⟨k, h1, h2, h3, h4⟩
    refine ⟨k, h1, ?_, h4, h3⟩
    have := k.isLt
    simp only [GLFW_KEY_LAST, GLFW_KEY_SPACE] at *
    omega

end KeyboardApp

/-! ## Light uniforms -/

section DrawLoops

variable {K : Type}

theorem drawLoop_eq_flatMap {α : Type} (body : α → Option (List (GLCall K))) :
    ∀ (l : List α) (calls : List (GLCall K)), drawLoop body l = some calls →
      calls = l.flatMap (fun c => (body c).getD []) ∧ ∀ c ∈ l, ∃ t, body c = some t
  | [], calls, h => by
    simp only [drawLoop, Option.some.injEq] at h
    subst h
    simp
  | c :: rest, calls, h => by
    unfold drawLoop at h
    cases hb : body c with
    | none => simp [hb] at h
    | some t =>
      cases hrest : drawLoop body rest with
      | none => simp [hb, hrest] at h
      | some more =>
        simp only [hb, hrest, Option.some.injEq] at h
        subst h
        obtain ⟨hmore, hall⟩ := drawLoop_eq_flatMap body rest more hrest
        refine ⟨by simp [List.flatMap_cons, hb, ← hmore], ?_⟩
        intro x hx
        rcases List.mem_cons.mp hx with rfl | hx
        · exact ⟨t, hb⟩
        · exact hall x hx

end DrawLoops

section Lights

variable {K : Type} [LinearOrderedCommRing K]

theorem lightLoop_eq_enumFrom (toMat4 : Transform K → Mat4 K) (shader : ShaderProgram) :
    ∀ (lights : List (LightSource K)) (index : Nat),
      lightLoop toMat4 shader index lights
        = (lights.enumFrom index).flatMap (fun p => lightUniforms toMat4 shader p.1 p.2)
  | [], _ => rfl
  | it :: rest, index => by
    simp only [lightLoop, List.enumFrom_cons, List.flatMap_cons,
      lightLoop_eq_enumFrom toMat4 shader rest (index + 1)]

theorem drawBall_eq_some (env : Collaborators K) (vp : Mat4 K)
    (lights : List (LightSource K)) (c : BallCommand K) (t : List (GLCall K))
    (h : drawBall env vp lights c = some t) :
    ∃ material shader mesh, c.material = some material ∧ material.shader = some shader
      ∧ c.mesh = some mesh
      ∧ t = [ GLCall.materialSetup material,
              GLCall.shaderSet shader "transform" (.mat4 (vp * c.localToWorld)),
              GLCall.shaderSet shader "axis" (.vec3 c.direction),
              GLCall.shaderSet shader "angle" (.float c.angle),
              GLCall.shaderSet shader "M" (.mat4 c.localToWorld),
              GLCall.shaderSet shader "M_IT" (.mat4 (env.inverse c.localToWorld).transpose),
              GLCall.shaderSet shader "cameraPos" (.vec3 c.center) ]
            ++ pushLights env.toMat4 shader lights ++ [GLCall.meshDraw mesh] := by
  unfold drawBall at h
  cases hmat : c.material with
  | none => simp [hmat] at h
  | some material =>
    cases hsh : material.shader with
    | none => simp [hmat, hsh] at h
    | some shader =>
      cases hmesh : c.mesh with
      | none => simp [hmat, hsh, hmesh] at h
      | some mesh =>
        simp only [hmat, hsh, hmesh, Option.some.injEq] at h
        exact ⟨material, shader, mesh, rfl, hsh, rfl, h.symm⟩

theorem drawCommand_lit_eq_some (env : Collaborators K) (vp : Mat4 K)
    (lights : List (LightSource K)) (c : RenderCommand K) (t : List (GLCall K))
    (material : Material) (hmat : c.material = some material)
    (hlit : (material.isLitMaterial || material.isLitTexturedMaterial) = true)
    (h : drawCommand env vp lights c = some t) :
    ∃ shader mesh, material.shader = some shader ∧ c.mesh = some mesh
      ∧ t = [ GLCall.materialSetup material,
              GLCall.shaderSet shader "transform" (.mat4 (vp * c.localToWorld)),
              GLCall.shaderSet shader "M" (.mat4 c.localToWorld),
              GLCall.shaderSet shader "M_IT" (.mat4 (env.inverse c.localToWorld).transpose),
              GLCall.shaderSet shader "cameraPos" (.vec3 c.center) ]
            ++ pushLights env.toMat4 shader lights ++ [GLCall.meshDraw mesh] := by
  unfold drawCommand at h
  cases hsh : material.shader with
  | none => simp [hmat, hsh] at h
  | some shader =>
    cases hmesh : c.mesh with
    | none => simp [hmat, hsh, hmesh] at h
    | some mesh =>
      simp only [hmat, hsh, hmesh, hlit, if_true, Option.some.injEq] at h
      refine ⟨shader, mesh, rfl, rfl, ?_⟩
      rw [← h]
      simp

/-- C18: when `render` finds a camera and completes, the light list is the list of the
Light components of the light-bearing entities in traversal order; the block of uniforms
pushed from it to a shader is, for `i = 0, ..., n - 1` in turn, the seven uniforms
`lights[i].lightType`, `.direction`, `.color`, `.position`, `.coneAngles`, `.attenuation`,
`.intensity` of light `i`, followed by `lightCount = n`, with `n` the number of
light-bearing entities; the draw of every special command, and of every opaque or
transparent command with a lit material, consists of its own uniforms, exactly this block
and the draw call; and the command sequence of `render` is made of these draws. -/
theorem C18_lights_pushed_per_lit_draw (env : Collaborators K) (self : ForwardRenderer K)
    (world : World K) (ex : Extraction K) (camera : CameraComponent K) (r : RenderResult K)
    (hex : extract env.toMat4 world = some ex) (hcam : ex.camera = some camera)
    (hr : render env self world = some r) :
    ex.lightsSources = world.entities.filterMap lightOf
      ∧ (∀ shader, pushLights env.toMat4 shader ex.lightsSources
          = (ex.lightsSources.enum.flatMap fun p =>
              [ GLCall.shaderSet shader ("lights[" ++ toString p.1 ++ "].lightType")
                  (.int p.2.light.lightType),
                GLCall.shaderSet shader ("lights[" ++ toString p.1 ++ "].direction")
                  (.vec3 p.2.light.direction),
                GLCall.shaderSet shader ("lights[" ++ toString p.1 ++ "].color")
                  (.vec3 p.2.light.color),
                GLCall.shaderSet shader ("lights[" ++ toString p.1 ++ "].position")
                  (.vec3 (Vec3.ofVec4 ((p.2.owner.getLocalToWorldMatrix env.toMat4).mulVec
                    (vec4 p.2.owner.localTransform.position 1)))),
                GLCall.shaderSet shader ("lights[" ++ toString p.1 ++ "].coneAngles")
                  (.vec2 p.2.light.coneAngles),
                GLCall.shaderSet shader ("lights[" ++ toString p.1 ++ "].attenuation")
                  (.vec3 p.2.light.attenuation),
                GLCall.shaderSet shader ("lights[" ++ toString p.1 ++ "].intensity")
                  (.float p.2.light.intensity) ])
            ++ [GLCall.shaderSet shader "lightCount"
                (.int (world.entities.filterMap lightOf).length)])
      ∧ (∀ c ∈ ex.ballModels, ∃ material shader mesh,
          c.material = some material ∧ material.shader = some shader ∧ c.mesh = some mesh
          ∧ drawBall env
              (env.getProjectionMatrix camera self.windowSize * env.getViewMatrix camera)
              ex.lightsSources c
            = some ([ GLCall.materialSetup material,
                GLCall.shaderSet shader "transform"
                  (.mat4 (env.getProjectionMatrix camera self.windowSize
                    * env.getViewMatrix camera * c.localToWorld)),
                GLCall.shaderSet shader "axis" (.vec3 c.direction),
                GLCall.shaderSet shader "angle" (.float c.angle),
                GLCall.shaderSet shader "M" (.mat4 c.localToWorld),
                GLCall.shaderSet shader "M_IT"
                  (.mat4 (env.inverse c.localToWorld).transpose),
                GLCall.shaderSet shader "cameraPos" (.vec3 c.center) ]
              ++ pushLights env.toMat4 shader ex.lightsSources ++ [GLCall.meshDraw mesh]))
      ∧ (∀ c ∈ ex.opaqueCommands ++ r.renderer.transparentCommands, ∀ material,
          c.material = some material →
          (material.isLitMaterial || material.isLitTexturedMaterial) = true →
          ∃ shader mesh, material.shader = some shader ∧ c.mesh = some mesh
            ∧ drawCommand env
                (env.getProjectionMatrix camera self.windowSize * env.getViewMatrix camera)
                ex.lightsSources c
              = some ([ GLCall.materialSetup material,
                  GLCall.shaderSet shader "transform"
                    (.mat4 (env.getProjectionMatrix camera self.windowSize
                      * env.getViewMatrix camera * c.localToWorld)),
                  GLCall.shaderSet shader "M" (.mat4 c.localToWorld),
                  GLCall.shaderSet shader "M_IT"
                    (.mat4 (env.inverse c.localToWorld).transpose),
                  GLCall.shaderSet shader "cameraPos" (.vec3 c.center) ]
                ++ pushLights env.toMat4 shader ex.lightsSources
                ++ [GLCall.meshDraw mesh]))
      ∧ ∃ bound skyCalls : List (GLCall K),
          r.calls = [ GLCall.glViewport 0 0 self.windowSize.1 self.windowSize.2,
              GLCall.glClearColor 0 0 0 1, GLCall.glClearDepth 1,
              GLCall.glColorMask true true true true, GLCall.glDepthMask true ]
            ++ bound ++ [GLCall.glClear]
            ++ (ex.ballModels.flatMap fun c =>
                (drawBall env
                  (env.getProjectionMatrix camera self.windowSize * env.getViewMatrix camera)
                  ex.lightsSources c).getD [])
            ++ (ex.opaqueCommands.flatMap fun c =>
                (drawCommand env
                  (env.getProjectionMatrix camera self.windowSize * env.getViewMatrix camera)
                  ex.lightsSources c).getD [])
            ++ skyCalls
            ++ (r.renderer.transparentCommands.flatMap fun c =>
                (drawCommand env
                  (env.getProjectionMatrix camera self.windowSize * env.getViewMatrix camera)
                  ex.lightsSources c).getD [])
            ++ composite self := by
  obtain ⟨bound, ballCalls, opaqueCalls, skyCalls, transparentCalls, _, hball, hop, _,
      htc, hren, hcalls⟩ :=
    renderWithCamera_eq_some env self ex camera r
      (render_eq_some_of_camera env self world ex camera r hex hcam hr)
  obtain ⟨_, hl, _⟩ := extractFrom_eq_some env.toMat4 world.entities _ ex hex
  have hlights : ex.lightsSources = world.entities.filterMap lightOf := by
    simpa [Extraction.initial] using hl
  obtain ⟨hbf, hball_all⟩ := drawLoop_eq_flatMap _ _ _ hball
  obtain ⟨hof, hop_all⟩ := drawLoop_eq_flatMap _ _ _ hop
  obtain ⟨htf, htc_all⟩ := drawLoop_eq_flatMap _ _ _ htc
  have hlist : r.renderer.transparentCommands
      = sortTransparent env camera ex.transparentCommands := by rw [hren]
  refine ⟨hlights, ?_, ?_, ?_, bound, skyCalls, ?_⟩
  · intro shader
    rw [← hlights]
    simp only [pushLights, lightLoop_eq_enumFrom, List.enum]
    rfl
  · intro c hc
    obtain ⟨t, ht⟩ := hball_all c hc
    obtain ⟨material, shader, mesh, h1, h2, h3, h4⟩ := drawBall_eq_some env _ _ c t ht
    exact ⟨material, shader, mesh, h1, h2, h3, by rw [ht, h4]⟩
  · intro c hc material hmat hlit
    rw [hlist] at hc
    have hsome : ∃ t, drawCommand env
        (env.getProjectionMatrix camera self.windowSize * env.getViewMatrix camera)
        ex.lightsSources c = some t := by
      rcases List.mem_append.mp hc with h | h
      · exact hop_all c h
      · exact htc_all c h
    obtain ⟨t, ht⟩ := hsome
    obtain ⟨shader, mesh, h1, h2, h3⟩ :=
      drawCommand_lit_eq_some env _ _ c t material hmat hlit ht
    exact ⟨shader, mesh, h1, h2, by rw [ht, h3]⟩
  · rw [hcalls, hbf, hof, htf, hlist]

/-- C18 witness: the sample world has one light; `render` completes with a sky and a
post-process stage, and each of the two lit draws pushes the seven uniforms of light 0 and
`lightCount = 1`, and no uniform of a light 1. -/
theorem C18_lights_pushed_per_lit_draw_witness :
    extract sampleEnv.toMat4 sampleWorld = some sampleExtraction
      ∧ sampleExtraction.camera = some sampleCamera
      ∧ ∃ r, render sampleEnv fullRenderer sampleWorld = some r
        ∧ sampleExtraction.lightsSources = sampleWorld.entities.filterMap lightOf
        ∧ uniformValues "lightCount" r.calls = [.int 1, .int 1]
        ∧ uniformValues "lights[0].lightType" r.calls = [.int 0, .int 0]
        ∧ uniformValues "lights[0].direction" r.calls = [.vec3 ⟨0, -1, 0⟩, .vec3 ⟨0, -1, 0⟩]
        ∧ uniformValues "lights[0].color" r.calls = [.vec3 ⟨1, 1, 1⟩, .vec3 ⟨1, 1, 1⟩]
        ∧ uniformValues "lights[0].position" r.calls = [.vec3 ⟨0, 8, 0⟩, .vec3 ⟨0, 8, 0⟩]
        ∧ uniformValues "lights[0].coneAngles" r.calls = [.vec2 ⟨0, 0⟩, .vec2 ⟨0, 0⟩]
        ∧ uniformValues "lights[0].attenuation" r.calls
            = [.vec3 ⟨1, 0, 0⟩, .vec3 ⟨1, 0, 0⟩]
        ∧ uniformValues "lights[0].intensity" r.calls = [.float 1, .float 1]
        ∧ uniformValues "lights[1].lightType" r.calls = [] := by
  have hsome : (render sampleEnv fullRenderer sampleWorld).isSome = true := rfl
  have hr := (Option.some_get hsome).symm
  exact ⟨rfl, rfl, _, hr,
    (C18_lights_pushed_per_lit_draw sampleEnv fullRenderer sampleWorld sampleExtraction
      sampleCamera _ rfl rfl hr).1, rfl, rfl, rfl, rfl, rfl, rfl, rfl, rfl, rfl⟩

end Lights

/-! ## Sky depth -/

section SkyDepth

variable {F : Type} [LinearOrderedField F]

theorem alwaysBehindTransform_mulVec {R : Type} [LinearOrderedCommRing R] (v : Vec4 R) :
    (alwaysBehindTransform : Mat4 R).mulVec v = ![v 0, v 1, v 3, v 3] := by
  funext i
  simp only [Matrix.mulVec, Matrix.dotProduct, Fin.sum_univ_four]
  fin_cases i
  · show (1 : R) * v 0 + 0 * v 1 + 0 * v 2 + 0 * v 3 = v 0
    ring
  · show (0 : R) * v 0 + 1 * v 1 + 0 * v 2 + 0 * v 3 = v 1
    ring
  · show (0 : R) * v 0 + 0 * v 1 + 0 * v 2 + 1 * v 3 = v 3
    ring
  · show (0 : R) * v 0 + 0 * v 1 + 0 * v 2 + 1 * v 3 = v 3
    ring

/-- C19: the matrix `alwaysBehindTransform` maps the clip-space vector `(x, y, z, w)` to
`(x, y, w, w)`, so for `w ≠ 0` the depth after the perspective divide is 1 while `x` and
`y` are unchanged.  When `render` finds a camera and completes with a sky material set, the
sky pass is part of its command sequence: the material setup, the uniform `transform` set
to `alwaysBehindTransform * view_projection * sky_model`, and the draw of the sky sphere;
under that matrix every vertex gets the `x` and `y` of its clip-space position
`view_projection * sky_model * vertex` and a `z` equal to its `w`, hence the depth 1 when
`w ≠ 0`. -/
theorem C19_sky_forced_to_maximum_depth (env : Collaborators F) (self : ForwardRenderer F)
    (world : World F) (ex : Extraction F) (camera : CameraComponent F) (r : RenderResult F)
    (skyMaterial : Material)
    (hex : extract env.toMat4 world = some ex) (hcam : ex.camera = some camera)
    (hr : render env self world = some r) (hsky : self.skyMaterial = some skyMaterial) :
    (∀ x y z w : F, (alwaysBehindTransform : Mat4 F).mulVec ![x, y, z, w] = ![x, y, w, w])
      ∧ (∀ x y z w : F, w ≠ 0 →
          (alwaysBehindTransform : Mat4 F).mulVec ![x, y, z, w] 2
              / (alwaysBehindTransform : Mat4 F).mulVec ![x, y, z, w] 3 = 1
            ∧ (alwaysBehindTransform : Mat4 F).mulVec ![x, y, z, w] 0 = x
            ∧ (alwaysBehindTransform : Mat4 F).mulVec ![x, y, z, w] 1 = y)
      ∧ ∃ shader skySphere before after,
          skyMaterial.shader = some shader ∧ self.skySphere = some skySphere
          ∧ drawSky env self
                (env.getProjectionMatrix camera self.windowSize * env.getViewMatrix camera)
                camera
              = some [ GLCall.materialSetup skyMaterial,
                  GLCall.shaderSet shader "transform"
                    (.mat4 (alwaysBehindTransform
                      * (env.getProjectionMatrix camera self.windowSize
                        * env.getViewMatrix camera)
                      * env.toMat4 ⟨Vec3.ofVec4 (vec4 camera.current_position 1),
                          ⟨0, 0, 0⟩, ⟨1, 1, 1⟩⟩)),
                  GLCall.meshDraw skySphere ]
          ∧ r.calls = before
              ++ [ GLCall.materialSetup skyMaterial,
                  GLCall.shaderSet shader "transform"
                    (.mat4 (alwaysBehindTransform
                      * (env.getProjectionMatrix camera self.windowSize
                        * env.getViewMatrix camera)
                      * env.toMat4 ⟨Vec3.ofVec4 (vec4 camera.current_position 1),
                          ⟨0, 0, 0⟩, ⟨1, 1, 1⟩⟩)),
                  GLCall.meshDraw skySphere ]
              ++ after
          ∧ ∀ vertex : Vec4 F,
              (alwaysBehindTransform
                  * (env.getProjectionMatrix camera self.windowSize
                    * env.getViewMatrix camera)
                  * env.toMat4 ⟨Vec3.ofVec4 (vec4 camera.current_position 1),
                      ⟨0, 0, 0⟩, ⟨1, 1, 1⟩⟩).mulVec vertex
                = ![((env.getProjectionMatrix camera self.windowSize
                        * env.getViewMatrix camera)
                      * env.toMat4 ⟨Vec3.ofVec4 (vec4 camera.current_position 1),
                          ⟨0, 0, 0⟩, ⟨1, 1, 1⟩⟩).mulVec vertex 0,
                    ((env.getProjectionMatrix camera self.windowSize
                        * env.getViewMatrix camera)
                      * env.toMat4 ⟨Vec3.ofVec4 (vec4 camera.current_position 1),
                          ⟨0, 0, 0⟩, ⟨1, 1, 1⟩⟩).mulVec vertex 1,
                    ((env.getProjectionMatrix camera self.windowSize
                        * env.getViewMatrix camera)
                      * env.toMat4 ⟨Vec3.ofVec4 (vec4 camera.current_position 1),
                          ⟨0, 0, 0⟩, ⟨1, 1, 1⟩⟩).mulVec vertex 3,
                    ((env.getProjectionMatrix camera self.windowSize
                        * env.getViewMatrix camera)
                      * env.toMat4 ⟨Vec3.ofVec4 (vec4 camera.current_position 1),
                          ⟨0, 0, 0⟩, ⟨1, 1, 1⟩⟩).mulVec vertex 3]
              ∧ (((env.getProjectionMatrix camera self.windowSize
                        * env.getViewMatrix camera)
                      * env.toMat4 ⟨Vec3.ofVec4 (vec4 camera.current_position 1),
                          ⟨0, 0, 0⟩, ⟨1, 1, 1⟩⟩).mulVec vertex 3 ≠ 0 →
                  (alwaysBehindTransform
                      * (env.getProjectionMatrix camera self.windowSize
                        * env.getViewMatrix camera)
                      * env.toMat4 ⟨Vec3.ofVec4 (vec4 camera.current_position 1),
                          ⟨0, 0, 0⟩, ⟨1, 1, 1⟩⟩).mulVec vertex 2
                    / (alwaysBehindTransform
                      * (env.getProjectionMatrix camera self.windowSize
                        * env.getViewMatrix camera)
                      * env.toMat4 ⟨Vec3.ofVec4 (vec4 camera.current_position 1),
                          ⟨0, 0, 0⟩, ⟨1, 1, 1⟩⟩).mulVec vertex 3 = 1) := by
  have hmap : ∀ x y z w : F,
      (alwaysBehindTransform : Mat4 F).mulVec ![x, y, z, w] = ![x, y, w, w] := by
    intro x y z w
    simpa using alwaysBehindTransform_mulVec ![x, y, z, w]
  have hvertex : ∀ (m : Mat4 F) (vertex : Vec4 F),
      (alwaysBehindTransform * m).mulVec vertex
        = ![m.mulVec vertex 0, m.mulVec vertex 1, m.mulVec vertex 3, m.mulVec vertex 3] := by
    intro m vertex
    rw [← Matrix.mulVec_mulVec, alwaysBehindTransform_mulVec]
  obtain ⟨bound, ballCalls, opaqueCalls, skyCalls, transparentCalls, _, _, _, hdraw, _, _,
      hcalls⟩ :=
    renderWithCamera_eq_some env self ex camera r
      (render_eq_some_of_camera env self world ex camera r hex hcam hr)
  refine ⟨hmap, ?_, ?_⟩
  · intro x y z w hw
    rw [hmap]
    simp [hw]
  unfold drawSky at hdraw
  rw [hsky] at hdraw
  simp only at hdraw
  cases hshader : skyMaterial.shader with
  | none => simp [hshader] at hdraw
  | some shader =>
    cases hsphere : self.skySphere with
    | none => simp [hshader, hsphere] at hdraw
    | some skySphere =>
      simp only [hshader, hsphere, Option.some.injEq] at hdraw
      refine ⟨shader, skySphere,
        [ GLCall.glViewport 0 0 self.windowSize.1 self.windowSize.2,
            GLCall.glClearColor 0 0 0 1, GLCall.glClearDepth 1,
            GLCall.glColorMask true true true true, GLCall.glDepthMask true ]
          ++ bound ++ [GLCall.glClear] ++ ballCalls ++ opaqueCalls,
        transparentCalls ++ composite self, rfl, rfl, ?_, ?_, ?_⟩
      · unfold drawSky
        simp only [hsky, hshader, hsphere]
      · rw [hcalls, ← hdraw]
        simp only [List.append_assoc]
      · intro vertex
        rw [Matrix.mul_assoc, hvertex]
        refine ⟨rfl, fun hw => ?_⟩
        simp [hw]

/-- C19 witness: a world with a camera over the rationals, rendered with a sky: the sky
pass is in the command sequence, and the clip-space vector `(1, 2, 3, 4)` is mapped to
`(1, 2, 4, 4)`. -/
theorem C19_sky_forced_to_maximum_depth_witness :
    skyRenderer.skyMaterial = some skyDome
      ∧ (alwaysBehindTransform : Mat4 ℚ).mulVec ![1, 2, 3, 4] = ![1, 2, 4, 4]
      ∧ ∃ ex r, extract skyEnv.toMat4 skyWorld = some ex ∧ ex.camera = some skyCamera
        ∧ render skyEnv skyRenderer skyWorld = some r
        ∧ ∃ before after, r.calls = before
            ++ [ GLCall.materialSetup skyDome,
                GLCall.shaderSet ⟨91⟩ "transform"
                  (.mat4 (alwaysBehindTransform
                    * (skyEnv.getProjectionMatrix skyCamera skyRenderer.windowSize
                      * skyEnv.getViewMatrix skyCamera)
                    * skyEnv.toMat4 ⟨Vec3.ofVec4 (vec4 skyCamera.current_position 1),
                        ⟨0, 0, 0⟩, ⟨1, 1, 1⟩⟩)),
                GLCall.meshDraw ⟨90⟩ ]
            ++ after := by
  have hexsome : (extract skyEnv.toMat4 skyWorld).isSome = true := rfl
  have hex := (Option.some_get hexsome).symm
  have hsome : (render skyEnv skyRenderer skyWorld).isSome = true := rfl
  have hr := (Option.some_get hsome).symm
  have h := C19_sky_forced_to_maximum_depth skyEnv skyRenderer skyWorld _ skyCamera _ skyDome
    hex rfl hr rfl
  obtain ⟨shader, skySphere, before, after, hshader, hsphere, _, hcalls, _⟩ := h.2.2
  have h1 : shader = ⟨91⟩ := (Option.some.inj hshader).symm
  have h2 : skySphere = ⟨90⟩ := (Option.some.inj hsphere).symm
  subst h1 h2
  exact ⟨rfl, h.1 1 2 3 4, _, _, hex, rfl, hr, before, after, hcalls⟩

end SkyDepth

/-! ## Null movement component -/

section BallModels

variable {K : Type} [LinearOrderedCommRing K]

theorem extractEntity_ballModels (toMat4 : Transform K → Mat4 K) (s s1 : Extraction K)
    (e : Entity K) (h : extractEntity toMat4 s e = some s1) :
    s1.ballModels = s.ballModels ++ (ballCommandOf toMat4 e).toList := by
  rcases e with ⟨n, t, c, p⟩
  rcases c with ⟨cam, mr, light, ball, mov⟩
  unfold extractEntity at h
  simp only [Entity.components] at h
  cases mr with
  | none =>
    simp only [Option.some.injEq] at h
    subst h
    cases light <;> simp [collectLight, ballCommandOf, Entity.components]
  | some mr =>
    rcases mr with ⟨mesh, material⟩
    cases p with
    | none =>
      cases material with
      | none => simp [extractMesh, Entity.parent, buildCommand] at h
      | some m =>
        cases ht : m.transparent <;>
          simp only [extractMesh, Entity.parent, buildCommand, ht] at h <;>
          simp only [Option.some.injEq, if_true, if_false, Bool.false_eq_true] at h <;>
          subst h <;> cases light <;>
          simp [collectLight, ballCommandOf, Entity.components, Entity.parent]
    | some p =>
      rcases p with ⟨pn, pt, pc, pp⟩
      rcases pc with ⟨pcam, pmr, plight, pball, pmov⟩
      cases pball with
      | none =>
        cases material with
        | none => simp [extractMesh, Entity.parent, Entity.components, buildCommand] at h
        | some m =>
          cases ht : m.transparent <;>
            simp only [extractMesh, Entity.parent, Entity.components, buildCommand, ht] at h <;>
            simp only [Option.some.injEq, if_true, if_false, Bool.false_eq_true,
              Option.isSome_none] at h <;>
            subst h <;> cases light <;>
            simp [collectLight, ballCommandOf, Entity.components, Entity.parent]
      | some b =>
        cases pmov with
        | none => simp [extractMesh, Entity.parent, Entity.components, buildCommand] at h
        | some mv =>
          simp only [extractMesh, Entity.parent, Entity.components, buildCommand] at h
          simp only [Option.some.injEq, if_true, Option.isSome_some] at h
          subst h
          cases light <;>
            simp [collectLight, ballCommandOf, Entity.components, Entity.parent, buildCommand]

theorem extractFrom_ballModels (toMat4 : Transform K → Mat4 K) :
    ∀ (es : List (Entity K)) (s ex : Extraction K), extractFrom toMat4 s es = some ex →
      ex.ballModels = s.ballModels ++ es.filterMap (ballCommandOf toMat4)
  | [], s, ex, h => by
    simp only [extractFrom, Option.some.injEq] at h
    subst h
    simp
  | e :: rest, s, ex, h => by
    cases h1 : extractEntity toMat4 s e with
    | none => simp [extractFrom, h1] at h
    | some s1 =>
      simp only [extractFrom, h1] at h
      rw [extractFrom_ballModels toMat4 rest s1 ex h, extractEntity_ballModels toMat4 s s1 e h1,
        List.filterMap_cons]
      cases ballCommandOf toMat4 e <;> simp

end BallModels

section MovementPointers

variable {K : Type}

theorem extractable_eq_not_missesMovement (e : Entity K)
    (hmat : ∀ mr, e.components.meshRenderer = some mr → mr.material.isSome = true) :
    extractable e = !missesMovement e := by
  rcases e with ⟨n, t, c, p⟩
  rcases c with ⟨cam, mr, light, ball, mov⟩
  cases mr with
  | none => simp [extractable, missesMovement, Entity.components]
  | some mr =>
    have hm := hmat mr rfl
    cases p with
    | none => simp [extractable, missesMovement, Entity.components, Entity.parent, hm]
    | some p =>
      cases hb : p.components.ball.isSome <;> cases hv : p.components.movement <;>
        simp [extractable, missesMovement, Entity.components, Entity.parent, hm, hb, hv]

theorem missesMovement_iff (e : Entity K) :
    missesMovement e = true ↔
      ∃ mr p, e.components.meshRenderer = some mr ∧ e.parent = some p
        ∧ p.components.ball.isSome = true ∧ p.components.movement = none := by
  rcases e with ⟨n, t, c, p⟩
  rcases c with ⟨cam, mr, light, ball, mov⟩
  cases mr with
  | none => simp [missesMovement, Entity.components]
  | some mr =>
    cases p with
    | none => simp [missesMovement, Entity.components, Entity.parent]
    | some p =>
      simp [missesMovement, Entity.components, Entity.parent, Option.isNone_iff_eq_none]

theorem ballCommandOf_eq_some (toMat4 : Transform K → Mat4 K) [LinearOrderedCommRing K]
    (e : Entity K) (c : BallCommand K) (h : ballCommandOf toMat4 e = some c) :
    ∃ mr p movement, e.components.meshRenderer = some mr ∧ e.parent = some p
      ∧ p.components.ball.isSome = true ∧ p.components.movement = some movement
      ∧ c.angle = movement.current_angle.x ∧ c.direction = movement.forward
      ∧ c.toRenderCommand = buildCommand toMat4 e mr := by
  rcases e with ⟨n, t, comps, p⟩
  rcases comps with ⟨cam, mr, light, ball, mov⟩
  cases mr with
  | none => simp [ballCommandOf, Entity.components] at h
  | some mr =>
    cases p with
    | none => simp [ballCommandOf, Entity.components, Entity.parent] at h
    | some p =>
      rcases p with ⟨pn, pt, pc, pp⟩
      rcases pc with ⟨pcam, pmr, plight, pball, pmov⟩
      cases pball with
      | none => simp [ballCommandOf, Entity.components, Entity.parent] at h
      | some b =>
        cases pmov with
        | none => simp [ballCommandOf, Entity.components, Entity.parent] at h
        | some mv =>
          simp only [ballCommandOf, Entity.components, Entity.parent, Option.isSome_some,
            if_true, Option.some.injEq] at h
          subst h
          exact ⟨mr, _, mv, rfl, rfl, rfl, rfl, rfl, rfl, rfl⟩

theorem materials_of_all_hasMaterial {K : Type} (es : List (Entity K))
    (h : es.all hasMaterial = true) :
    ∀ e ∈ es, ∀ mr, e.components.meshRenderer = some mr → mr.material.isSome = true := by
  intro e he mr hmr
  have := List.all_eq_true.mp h e he
  simpa [hasMaterial, hmr] using this

theorem movement_of_all_not_missesMovement {K : Type} (es : List (Entity K))
    (h : es.all (fun e => !missesMovement e) = true) :
    ∀ e ∈ es, ∀ mr p, e.components.meshRenderer = some mr → e.parent = some p →
      p.components.ball.isSome = true → p.components.movement ≠ none := by
  intro e he mr p h1 h2 h3 h4
  have hm : missesMovement e = true := (missesMovement_iff e).mpr ⟨mr, p, h1, h2, h3, h4⟩
  have := List.all_eq_true.mp h e he
  rw [hm] at this
  exact absurd this (by simp)

end MovementPointers

section MovementDereference

variable {K : Type} [LinearOrderedCommRing K]

/-- C20: when every mesh renderer has a non-null material, extraction dereferences a null
pointer (returns `none`) if and only if some entity with a mesh renderer has a parent that
carries the Ball marker but no movement component; and when no entity is like that,
extraction completes and the special bucket holds, in traversal order, one command per
mesh renderer under a Ball-marked parent, with `angle` the `current_angle.x` and
`direction` the `forward` of the parent's movement component. -/
theorem C20_null_movement_dereference (toMat4 : Transform K → Mat4 K) (world : World K)
    (hmat : ∀ e ∈ world.entities, ∀ mr, e.components.meshRenderer = some mr →
      mr.material.isSome = true) :
    (extract toMat4 world = none ↔
        ∃ e ∈ world.entities, ∃ mr p, e.components.meshRenderer = some mr
          ∧ e.parent = some p ∧ p.components.ball.isSome = true
          ∧ p.components.movement = none)
      ∧ ((∀ e ∈ world.entities, ∀ mr p, e.components.meshRenderer = some mr →
            e.parent = some p → p.components.ball.isSome = true →
            p.components.movement ≠ none) →
          ∃ ex, extract toMat4 world = some ex
            ∧ ex.ballModels = world.entities.filterMap (ballCommandOf toMat4)
            ∧ ∀ c ∈ ex.ballModels, ∃ e ∈ world.entities, ∃ mr p movement,
                e.components.meshRenderer = some mr ∧ e.parent = some p
                  ∧ p.components.ball.isSome = true
                  ∧ p.components.movement = some movement
                  ∧ c.angle = movement.current_angle.x ∧ c.direction = movement.forward
                  ∧ c.toRenderCommand = buildCommand toMat4 e mr) := by
  have hsome : (extract toMat4 world).isSome
      = world.entities.all (fun e => !missesMovement e) := by
    unfold extract
    rw [extractFrom_isSome, Bool.eq_iff_iff, List.all_eq_true, List.all_eq_true]
    constructor
    · intro h e he
      rw [← extractable_eq_not_missesMovement e (hmat e he)]
      exact h e he
    · intro h e he
      rw [extractable_eq_not_missesMovement e (hmat e he)]
      exact h e he
  constructor
  · constructor
    · intro hnone
      rw [hnone] at hsome
      have : ¬ (world.entities.all (fun e => !missesMovement e) = true) := by
        rw [← hsome]; simp
      rw [List.all_eq_true] at this
      push_neg at this
      obtain ⟨e, he, hmiss⟩ := this
      have hm : missesMovement e = true := by simpa using hmiss
      obtain ⟨mr, p, h1, h2, h3, h4⟩ := (missesMovement_iff e).mp hm
      exact ⟨e, he, mr, p, h1, h2, h3, h4⟩
    · rintro ⟨e, he, mr, p, h1, h2, h3, h4⟩
      have hm : missesMovement e = true := (missesMovement_iff e).mpr ⟨mr, p, h1, h2, h3, h4⟩
      cases hx : extract toMat4 world with
      | none => rfl
      | some ex =>
        rw [hx] at hsome
        have hall := hsome.symm
        simp only [Option.isSome_some, List.all_eq_true] at hall
        have := hall e he
        rw [hm] at this
        exact absurd this (by simp)
  · intro hpre
    have hall : world.entities.all (fun e => !missesMovement e) = true := by
      rw [List.all_eq_true]
      intro e he
      cases hm : missesMovement e with
      | false => rfl
      | true =>
        obtain ⟨mr, p, h1, h2, h3, h4⟩ := (missesMovement_iff e).mp hm
        exact absurd h4 (hpre e he mr p h1 h2 h3)
    rw [hall] at hsome
    obtain ⟨ex, hex⟩ := Option.isSome_iff_exists.mp hsome
    have hb : ex.ballModels = world.entities.filterMap (ballCommandOf toMat4) := by
      have := extractFrom_ballModels toMat4 world.entities _ ex hex
      simpa [Extraction.initial] using this
    refine ⟨ex, hex, hb, ?_⟩
    intro c hc
    rw [hb, List.mem_filterMap] at hc
    obtain ⟨e, he, hce⟩ := hc
    obtain ⟨mr, p, mv, h1, h2, h3, h4, h5, h6, h7⟩ := ballCommandOf_eq_some toMat4 e c hce
    exact ⟨e, he, mr, p, mv, h1, h2, h3, h4, h5, h6, h7⟩

/-- C20 witness: in `brokenWorld` every mesh renderer has a material and extraction
dereferences the missing movement component; in `sampleWorld` every Ball-marked parent has
one, and the special bucket is the ball skin's command. -/
theorem C20_null_movement_dereference_witness :
    (∀ e ∈ brokenWorld.entities, ∀ mr, e.components.meshRenderer = some mr →
        mr.material.isSome = true)
      ∧ extract toMat4ZeroRotation brokenWorld = none
      ∧ ∃ ex, extract toMat4ZeroRotation sampleWorld = some ex
        ∧ ex.ballModels = sampleWorld.entities.filterMap (ballCommandOf toMat4ZeroRotation)
        ∧ ex.ballModels = [skinCommand] := by
  have hbroken := materials_of_all_hasMaterial brokenWorld.entities rfl
  have hsample := materials_of_all_hasMaterial sampleWorld.entities rfl
  refine ⟨hbroken, ?_, ?_⟩
  · exact (C20_null_movement_dereference toMat4ZeroRotation brokenWorld hbroken).1.mpr
      ⟨orphanSkin, by simp [brokenWorld], _, orphanBall, rfl, rfl, rfl, rfl⟩
  · obtain ⟨ex, h1, h2, _⟩ :=
      (C20_null_movement_dereference toMat4ZeroRotation sampleWorld hsample).2
        (movement_of_all_not_missesMovement sampleWorld.entities rfl)
    refine ⟨ex, h1, h2, ?_⟩
    have hex : extract toMat4ZeroRotation sampleWorld = some sampleExtraction := rfl
    have heq : sampleExtraction = ex := Option.some.inj (hex.symm.trans h1)
    rw [← heq]
    rfl

end MovementDereference

/-! ## The level timer -/

section Timer

theorem intResult_of_mem (x : Int) (h1 : INT_MIN ≤ x) (h2 : x ≤ INT_MAX) :
    intResult x = some x := by
  simp [intResult, h1, h2]

/-- C28 (as stated, refuted): for `minutes = 35791395` and `seconds = 0`, both values of
an `int`, the total `T = 2147483700` is at least 1, but `minutes * 60` overflows `int` and
the call has no defined result. -/
theorem C28_counterexample_overflow :
    INT_MIN ≤ hugeTimer.minutes ∧ hugeTimer.minutes ≤ INT_MAX
      ∧ INT_MIN ≤ hugeTimer.seconds ∧ hugeTimer.seconds ≤ INT_MAX
      ∧ 1 ≤ hugeTimer.seconds + 60 * hugeTimer.minutes
      ∧ INT_MAX < hugeTimer.minutes * 60
      ∧ hugeTimer.decreaseTime = none := by
  decide

/-- C28 (amended): when `minutes * 60` and `T = seconds + minutes * 60` are values of an
`int` and `T ≥ 1`, the call is defined and leaves `60 * minutes' + seconds' = T - 1` with
`0 ≤ seconds' ≤ 59` and `minutes' ≥ 0`; `timeUp` is true afterwards if `T = 1`, and keeps
its value otherwise. -/
theorem C28_decreaseTime (s : Level3state)
    (hproduct : INT_MIN ≤ s.minutes * 60 ∧ s.minutes * 60 ≤ INT_MAX)
    (htotal : s.seconds + s.minutes * 60 ≤ INT_MAX)
    (hpositive : 1 ≤ s.seconds + 60 * s.minutes) :
    ∃ s1, s.decreaseTime = some s1
      ∧ 60 * s1.minutes + s1.seconds = s.seconds + 60 * s.minutes - 1
      ∧ 0 ≤ s1.seconds ∧ s1.seconds ≤ 59 ∧ 0 ≤ s1.minutes
      ∧ (s.seconds + 60 * s.minutes = 1 → s1.timeUp = true)
      ∧ (s.seconds + 60 * s.minutes ≠ 1 → s1.timeUp = s.timeUp) := by
  have hT : (1 : Int) ≤ s.seconds + s.minutes * 60 := by omega
  have h1 := intResult_of_mem (s.minutes * 60) hproduct.1 hproduct.2
  have h2 := intResult_of_mem (s.seconds + s.minutes * 60)
    (by simp only [INT_MIN]; omega) htotal
  have h3 := intResult_of_mem (s.seconds + s.minutes * 60 - 1)
    (by simp only [INT_MIN]; omega) (by omega)
  have hnonneg : (0 : Int) ≤ s.seconds + s.minutes * 60 - 1 := by omega
  refine ⟨_, by simp only [Level3state.decreaseTime, h1, h2, h3]; rfl, ?_, ?_, ?_, ?_, ?_, ?_⟩
  · have := Int.tdiv_add_tmod (s.seconds + s.minutes * 60 - 1) 60
    simp only
    omega
  · exact Int.tmod_nonneg _ hnonneg
  · have := Int.tmod_lt_of_pos (s.seconds + s.minutes * 60 - 1) (by decide : (0 : Int) < 60)
    simp only
    omega
  · exact Int.tdiv_nonneg hnonneg (by decide)
  · intro h
    have : s.seconds + s.minutes * 60 - 1 = 0 := by omega
    simp [this]
  · intro h
    have : s.seconds + s.minutes * 60 - 1 ≠ 0 := by omega
    simp [this]

/-- C28 witness: one second off the start value 0:30 leaves 0:29. -/
theorem C28_decreaseTime_witness :
    (INT_MIN ≤ startTimer.minutes * 60 ∧ startTimer.minutes * 60 ≤ INT_MAX)
      ∧ startTimer.seconds + startTimer.minutes * 60 ≤ INT_MAX
      ∧ 1 ≤ startTimer.seconds + 60 * startTimer.minutes
      ∧ startTimer.decreaseTime = some ⟨0, 29, false⟩
      ∧ ∃ s1, startTimer.decreaseTime = some s1
          ∧ 60 * s1.minutes + s1.seconds = startTimer.seconds + 60 * startTimer.minutes - 1 :=
  ⟨by decide, by decide, by decide, by decide,
    (C28_decreaseTime startTimer (by decide) (by decide) (by decide)).imp
      fun _ h => ⟨h.1, h.2.1⟩⟩

end Timer

/-! ## The jump state machine and the transparency comparator -/

section Jump

variable {K : Type} [LinearOrderedField K]

/-- C23: `jump` leaves a component that is ascending or descending as it is; on a
component that is neither, it sets `vertical_velocity` to `JUMPING_FORCE` (2.4) and
`ascending` to true and changes no other member. -/
theorem C23_jump_only_when_grounded (c : MovementComponent K) :
    ((c.ascending = true ∨ c.descending = true) → c.jump = c)
      ∧ (c.ascending = false ∧ c.descending = false →
          c.jump = { c with vertical_velocity := 24 / 10, ascending := true })
      ∧ (JUMPING_FORCE : K) = 24 / 10 := by
  refine ⟨?_, ?_, rfl⟩
  · intro h
    have : (c.ascending || c.descending) = true := by simpa using h
    simp [MovementComponent.jump, this]
  · rintro ⟨h1, h2⟩
    simp [MovementComponent.jump, h1, h2, JUMPING_FORCE]

theorem jump_flags (c : MovementComponent K)
    (h : ¬(c.ascending = true ∧ c.descending = true)) :
    ¬(c.jump.ascending = true ∧ c.jump.descending = true) := by
  unfold MovementComponent.jump
  cases ha : c.ascending <;> cases hd : c.descending <;> simp_all

theorem updateJumpState_flags (c : MovementComponent K) (y deltaTime : K)
    (h : ¬(c.ascending = true ∧ c.descending = true)) :
    ¬((c.updateJumpState y deltaTime).1.ascending = true
      ∧ (c.updateJumpState y deltaTime).1.descending = true) := by
  unfold MovementComponent.updateJumpState
  cases ha : c.ascending <;> cases hd : c.descending
  · simp [ha, hd]
  · simp only [ha, hd, Bool.or_true, if_true, Bool.false_eq_true, if_false]
    split_ifs <;> simp [ha]
  · simp only [ha, hd, Bool.or_false, if_true]
    split_ifs <;> simp_all
  · exact absurd ⟨ha, hd⟩ h

theorem runJumpCalls_flags (calls : List (JumpCall K)) :
    ∀ state : MovementComponent K × K,
      ¬(state.1.ascending = true ∧ state.1.descending = true) →
      ¬((runJumpCalls calls state).1.ascending = true
        ∧ (runJumpCalls calls state).1.descending = true) := by
  induction calls with
  | nil => intro state h; exact h
  | cons call rest ih =>
    intro state h
    simp only [runJumpCalls, List.foldl_cons] at ih ⊢
    apply ih
    cases call with
    | jump => exact jump_flags state.1 h
    | updateJumpState deltaTime => exact updateJumpState_flags state.1 state.2 deltaTime h

/-- C27: if `ascending` and `descending` are not both true, they are not both true after
`jump()` nor after `updateJumpState(deltaTime)`, for every `deltaTime` and every height of
the owner; hence after any sequence of such calls from a state with both flags false the
two flags are not both true. -/
theorem C27_flags_never_both_set (c : MovementComponent K) (y : K)
    (h : ¬(c.ascending = true ∧ c.descending = true)) :
    ¬(c.jump.ascending = true ∧ c.jump.descending = true)
      ∧ (∀ deltaTime : K, ¬((c.updateJumpState y deltaTime).1.ascending = true
          ∧ (c.updateJumpState y deltaTime).1.descending = true))
      ∧ (∀ (initial : MovementComponent K) (y0 : K) (calls : List (JumpCall K)),
          initial.ascending = false → initial.descending = false →
          ¬((runJumpCalls calls (initial, y0)).1.ascending = true
            ∧ (runJumpCalls calls (initial, y0)).1.descending = true)) :=
  ⟨jump_flags c h, fun deltaTime => updateJumpState_flags c y deltaTime h,
    fun initial y0 calls h1 h2 => runJumpCalls_flags calls (initial, y0) (by simp [h1, h2])⟩

/-- C27 witness: the component at rest. -/
theorem C27_flags_never_both_set_witness :
    ¬(restingMovement.ascending = true ∧ restingMovement.descending = true)
      ∧ ¬(restingMovement.jump.ascending = true ∧ restingMovement.jump.descending = true) :=
  ⟨by decide, (C27_flags_never_both_set restingMovement 1 (by decide)).1⟩

end Jump

section Comparator

variable {K : Type} [LinearOrderedCommRing K]

/-- C25: for every camera forward vector the comparator handed to `std::sort` is a strict
weak ordering: it is irreflexive, asymmetric and transitive, and incomparability (neither
`comp(a, b)` nor `comp(b, a)`) is transitive. -/
theorem C25_comparator_strict_weak_ordering (cameraForward : Vec3 K) :
    (∀ a, transparentComparator cameraForward a a = false)
      ∧ (∀ a b, transparentComparator cameraForward a b = true →
          transparentComparator cameraForward b a = false)
      ∧ (∀ a b c, transparentComparator cameraForward a b = true →
          transparentComparator cameraForward b c = true →
          transparentComparator cameraForward a c = true)
      ∧ (∀ a b c, transparentComparator cameraForward a b = false →
          transparentComparator cameraForward b a = false →
          transparentComparator cameraForward b c = false →
          transparentComparator cameraForward c b = false →
          transparentComparator cameraForward a c = false
            ∧ transparentComparator cameraForward c a = false)
      ∧ (∀ a b, transparentComparator cameraForward a b
          = decide (dot cameraForward a.center > dot cameraForward b.center)) := by
  have h := transparentComparator_strictWeak cameraForward
  exact ⟨h.irrefl, h.asymm, h.trans, h.incomp_trans,
    fun a b => transparentComparator_eq cameraForward a b⟩

/-- C24: when `render` finds a camera and completes, the transparent bucket it leaves is a
permutation of the extracted transparent bucket: the same commands with the same
multiplicities.  `std::sort` is any function meeting the contract of the C++ standard. -/
theorem C24_sort_permutes (env : Collaborators K) (hsort : StdSortContract env.sort)
    (self : ForwardRenderer K) (world : World K) (ex : Extraction K)
    (camera : CameraComponent K) (r : RenderResult K)
    (hex : extract env.toMat4 world = some ex) (hcam : ex.camera = some camera)
    (hr : render env self world = some r) :
    r.renderer.transparentCommands.Perm ex.transparentCommands
      ∧ r.renderer.transparentCommands.length = ex.transparentCommands.length
      ∧ ∀ c, r.renderer.transparentCommands.count c = ex.transparentCommands.count c := by
  obtain ⟨_, _, _, _, _, _, _, _, _, _, hren, _⟩ :=
    renderWithCamera_eq_some env self ex camera r
      (render_eq_some_of_camera env self world ex camera r hex hcam hr)
  have hperm := sortTransparent_perm env hsort camera ex.transparentCommands
  have hlist : r.renderer.transparentCommands
      = sortTransparent env camera ex.transparentCommands := by rw [hren]
  rw [← hlist] at hperm
  exact ⟨hperm, hperm.length_eq, fun c => hperm.count_eq c⟩

/-- C24 witness: the sample world, rendered with the insertion sort. -/
theorem C24_sort_permutes_witness :
    StdSortContract sampleEnv.sort
      ∧ extract sampleEnv.toMat4 sampleWorld = some sampleExtraction
      ∧ sampleExtraction.camera = some sampleCamera
      ∧ ∃ r, render sampleEnv fullRenderer sampleWorld = some r
        ∧ sampleExtraction.transparentCommands = [nearCommand, farCommand]
        ∧ r.renderer.transparentCommands = [farCommand, nearCommand]
        ∧ r.renderer.transparentCommands.Perm sampleExtraction.transparentCommands := by
  have hsome : (render sampleEnv fullRenderer sampleWorld).isSome = true := rfl
  have hr := (Option.some_get hsome).symm
  exact ⟨insertionSortBy_contract, rfl, rfl, _, hr, rfl, rfl,
    (C24_sort_permutes sampleEnv insertionSortBy_contract fullRenderer sampleWorld
      sampleExtraction sampleCamera _ rfl rfl hr).1⟩

end Comparator

/-! ## Deserialization and the light position -/

section Deserialize

variable {K : Type}

theorem runStatements_invariant {σ : Type} (P : σ → Prop) :
    ∀ (statements : List (σ → Option σ)) (s : σ),
      (∀ statement ∈ statements, ∀ a b, statement a = some b → P a → P b) → P s →
      P (runStatements statements s).1
  | [], s, _, hs => hs
  | statement :: rest, s, hall, hs => by
    unfold runStatements
    cases h : statement s with
    | none => exact hs
    | some s1 =>
      exact runStatements_invariant P rest s1
        (fun st hst => hall st (List.mem_cons_of_mem _ hst))
        (hall statement (List.mem_cons_self _ _) s s1 h hs)

theorem map_members_eq_some {α : Type} (P : MovementObject K → Prop) (ov : Option α)
    (f : α → MovementObject K) (b : MovementObject K) (h : ov.map f = some b)
    (hP : ∀ v, P (f v)) : P b := by
  cases ov with
  | none => simp at h
  | some v =>
    simp only [Option.map_some', Option.some.injEq] at h
    rw [← h]
    exact hP v

end Deserialize

section Deserialize2

variable {K : Type} [LinearOrderedField K]

/-- C21: for every JSON object without the key `movementType`, the movement type after
`MovementComponent::deserialize` is `NORMAL`, whatever it was before, whether the call
returns or throws on a later key. -/
theorem C21_movementType_defaults_to_normal (inverse : Mat4 K → Mat4 K)
    (getVec3 : JsonValue K → Option (Vec3 K)) (ownerLocalToWorld : Mat4 K)
    (data : JsonValue K) (self : MovementObject K)
    (hobject : data.is_object = true) (hkey : data.contains "movementType" = false) :
    (self.deserialize inverse getVec3 ownerLocalToWorld data).1.members.movementType
      = Movement_Type.NORMAL := by
  have hfind : data.find "movementType" = none := by
    simpa [JsonValue.contains] using hkey
  unfold MovementObject.deserialize
  simp only [hobject, Bool.not_true, Bool.false_eq_true, if_false]
  unfold MovementObject.deserializeStatements
  rw [runStatements]
  dsimp only
  rw [runStatements]
  have hvalue : data.value JsonValue.getString "movementType" "normal" = some "normal" := by
    simp [JsonValue.value, hfind]
  simp only [hvalue, Option.map_some']
  refine runStatements_invariant
    (fun o : MovementObject K => o.members.movementType = Movement_Type.NORMAL) _ _ ?_ ?_
  · intro statement hmem a b hab ha
    simp only [List.mem_cons, List.mem_singleton, List.not_mem_nil, or_false] at hmem
    rcases hmem with h | h | h | h | h | h | h | h | h | h | h | h | h | h | h | h <;>
      subst h <;>
      first
        | exact map_members_eq_some (fun o => o.members.movementType = Movement_Type.NORMAL)
            _ _ b hab (fun _ => ha)
        | (simp only [Option.some.injEq] at hab
           rw [← hab]
           exact ha)
  · simp [movementTypeOfString]

/-- C21 witness: a descriptor with only `initial_speed` and `canRoll` turns a
`FIXED_ROTATION` component into a `NORMAL` one. -/
theorem C21_movementType_defaults_to_normal_witness :
    speedOnly.is_object = true ∧ speedOnly.contains "movementType" = false
      ∧ spinningObject.members.movementType = Movement_Type.FIXED_ROTATION
      ∧ (spinningObject.deserialize (fun m => m) (fun _ => none) 1 speedOnly).1.members.movementType
          = Movement_Type.NORMAL :=
  ⟨rfl, by decide, rfl,
    C21_movementType_defaults_to_normal (fun m => m) (fun _ => none) 1 speedOnly
      spinningObject rfl (by decide)⟩

end Deserialize2

section EntityDeserialize

variable {K : Type}

/-- C22: `Entity::deserialize` on a JSON value that is not an object returns at its first
statement: the entity (name, local transform, components, parent) is the one before the
call, no component descriptor is handed to the component deserializer, and nothing is
thrown. -/
theorem C22_deserialize_ignores_non_object
    (transformDeserialize : JsonValue K → Transform K → Transform K)
    (deserializeComponent : JsonValue K → Entity K → Entity K) (data : JsonValue K)
    (self : Entity K) (h : data.is_object = false) :
    Entity.deserialize transformDeserialize deserializeComponent data self
        = ⟨self, [], false⟩
      ∧ (Entity.deserialize transformDeserialize deserializeComponent data self).entity.name
          = self.name
      ∧ (Entity.deserialize transformDeserialize deserializeComponent data
          self).entity.localTransform = self.localTransform
      ∧ (Entity.deserialize transformDeserialize deserializeComponent data
          self).entity.components = self.components
      ∧ (Entity.deserialize transformDeserialize deserializeComponent data self).components
          = [] := by
  have hself : Entity.deserialize transformDeserialize deserializeComponent data self
      = ⟨self, [], false⟩ := by
    unfold Entity.deserialize
    simp [h]
  rw [hself]
  exact ⟨rfl, rfl, rfl, rfl, rfl⟩

/-- C22 witness: an array handed to the crate leaves it as it was, also under a transform
deserializer that would move every entity to the origin and a component deserializer that
would strip every component. -/
theorem C22_deserialize_ignores_non_object_witness :
    notAnObject.is_object = false
      ∧ Entity.deserialize (fun _ _ => transformAt ⟨0, 0, 0⟩)
          (fun _ e => .mk e.name e.localTransform noComponents e.parent) notAnObject crate
        = ⟨crate, [], false⟩ :=
  ⟨rfl, (C22_deserialize_ignores_non_object (fun _ _ => transformAt ⟨0, 0, 0⟩)
    (fun _ e => .mk e.name e.localTransform noComponents e.parent) notAnObject crate rfl).1⟩

end EntityDeserialize

section LightPosition

variable {K : Type} [LinearOrderedCommRing K]

theorem translationMatrix_mulVec (p q : Vec3 K) (w : K) :
    Vec3.ofVec4 ((translationMatrix p).mulVec (vec4 q w))
      = ⟨q.x + p.x * w, q.y + p.y * w, q.z + p.z * w⟩ := by
  simp [Vec3.ofVec4, translationMatrix, vec4, Matrix.mulVec, Matrix.dotProduct,
    Fin.sum_univ_four]

theorem translationMatrix_center (toMat4 : Transform K → Mat4 K) (e : Entity K)
    (hparent : e.parent = none)
    (htranslation : toMat4 e.localTransform = translationMatrix e.localTransform.position) :
    e.getLocalToWorldMatrix toMat4 = translationMatrix e.localTransform.position := by
  cases e with
  | mk n t c p =>
    cases p with
    | some q => simp [Entity.parent] at hparent
    | none =>
      rw [Entity.getLocalToWorldMatrix_root]
      exact htranslation

/-- C26: for every light, the fourth uniform pushed for light `i` is `lights[i].position`,
and its value is the owner's local-to-world matrix applied to the owner's local position
with `w = 1`; this is the owner's world-space center plus the linear part of that matrix
applied to the local position.  For an owner without parent whose transform matrix is the
translation by its position `P`, the value is `2P`, while the owner's world-space center is
`P`; the two differ as soon as `P` is not the origin. -/
theorem C26_light_position_is_transformed_local_position (toMat4 : Transform K → Mat4 K)
    (shader : ShaderProgram) (i : Nat) (it : LightSource K) :
    (lightUniforms toMat4 shader i it)[3]?
        = some (.shaderSet shader ("lights[" ++ toString i ++ "].position")
            (.vec3 (Vec3.ofVec4 ((it.owner.getLocalToWorldMatrix toMat4).mulVec
              (vec4 it.owner.localTransform.position 1)))))
      ∧ Vec3.ofVec4 ((it.owner.getLocalToWorldMatrix toMat4).mulVec
            (vec4 it.owner.localTransform.position 1))
          = ⟨(it.owner.getLocalToWorldCenter toMat4).x
                + (it.owner.getLocalToWorldMatrix toMat4 0 0 * it.owner.localTransform.position.x
                  + it.owner.getLocalToWorldMatrix toMat4 0 1
                    * it.owner.localTransform.position.y
                  + it.owner.getLocalToWorldMatrix toMat4 0 2
                    * it.owner.localTransform.position.z),
              (it.owner.getLocalToWorldCenter toMat4).y
                + (it.owner.getLocalToWorldMatrix toMat4 1 0 * it.owner.localTransform.position.x
                  + it.owner.getLocalToWorldMatrix toMat4 1 1
                    * it.owner.localTransform.position.y
                  + it.owner.getLocalToWorldMatrix toMat4 1 2
                    * it.owner.localTransform.position.z),
              (it.owner.getLocalToWorldCenter toMat4).z
                + (it.owner.getLocalToWorldMatrix toMat4 2 0 * it.owner.localTransform.position.x
                  + it.owner.getLocalToWorldMatrix toMat4 2 1
                    * it.owner.localTransform.position.y
                  + it.owner.getLocalToWorldMatrix toMat4 2 2
                    * it.owner.localTransform.position.z)⟩
      ∧ (it.owner.parent = none →
          toMat4 it.owner.localTransform
            = translationMatrix it.owner.localTransform.position →
          Vec3.ofVec4 ((it.owner.getLocalToWorldMatrix toMat4).mulVec
              (vec4 it.owner.localTransform.position 1))
            = ⟨2 * it.owner.localTransform.position.x,
                2 * it.owner.localTransform.position.y,
                2 * it.owner.localTransform.position.z⟩
          ∧ it.owner.getLocalToWorldCenter toMat4 = it.owner.localTransform.position
          ∧ (it.owner.localTransform.position ≠ ⟨0, 0, 0⟩ →
              Vec3.ofVec4 ((it.owner.getLocalToWorldMatrix toMat4).mulVec
                  (vec4 it.owner.localTransform.position 1))
                ≠ it.owner.getLocalToWorldCenter toMat4)) := by
  refine ⟨rfl, ?_, ?_⟩
  · simp only [Vec3.ofVec4, vec4, Entity.getLocalToWorldCenter, Matrix.mulVec,
      Matrix.dotProduct, Fin.sum_univ_four, Vec3.mk.injEq]
    refine ⟨?_, ?_, ?_⟩ <;> simp <;> ring
  intro hparent htranslation
  have hmatrix := translationMatrix_center toMat4 it.owner hparent htranslation
  have hpushed : Vec3.ofVec4 ((it.owner.getLocalToWorldMatrix toMat4).mulVec
        (vec4 it.owner.localTransform.position 1))
      = ⟨2 * it.owner.localTransform.position.x, 2 * it.owner.localTransform.position.y,
          2 * it.owner.localTransform.position.z⟩ := by
    rw [hmatrix, translationMatrix_mulVec]
    simp [two_mul]
  have hcenter : it.owner.getLocalToWorldCenter toMat4 = it.owner.localTransform.position := by
    simp [Entity.getLocalToWorldCenter, hmatrix, translationMatrix]
  refine ⟨hpushed, hcenter, ?_⟩
  intro hne heq
  rw [hpushed, hcenter] at heq
  apply hne
  generalize it.owner.localTransform.position = P at heq
  cases P with
  | mk x y z =>
    simp only [Vec3.mk.injEq] at heq ⊢
    obtain ⟨hx, hy, hz⟩ := heq
    exact ⟨by linarith, by linarith, by linarith⟩

/-- C26 witness: the light of the sample world sits at `(0, 4, 0)` without parent, and
every lit draw of the sample frame pushes `(0, 8, 0)` as `lights[0].position`; the light
at the local position `(1, 0, 0)` under a root scaled by 2 has its center at `(2, 0, 0)`,
and the lit draw of its world pushes `(4, 0, 0)`. -/
theorem C26_light_position_is_transformed_local_position_witness :
    lightEntity.parent = none
      ∧ toMat4ZeroRotation lightEntity.localTransform
          = translationMatrix lightEntity.localTransform.position
      ∧ lightEntity.getLocalToWorldCenter toMat4ZeroRotation = ⟨0, 4, 0⟩
      ∧ Vec3.ofVec4 ((lightEntity.getLocalToWorldMatrix toMat4ZeroRotation).mulVec
            (vec4 lightEntity.localTransform.position 1)) = ⟨0, 8, 0⟩
      ∧ (∃ r, render sampleEnv fullRenderer sampleWorld = some r
          ∧ uniformValues "lights[0].position" r.calls
              = [.vec3 ⟨0, 8, 0⟩, .vec3 ⟨0, 8, 0⟩])
      ∧ parentedLight.getLocalToWorldCenter toMat4ZeroRotation = ⟨2, 0, 0⟩
      ∧ (lightUniforms toMat4ZeroRotation ⟨8⟩ 0
            ⟨⟨0, ⟨0, -1, 0⟩, ⟨1, 1, 1⟩, ⟨0, 0⟩, ⟨1, 0, 0⟩, 1⟩, parentedLight⟩)[3]?
          = some (.shaderSet ⟨8⟩ "lights[0].position" (.vec3 ⟨4, 0, 0⟩))
      ∧ ∃ r, render sampleEnv plainRenderer lampWorld = some r
          ∧ uniformValues "lights[0].position" r.calls = [.vec3 ⟨4, 0, 0⟩] := by
  have hsome : (render sampleEnv fullRenderer sampleWorld).isSome = true := rfl
  have hr := (Option.some_get hsome).symm
  have hlamp : (render sampleEnv plainRenderer lampWorld).isSome = true := rfl
  have h := (C26_light_position_is_transformed_local_position toMat4ZeroRotation ⟨8⟩ 0
    ⟨⟨0, ⟨0, -1, 0⟩, ⟨1, 1, 1⟩, ⟨0, 0⟩, ⟨1, 0, 0⟩, 1⟩, lightEntity⟩).2.2 rfl rfl
  have hparented := (C26_light_position_is_transformed_local_position toMat4ZeroRotation
    ⟨8⟩ 0 ⟨⟨0, ⟨0, -1, 0⟩, ⟨1, 1, 1⟩, ⟨0, 0⟩, ⟨1, 0, 0⟩, 1⟩, parentedLight⟩).1
  exact ⟨rfl, rfl, h.2.1, h.1, ⟨_, hr, rfl⟩, rfl, hparented,
    ⟨_, (Option.some_get hlamp).symm, rfl⟩⟩

end LightPosition

end our
